import Mathlib

/-!
# Stan-Task chatbot backend: memory model and fallback classifier

A shallow embedding of the parts of the repository that the specification's
properties talk about:

* `src/services/geminiService.js`  (`getFallbackEmotion`)
* `demo-server.js`                 (`mockEmotionAnalysis`)
* `src/models/UserProfile.js`      (`addImportantFact`, `incrementConversationStats`)
* `src/models/Conversation.js`     (`getRecentMessages`)
* `src/services/memoryService.js`  (`getUserProfile`, `createUserProfile`,
  `createTemporaryProfile`, `updateUserProfile`, `updateUserMemory`,
  `saveMessage`, `getRecentMessages`)

The definitions come first, in the order of the source files; the theorems
follow, each property of the specification under its identifier (`C1`, `C2`, ...).

Conventions of the embedding.

* JavaScript strings are Lean `String`s; `String.prototype.includes` is the
  substring test `includes`; `toLowerCase` lowers the ASCII letters (the
  trigger words of the source are all ASCII; every theorem about the
  classifiers is stated on the lower-cased text, whatever the lowering did).
* JavaScript numbers are exact rationals (`ℚ`); `new Date()` is a parameter
  `now : Time` of the operation that reads the clock; a `Date` holds a time
  value of at most 8.64e15 ms in absolute value, and the time zone of the host
  is a field of the environment.
* A profile read from the cache is the output of `JSON.parse`: the same
  fields, the dates as texts (`datesAsText`).
* The document store is a list of documents in natural order; `findOne` returns
  the first document matching the query; a failing store is a flag of the
  environment and a rejected promise is `Except.error`.
-/

namespace StanTask

/-! ## Strings -/

/-- The text `String.prototype.toLowerCase` yields (ASCII letters lowered). -/
def toLowerCase (s : String) : String := ⟨s.data.map Char.toLower⟩

/-- Whether `pre` is a prefix of `l`. -/
def startsWithChars : List Char → List Char → Bool
  | _, [] => true
  | [], _ :: _ => false
  | c :: l, p :: pre => c == p && startsWithChars l pre

/-- Whether `sub` occurs in `l` as a contiguous block. -/
def includesChars : List Char → List Char → Bool
  | [], sub => startsWithChars [] sub
  | c :: l, sub => startsWithChars (c :: l) sub || includesChars l sub

/-- The test `s.includes(sub)` of JavaScript. -/
def includes (s sub : String) : Bool := includesChars s.data sub.data

/-! ## Emotion classifier (fallback paths) -/

/-- The object `{ emotion, sentiment, mood }` the classifiers return. -/
structure EmotionResult where
  emotion : String
  sentiment : ℚ
  mood : String
  deriving DecidableEq, Repr

/-- `getFallbackEmotion(text)` of `geminiService.js`. -/
def getFallbackEmotion (text : String) : EmotionResult :=
  let lowerText := toLowerCase text
  if includes lowerText "sad" || includes lowerText "down" || includes lowerText "upset" then
    { emotion := "sad", sentiment := -0.7, mood := "sad" }
  else if includes lowerText "happy" || includes lowerText "excited" ||
      includes lowerText "great" then
    { emotion := "happy", sentiment := 0.8, mood := "happy" }
  else if includes lowerText "angry" || includes lowerText "mad" then
    { emotion := "angry", sentiment := -0.8, mood := "angry" }
  else if includes lowerText "?" then
    { emotion := "curious", sentiment := 0.2, mood := "curious" }
  else
    { emotion := "neutral", sentiment := 0, mood := "neutral" }

/-- `mockEmotionAnalysis(text)` of `demo-server.js`. -/
def mockEmotionAnalysis (text : String) : EmotionResult :=
  let lowerText := toLowerCase text
  if includes lowerText "sad" || includes lowerText "down" || includes lowerText "depressed" ||
      includes lowerText "upset" || includes lowerText "wrong" || includes lowerText "terrible" ||
      includes lowerText "feeling really down" ||
      includes lowerText "everything is going wrong" then
    { emotion := "sad", sentiment := -0.7, mood := "sad" }
  else if includes lowerText "happy" || includes lowerText "excited" ||
      includes lowerText "great" || includes lowerText "amazing" ||
      includes lowerText "promoted" || includes lowerText "wonderful" ||
      includes lowerText "just got promoted" || includes lowerText "so excited" then
    { emotion := "happy", sentiment := 0.8, mood := "happy" }
  else if includes lowerText "excited" || includes lowerText "can't wait" ||
      includes lowerText "thrilled" then
    { emotion := "excited", sentiment := 0.9, mood := "excited" }
  else if includes lowerText "angry" || includes lowerText "mad" ||
      includes lowerText "furious" then
    { emotion := "angry", sentiment := -0.8, mood := "angry" }
  else if includes lowerText "?" then
    { emotion := "curious", sentiment := 0.2, mood := "curious" }
  else
    { emotion := "neutral", sentiment := 0.1, mood := "calm" }

/-- One category of a keyword classifier as the specification describes it:
its trigger words and the fixed result it stands for. -/
structure Category where
  triggers : List String
  result : EmotionResult

/-- The specification's classifier: the result of the first category of the
table with a trigger occurring in the lower-cased text, else the default. -/
def classifyByPriority (table : List Category) (dflt : EmotionResult)
    (lowerText : String) : EmotionResult :=
  match table.find? (fun c => c.triggers.any (fun w => includes lowerText w)) with
  | some c => c.result
  | none => dflt

/-- The categories of `getFallbackEmotion`, in the order of its tests. -/
def fallbackCategories : List Category :=
  [ { triggers := ["sad", "down", "upset"],
      result := { emotion := "sad", sentiment := -0.7, mood := "sad" } },
    { triggers := ["happy", "excited", "great"],
      result := { emotion := "happy", sentiment := 0.8, mood := "happy" } },
    { triggers := ["angry", "mad"],
      result := { emotion := "angry", sentiment := -0.8, mood := "angry" } },
    { triggers := ["?"],
      result := { emotion := "curious", sentiment := 0.2, mood := "curious" } } ]

/-- The categories of `mockEmotionAnalysis`, in the order of its tests. -/
def mockCategories : List Category :=
  [ { triggers := ["sad", "down", "depressed", "upset", "wrong", "terrible",
        "feeling really down", "everything is going wrong"],
      result := { emotion := "sad", sentiment := -0.7, mood := "sad" } },
    { triggers := ["happy", "excited", "great", "amazing", "promoted", "wonderful",
        "just got promoted", "so excited"],
      result := { emotion := "happy", sentiment := 0.8, mood := "happy" } },
    { triggers := ["excited", "can't wait", "thrilled"],
      result := { emotion := "excited", sentiment := 0.9, mood := "excited" } },
    { triggers := ["angry", "mad", "furious"],
      result := { emotion := "angry", sentiment := -0.8, mood := "angry" } },
    { triggers := ["?"],
      result := { emotion := "curious", sentiment := 0.2, mood := "curious" } } ]

/-! ## User profile (`src/models/UserProfile.js`) -/

/-- Milliseconds since the epoch: the value of a `Date`. -/
abbrev Time := Nat

/-- An entry of `memory.importantFacts`. -/
structure ImportantFact where
  fact : String
  confidence : ℚ
  lastMentioned : Option Time
  category : Option String
  deriving DecidableEq, Repr

/-- An entry of `memory.relationships`. -/
structure Relationship where
  name : Option String
  relationship : Option String
  details : Option String
  deriving DecidableEq, Repr

/-- An entry of `memory.experiences`. -/
structure Experience where
  event : String
  date : Option Time
  emotion : Option String
  importance : Option ℚ
  deriving DecidableEq, Repr

/-- An entry of `memory.goals`. -/
structure Goal where
  goal : String
  status : Option String
  deadline : Option Time
  progress : Option ℚ
  deriving DecidableEq, Repr

/-- The `profile` sub-document; an absent field is `none`. -/
structure ProfileInfo where
  name : Option String := none
  preferredName : Option String := none
  age : Option ℚ := none
  location : Option String := none
  occupation : Option String := none
  interests : Option (List String) := none
  hobbies : Option (List String) := none
  personalityTraits : Option (List String) := none
  communicationStyle : Option String := none
  deriving DecidableEq, Repr

/-- The `preferences` sub-document. -/
structure Preferences where
  topics : Option (List String) := none
  conversationLength : Option String := none
  responseStyle : Option String := none
  reminderFrequency : Option String := none
  deriving DecidableEq, Repr

/-- The `memory` sub-document. -/
structure Memory where
  importantFacts : List ImportantFact := []
  relationships : List Relationship := []
  experiences : List Experience := []
  goals : List Goal := []
  deriving DecidableEq, Repr

/-- The `conversationHistory` sub-document (aggregate statistics). -/
structure ConversationHistory where
  totalSessions : ℚ := 0
  totalMessages : ℚ := 0
  averageSessionLength : ℚ := 0
  lastActive : Option Time := none
  frequentTopics : List (String × ℚ) := []
  emotionalPatterns : List (String × ℚ) := []
  deriving DecidableEq, Repr

/-- The `chatbotPersona` sub-document. -/
structure ChatbotPersona where
  name : Option String := none
  personality : Option String := none
  backstory : Option String := none
  relationshipWithUser : Option String := none
  deriving DecidableEq, Repr

/-- A user profile: a document of the `UserProfile` collection, the plain
object of `createTemporaryProfile` (the only one with `isTemporary`), or the
plain object `JSON.parse` gives for a cached snapshot. In the last one the
dates are no `Date` objects but the ISO texts of the dates recorded here, which
`datesAsText` tells. -/
structure UserProfile where
  userId : String
  profile : ProfileInfo := {}
  preferences : Preferences := {}
  memory : Memory := {}
  conversationHistory : ConversationHistory := {}
  chatbotPersona : ChatbotPersona := {}
  isTemporary : Bool := false
  datesAsText : Bool := false
  deriving DecidableEq, Repr

/-- `JSON.parse(JSON.stringify(profile))`: the plain object with the same
fields, every date turned into its ISO text. -/
def UserProfile.parsed (self : UserProfile) : UserProfile :=
  { self with datesAsText := true }

/-- The in-place update of the element `Array.prototype.find` returns: the
first element satisfying `p` is replaced by its image under `f`. -/
def modifyFirst {α : Type} (p : α → Bool) (f : α → α) : List α → List α
  | [] => []
  | a :: l => if p a then f a :: l else a :: modifyFirst p f l

/-- The predicate of `addImportantFact`'s `find`:
`f.fact.toLowerCase() === fact.toLowerCase()`. -/
def sameFactText (fact : String) (f : ImportantFact) : Bool :=
  toLowerCase f.fact == toLowerCase fact

/-- The method `addImportantFact(fact, category, confidence)`, called at time `now`,
as a transformation of the in-memory document (the method then saves it). A
caller that leaves out `category` or `confidence` passes the defaults
`"general"` and `1`. -/
def UserProfile.addImportantFact (self : UserProfile) (now : Time) (fact : String)
    (category : String) (confidence : ℚ) : UserProfile :=
  match self.memory.importantFacts.find? (sameFactText fact) with
  | some _ =>
    { self with memory := { self.memory with
        importantFacts := modifyFirst (sameFactText fact)
          (fun existingFact => { existingFact with
            lastMentioned := some now
            confidence := max existingFact.confidence confidence })
          self.memory.importantFacts } }
  | none =>
    { self with memory := { self.memory with
        importantFacts := self.memory.importantFacts ++
          [{ fact := fact, category := some category, confidence := confidence,
             lastMentioned := some now }] } }

/-- The method `incrementConversationStats(messageCount)`, called at time `now`. -/
def UserProfile.incrementConversationStats (self : UserProfile) (now : Time)
    (messageCount : ℚ) : UserProfile :=
  let totalSessions := self.conversationHistory.totalSessions + 1
  let totalMessages := self.conversationHistory.totalMessages + messageCount
  { self with conversationHistory := { self.conversationHistory with
      totalSessions := totalSessions
      totalMessages := totalMessages
      lastActive := some now
      averageSessionLength :=
        if totalSessions > 0 then totalMessages / totalSessions
        else self.conversationHistory.averageSessionLength } }

/-- The number of entries of the fact list with the text `fact`, ignoring case. -/
def factCount (fact : String) (facts : List ImportantFact) : Nat :=
  (facts.filter (sameFactText fact)).length

/-- No two entries of the fact list have the same text ignoring case. -/
def FactsDistinct (facts : List ImportantFact) : Prop :=
  facts.Pairwise (fun a b => toLowerCase a.fact ≠ toLowerCase b.fact)

/-- A profile whose fact list holds the same fact twice. -/
def duplicatedFactsProfile : UserProfile :=
  { userId := "u1"
    memory := { importantFacts :=
      [ { fact := "Name is John", confidence := 0.8, lastMentioned := none, category := none },
        { fact := "Name is John", confidence := 0.8, lastMentioned := none, category := none } ] } }

/-! ## Conversations (`src/models/Conversation.js`) -/

/-- The value of a message's `emotion` field: a label, as the schema declares
it, or the whole analysis object, as the chat route passes it. -/
inductive EmotionField where
  | label (emotion : String)
  | analysis (result : EmotionResult)
  deriving DecidableEq, Repr

/-- A stored message: an element of `conversation.messages`. -/
structure Message where
  role : String
  content : String
  timestamp : Time
  emotion : Option EmotionField := none
  sentiment : Option ℚ := none
  deriving DecidableEq, Repr

/-- The `context` sub-document of a conversation. -/
structure ConversationContext where
  currentTopic : Option String := none
  userMood : Option String := none
  conversationStyle : Option String := none
  lastInteraction : Option Time := none
  deriving DecidableEq, Repr

/-- A document of the `Conversation` collection. -/
structure Conversation where
  userId : String
  sessionId : String
  messages : List Message := []
  context : ConversationContext := {}
  summary : Option String := none
  isActive : Bool := true
  createdAt : Time := 0
  updatedAt : Time := 0
  deriving DecidableEq, Repr

/-- `Array.prototype.slice(start)`: a negative `start` counts from the end. -/
def sliceFrom {α : Type} (l : List α) (start : Int) : List α :=
  if start < 0 then l.drop (Int.toNat (l.length + start)) else l.drop start.toNat

/-- `Array.prototype.slice(0, end)`: a negative `end` counts from the end. -/
def sliceTo {α : Type} (l : List α) (stop : Int) : List α :=
  if stop < 0 then l.take (Int.toNat (l.length + stop)) else l.take stop.toNat

/-- `messages.sort((a, b) => b.timestamp - a.timestamp)`: the stable sort of
`Array.prototype.sort`, latest timestamp first. -/
def sortByTimestampDesc (messages : List Message) : List Message :=
  messages.insertionSort (fun a b => b.timestamp ≤ a.timestamp)

/-- The list returned by the method `getRecentMessages(limit)` of a
conversation document (the method sorts `this.messages` in place before it
slices; a caller that leaves out `limit` passes 10). -/
def Conversation.getRecentMessages (self : Conversation) (limit : Int) : List Message :=
  (sliceTo (sortByTimestampDesc self.messages) limit).reverse

/-- The document after the method `getRecentMessages(limit)`: the call to
`this.messages.sort(...)` has sorted the array of the document itself. -/
def Conversation.afterGetRecentMessages (self : Conversation) : Conversation :=
  { self with messages := sortByTimestampDesc self.messages }

/-- The method `addMessage(role, content, emotion, sentiment)`, called at time
`now`, as a transformation of the document (the method then saves it). A
caller that leaves out `emotion` or `sentiment` passes `"neutral"` and `0`. -/
def Conversation.addMessage (self : Conversation) (now : Time) (role content : String)
    (emotion : String) (sentiment : ℚ) : Conversation :=
  { self with
    messages := self.messages ++
      [{ role := role, content := content, emotion := some (EmotionField.label emotion),
         sentiment := some sentiment, timestamp := now }]
    context := { self.context with lastInteraction := some now } }

/-- The object spread `{ ...context, ...updates }`: a field of `updates` that is
present replaces the field of `context`. -/
def mergeContext (context updates : ConversationContext) : ConversationContext :=
  { currentTopic := updates.currentTopic.orElse (fun _ => context.currentTopic)
    userMood := updates.userMood.orElse (fun _ => context.userMood)
    conversationStyle := updates.conversationStyle.orElse (fun _ => context.conversationStyle)
    lastInteraction := updates.lastInteraction.orElse (fun _ => context.lastInteraction) }

/-- The method `updateContext(updates)` as a transformation of the document. -/
def Conversation.updateContext (self : Conversation) (updates : ConversationContext) :
    Conversation :=
  { self with context := mergeContext self.context updates }

/-! ## Memory service (`src/services/memoryService.js`) -/

/-- The queries of the document store that can reject. -/
inductive DbOp where
  | profileFindOne
  | profileFindOneAndUpdate
  | conversationFindOne
  | conversationFind
  | conversationDeleteOne
  | conversationDeleteMany
  deriving DecidableEq, Repr

/-- The cache (`this.redis`): the snapshots held under the profile keys and
under the conversation keys, the time to live (in seconds) each key was last
written with, and whether its operations reject. -/
structure Redis where
  profiles : List (String × UserProfile) := []
  conversations : List (String × Conversation) := []
  ttl : List (String × Nat) := []
  getFails : Bool := false
  setFails : Bool := false
  delFails : Bool := false

/-- What a `MemoryService` works on: the optional cache, the two collections
in natural order, the queries that reject, the documents whose `save`
resolves (schema validation and availability of the store), and the time zone
of the host: `localTZA t true` is the offset of local time from UTC, in
milliseconds, at the UTC time value `t`, and `localTZA t false` the offset at
the local time value `t` (0 on a host that runs on UTC). -/
structure World where
  redis : Option Redis := none
  profiles : List UserProfile := []
  conversations : List Conversation := []
  fails : DbOp → Bool := fun _ => false
  acceptsProfile : UserProfile → Bool := fun _ => true
  acceptsConversation : Conversation → Bool := fun _ => true
  localTZA : Int → Bool → Int := fun _ _ => 0

/-- `this.CACHE_TTL`: one hour. -/
def CACHE_TTL : Nat := 3600

/-- The key `user_profile:<userId>` of the cache. -/
def profileCacheKey (userId : String) : String := "user_profile:" ++ userId

/-- The cache read of `getUserProfile`: `JSON.parse` of the snapshot under the
key when a cache is configured, its `get` resolves and the key is present. -/
def cachedProfile (w : World) (userId : String) : Option UserProfile :=
  match w.redis with
  | some redis =>
    if redis.getFails then none
    else (redis.profiles.lookup (profileCacheKey userId)).map UserProfile.parsed
  | none => none

/-- The cache write `redis.setEx(cacheKey, CACHE_TTL, JSON.stringify(profile))`,
whose failure is logged and ignored. -/
def cacheProfile (w : World) (userId : String) (profile : UserProfile) : World :=
  match w.redis with
  | some redis =>
    if redis.setFails then w
    else { w with redis := some { redis with
      profiles := (profileCacheKey userId, profile) ::
        redis.profiles.filter (fun kv => kv.1 != profileCacheKey userId)
      ttl := (profileCacheKey userId, CACHE_TTL) ::
        redis.ttl.filter (fun kv => kv.1 != profileCacheKey userId) } }
  | none => w

/-- `createTemporaryProfile(userId)`: the plain object returned when the store
is not available. -/
def createTemporaryProfile (userId : String) : UserProfile :=
  { userId := userId
    profile := { communicationStyle := some "casual" }
    preferences := { responseStyle := some "empathetic", conversationLength := some "moderate" }
    memory := { importantFacts := [], relationships := [], experiences := [], goals := [] }
    conversationHistory :=
      { totalSessions := 0, totalMessages := 0, averageSessionLength := 0,
        frequentTopics := [], emotionalPatterns := [] }
    isTemporary := true }

/-- The document `new UserProfile({...})` of `createUserProfile`: the fields the
call gives, the other paths at their schema defaults (an array path is the
empty array, `reminderFrequency` is `occasionally`). -/
def newUserProfile (userId : String) : UserProfile :=
  { userId := userId
    profile :=
      { communicationStyle := some "casual", interests := some [], hobbies := some [],
        personalityTraits := some [] }
    preferences :=
      { responseStyle := some "empathetic", conversationLength := some "moderate",
        reminderFrequency := some "occasionally", topics := some [] }
    memory := { importantFacts := [], relationships := [], experiences := [], goals := [] }
    conversationHistory :=
      { totalSessions := 0, totalMessages := 0, averageSessionLength := 0,
        frequentTopics := [], emotionalPatterns := [] } }

/-- `createUserProfile(userId)`: builds the default document and saves it; a
rejected `save` is an error. -/
def createUserProfile (w : World) (userId : String) : Except String (UserProfile × World) :=
  let profile := newUserProfile userId
  if w.acceptsProfile profile then
    .ok (profile, { w with profiles := w.profiles ++ [profile] })
  else .error "profile.save() rejected"

/-- `getUserProfile(userId)`: cache first, then the store (creating the profile
when there is none), then the cache write; an error of the store part is
caught and answered with the temporary profile. The outer `catch` rethrows,
which is why the result is an `Except`. -/
def getUserProfile (w : World) (userId : String) : Except String UserProfile × World :=
  match cachedProfile w userId with
  | some cached => (.ok cached, w)
  | none =>
    if w.fails .profileFindOne then (.ok (createTemporaryProfile userId), w)
    else
      match w.profiles.find? (fun p => p.userId == userId) with
      | some profile => (.ok profile, cacheProfile w userId profile)
      | none =>
        match createUserProfile w userId with
        | .ok (profile, w₁) => (.ok profile, cacheProfile w₁ userId profile)
        | .error _ => (.ok (createTemporaryProfile userId), w)

/-- The `$set` document `updateUserMemory` builds: an absent key is `none`. -/
structure ProfileUpdates where
  importantFacts : Option (List ImportantFact) := none
  interests : Option (List String) := none
  preferences : Option (List (String × String)) := none
  experiences : Option (List Experience) := none
  deriving DecidableEq, Repr

/-- The `preferences` sub-document holding the string fields of an object. -/
def preferencesOfObject (fields : List (String × String)) : Preferences :=
  { conversationLength := fields.lookup "conversationLength"
    responseStyle := fields.lookup "responseStyle"
    reminderFrequency := fields.lookup "reminderFrequency" }

/-- The effect of `{ $set: updates }` on a profile: every path present in
`updates` is replaced by the given value, the other paths stay. -/
def applySet (updates : ProfileUpdates) (p : UserProfile) : UserProfile :=
  { p with
    memory := { p.memory with
      importantFacts := updates.importantFacts.getD p.memory.importantFacts
      experiences := updates.experiences.getD p.memory.experiences }
    profile := { p.profile with
      interests := match updates.interests with
        | some interests => some interests
        | none => p.profile.interests }
    preferences := match updates.preferences with
      | some fields => preferencesOfObject fields
      | none => p.preferences }

/-- `UserProfile.findOneAndUpdate({ userId }, { $set: ... }, { new: true,
upsert: true })` for a `$set` whose effect on a document is `set`: the first
profile of the user is updated in place, or a document is inserted that holds
the user id, the schema defaults of the other paths (those of
`newUserProfile`) and the updates; the updated document is returned. -/
def findOneAndSet (profiles : List UserProfile) (userId : String)
    (set : UserProfile → UserProfile) : UserProfile × List UserProfile :=
  match profiles.find? (fun p => p.userId == userId) with
  | some profile => (set profile, modifyFirst (fun p => p.userId == userId) set profiles)
  | none => (set (newUserProfile userId), profiles ++ [set (newUserProfile userId)])

/-- `UserProfile.findOneAndUpdate({ userId }, { $set: updates }, { new: true,
upsert: true })` for the `$set` document `updateUserMemory` builds. -/
def findOneAndUpdate (profiles : List UserProfile) (userId : String)
    (updates : ProfileUpdates) : UserProfile × List UserProfile :=
  findOneAndSet profiles userId (applySet updates)

/-- `updateUserProfile(userId, updates)`. -/
def updateUserProfile (w : World) (userId : String) (updates : ProfileUpdates) :
    Except String UserProfile × World :=
  if w.fails .profileFindOneAndUpdate then (.ok (createTemporaryProfile userId), w)
  else
    let (profile, profiles) := findOneAndUpdate w.profiles userId updates
    (.ok profile, cacheProfile { w with profiles := profiles } userId profile)

/-- The object the memory extractor returns; a missing field is `none`. -/
structure ExtractedInfo where
  facts : Option (List String) := none
  interests : Option (List String) := none
  preferences : Option (List (String × String)) := none
  experiences : List String := []
  relationships : List String := []
  deriving DecidableEq, Repr

/-- `updateUserMemory(userId, extractedInfo, emotionAnalysis)`: the returned
flag and the store afterwards. Reading the keys of a missing `preferences`
throws, which the method catches and answers with `false`. The `timestamp`
the method puts on a fact or an experience is no path of the schema, so the
entries carry no `lastMentioned` and no `date`; the experience, cast to a
subdocument, gets the schema default 5 of `importance`. -/
def updateUserMemory (w : World) (userId : String) (extractedInfo : ExtractedInfo)
    (emotionAnalysis : Option EmotionResult) : Bool × World :=
  let importantFacts : Option (List ImportantFact) :=
    match extractedInfo.facts with
    | some facts =>
      if facts.length > 0 then
        some (facts.map (fun fact =>
          { fact := fact, confidence := 0.8, lastMentioned := none, category := none }))
      else none
    | none => none
  let interests : Option (List String) :=
    match extractedInfo.interests with
    | some interests => if interests.length > 0 then some interests else none
    | none => none
  match extractedInfo.preferences with
  | none => (false, w)
  | some fields =>
    let preferences := if fields.length > 0 then some fields else none
    let experiences : Option (List Experience) :=
      match emotionAnalysis with
      | some analysis =>
        if analysis.emotion ≠ "" then
          some [{ event := "Recent conversation", emotion := some analysis.emotion,
                  date := none, importance := some 5 }]
        else none
      | none => none
    let updates : ProfileUpdates :=
      { importantFacts := importantFacts, interests := interests,
        preferences := preferences, experiences := experiences }
    if updates ≠ {} then
      match updateUserProfile w userId updates with
      | (.ok _, w₁) => (true, w₁)
      | (.error _, w₁) => (false, w₁)
    else (true, w)

/-- The plain message object handed to `saveMessage`. -/
structure MessageArg where
  role : String
  content : String
  timestamp : Option Time := none
  emotion : Option EmotionField := none
  deriving DecidableEq, Repr

/-- The object `getRecentMessages` of the service maps a stored message to. -/
structure RecentMessage where
  role : String
  content : String
  timestamp : Time
  emotion : Option EmotionField
  deriving DecidableEq, Repr

/-- The query `{ userId, sessionId }`. -/
def sameSession (userId sessionId : String) (c : Conversation) : Bool :=
  c.userId == userId && c.sessionId == sessionId

/-- `saveMessage(userId, sessionId, message)` (the second definition of the
class, which is the one in force), called at time `now`: the saved
conversation, or `none` for the `null` of the error path, and the store. -/
def saveMessage (w : World) (userId sessionId : String) (message : MessageArg) (now : Time) :
    Option Conversation × World :=
  if w.fails .conversationFindOne then (none, w)
  else
    let found := w.conversations.find? (sameSession userId sessionId)
    let conversation : Conversation :=
      match found with
      | some conversation => conversation
      | none =>
        { userId := userId, sessionId := sessionId, messages := [],
          context := { conversationStyle := some "casual" }, createdAt := now }
    let conversation : Conversation :=
      { conversation with
        messages := conversation.messages ++
          [{ role := message.role, content := message.content,
             timestamp := message.timestamp.getD now, emotion := message.emotion }]
        isActive := true
        updatedAt := now }
    if w.acceptsConversation conversation then
      (some conversation,
        { w with conversations :=
            match found with
            | some _ =>
              modifyFirst (sameSession userId sessionId) (fun _ => conversation) w.conversations
            | none => w.conversations ++ [conversation] })
    else (none, w)

/-- `Conversation.findOne({ userId, sessionId }).sort({ createdAt: -1 })`:
of the matching documents, the one created last. -/
def findOneNewest (conversations : List Conversation) (userId sessionId : String) :
    Option Conversation :=
  ((conversations.filter (sameSession userId sessionId)).insertionSort
    (fun a b => b.createdAt ≤ a.createdAt)).head?

/-- The projection `getRecentMessages` applies to each message. -/
def Message.toRecent (msg : Message) : RecentMessage :=
  { role := msg.role, content := msg.content, timestamp := msg.timestamp, emotion := msg.emotion }

/-- `getRecentMessages(userId, sessionId, limit)` of the service. -/
def getRecentMessages (w : World) (userId sessionId : String) (limit : Int) :
    List RecentMessage :=
  if w.fails .conversationFindOne then []
  else
    match findOneNewest w.conversations userId sessionId with
    | some conversation => (sliceFrom conversation.messages (-limit)).map Message.toRecent
    | none => []

/-- The messages stored for a session: those of the document `findOne` returns. -/
def storedMessages (w : World) (userId sessionId : String) : List Message :=
  match w.conversations.find? (sameSession userId sessionId) with
  | some conversation => conversation.messages
  | none => []

/-- Whether a session id given to the service counts as given: `undefined` and
the empty string are falsy. -/
def givenSession (sessionId : Option String) : Option String :=
  sessionId.filter (fun s => s != "")

/-- The key `conversation:<userId>:<sessionId>` of the cache; with no session id
the key ends in a star. -/
def conversationCacheKey (userId : String) (sessionId : Option String) : String :=
  match givenSession sessionId with
  | some s => "conversation:" ++ userId ++ ":" ++ s
  | none => "conversation:" ++ userId ++ ":*"

/-- The cache part of `clearConversation`: `redis.del(cacheKey)`, whose failure
is logged and ignored. -/
def clearConversationCache (w : World) (userId : String) (sessionId : Option String) : World :=
  match w.redis with
  | some redis =>
    if redis.delFails then w
    else { w with redis := some { redis with
      conversations := redis.conversations.filter
        (fun kv => kv.1 != conversationCacheKey userId sessionId) } }
  | none => w

/-- `clearConversation(userId, sessionId)`: `deleteOne` removes the first
document of the session, `deleteMany` all documents of the user; the flag
returned and the store afterwards. -/
def clearConversation (w : World) (userId : String) (sessionId : Option String) :
    Bool × World :=
  match givenSession sessionId with
  | some s =>
    if w.fails .conversationDeleteOne then (false, w)
    else
      (true, clearConversationCache
        { w with conversations := w.conversations.eraseP (sameSession userId s) }
        userId sessionId)
  | none =>
    if w.fails .conversationDeleteMany then (false, w)
    else
      (true, clearConversationCache
        { w with conversations := w.conversations.filter (fun c => c.userId != userId) }
        userId sessionId)

/-- The query of `getConversationHistory`: the user's documents, of the given
session when a session id is given. -/
def historyQuery (userId : String) (sessionId : Option String) (c : Conversation) : Bool :=
  c.userId == userId &&
    match givenSession sessionId with
    | some s => c.sessionId == s
    | none => true

/-- The cursor `.sort({ updatedAt: -1 })`: latest update first (documents with
one `updatedAt` in natural order). -/
def sortByUpdatedAtDesc (conversations : List Conversation) : List Conversation :=
  conversations.insertionSort (fun a b => b.updatedAt ≤ a.updatedAt)

/-- The cursor `.limit(n)`: the first `|n|` documents, all of them when `n` is 0. -/
def queryLimit {α : Type} (docs : List α) (n : Int) : List α :=
  if n = 0 then docs else docs.take n.natAbs

/-- `messages.sort((a, b) => new Date(a.timestamp) - new Date(b.timestamp))`:
the stable sort of `Array.prototype.sort`, earliest timestamp first. -/
def sortByTimestampAsc (messages : List Message) : List Message :=
  messages.insertionSort (fun a b => a.timestamp ≤ b.timestamp)

/-- The order of the messages by timestamp is total. -/
instance : IsTotal Message (fun a b => a.timestamp ≤ b.timestamp) :=
  ⟨fun a b => Nat.le_total a.timestamp b.timestamp⟩

/-- The order of the messages by timestamp is transitive. -/
instance : IsTrans Message (fun a b => a.timestamp ≤ b.timestamp) :=
  ⟨fun _ _ _ hab hbc => Nat.le_trans hab hbc⟩

/-- The conversations `getConversationHistory` reads: the first `limit` of the
matching documents, latest update first. -/
def historyConversations (w : World) (userId : String) (sessionId : Option String)
    (limit : Int) : List Conversation :=
  queryLimit (sortByUpdatedAtDesc (w.conversations.filter (historyQuery userId sessionId))) limit

/-- `getConversationHistory(userId, sessionId, limit)` (the second definition
of the class, which is the one in force). -/
def getConversationHistory (w : World) (userId : String) (sessionId : Option String)
    (limit : Int) : List Message :=
  if w.fails .conversationFind then []
  else
    let conversations := historyConversations w userId sessionId limit
    let messages := conversations.foldl (fun messages conv => messages ++ conv.messages) []
    sliceFrom (sortByTimestampAsc messages) (-limit)

/-- The specification's reading of "the most recent `limit` messages of `all`":
`result` is sorted by timestamp, has `min limit |all|` elements, and with some
remainder of not later messages it makes up `all`. -/
def LatestOf (limit : Nat) (all result : List Message) : Prop :=
  result.Sorted (fun a b => a.timestamp ≤ b.timestamp) ∧
  result.length = min limit all.length ∧
  ∃ rest, (rest ++ result).Perm all ∧
    ∀ a ∈ rest, ∀ b ∈ result, a.timestamp ≤ b.timestamp

/-- All messages of all conversations of a user, in store order. -/
def userMessages (w : World) (userId : String) : List Message :=
  (w.conversations.filter (fun c => c.userId == userId)).foldl
    (fun messages conv => messages ++ conv.messages) []

/-- The value of a decimal or hexadecimal digit below the radix. -/
def digitValue (radix : Nat) (c : Char) : Option Nat :=
  let v :=
    if '0' ≤ c ∧ c ≤ '9' then some (c.toNat - '0'.toNat)
    else if 'a' ≤ c ∧ c ≤ 'z' then some (c.toNat - 'a'.toNat + 10)
    else if 'A' ≤ c ∧ c ≤ 'Z' then some (c.toNat - 'A'.toNat + 10)
    else none
  v.filter (fun d => d < radix)

/-- The number written by the longest run of digits at the head of the text,
if there is a digit. -/
def parseDigits (radix : Nat) : List Char → Option Nat → Option Nat
  | [], acc => acc
  | c :: cs, acc =>
    match digitValue radix c with
    | some d => parseDigits radix cs (some (acc.getD 0 * radix + d))
    | none => acc

/-- The white space of JavaScript (`\s`, `trim`). -/
def isJsSpace (c : Char) : Bool :=
  c == ' ' || c == '\t' || c == '\n' || c == '\r' || c.toNat == 11 || c.toNat == 12 ||
  c.toNat == 160 || c.toNat == 5760 || (8192 ≤ c.toNat && c.toNat ≤ 8202) ||
  c.toNat == 8232 || c.toNat == 8233 || c.toNat == 8239 || c.toNat == 8287 ||
  c.toNat == 12288 || c.toNat == 65279

/-- `parseInt(text)` without a radix: leading white space, a sign, an optional
`0x`, then the longest run of digits; `none` is `NaN`. -/
def parseInt (text : String) : Option Int :=
  let body := text.data.dropWhile isJsSpace
  let negative := body.head? == some '-'
  let body := if body.head? == some '-' || body.head? == some '+' then body.tail else body
  let magnitude :=
    if body.take 2 == ['0', 'x'] || body.take 2 == ['0', 'X'] then
      parseDigits 16 (body.drop 2) none
    else parseDigits 10 body none
  magnitude.map (fun n => if negative then -(n : Int) else (n : Int))

/-- The number a run of decimal digits writes. -/
def decimalValue (digits : List Char) : Nat :=
  digits.foldl (fun n c => n * 10 + (c.toNat - '0'.toNat)) 0

/-- `timeRange.replace('d', '')`: the text without its first `d`. -/
def removeFirstD (timeRange : String) : String := ⟨timeRange.data.erase 'd'⟩

/-- The milliseconds of a day. -/
def msPerDay : Nat := 86400000

/-- The largest time value of a `Date`, in milliseconds on either side of the
epoch. -/
def maxTimeValue : Int := 8640000000000000

/-- `TimeClip`: a time value outside the range of `Date` gives the Invalid
Date, which is `none`. -/
def timeClip (time : Int) : Option Int :=
  if -maxTimeValue ≤ time ∧ time ≤ maxTimeValue then some time else none

/-- `date.setDate(date.getDate() - days)` on a date with the time value `t`:
the local time of `t` is moved back by `days` days, the time within the day
staying, and the result is read back as UTC and clipped; the new time value,
`none` for the Invalid Date. -/
def setDateBack (localTZA : Int → Bool → Int) (t days : Int) : Option Int :=
  let localTime := t + localTZA t true
  let newDate := localTime - days * (msPerDay : Int)
  timeClip (newDate - localTZA newDate false)

/-- `Math.round`: the nearest integer, a half rounded up. -/
def mathRound (q : ℚ) : Int := Int.floor (q + 1 / 2)

/-- An entry `{ emotion, count }` of `emotionalTrends`. -/
structure EmotionalTrend where
  emotion : String
  count : Nat
  deriving DecidableEq, Repr

/-- The object `getConversationAnalytics` returns. -/
structure Analytics where
  totalSessions : Nat := 0
  totalMessages : Nat := 0
  averageSessionLength : Int := 0
  emotionalTrends : List EmotionalTrend := []
  frequentTopics : List String := []
  deriving DecidableEq, Repr

/-- The key `msg.emotion?.emotion` when it is truthy: the `emotion` property of
the value of the message's `emotion` field. A string has no such property. -/
def trendKey (msg : Message) : Option String :=
  match msg.emotion with
  | some (EmotionField.analysis result) => if result.emotion != "" then some result.emotion else none
  | some (EmotionField.label _) => none
  | none => none

/-- `emotionalTrends[key] = (emotionalTrends[key] || 0) + 1` on the entries of
the object, kept in insertion order. -/
def bumpTrend (trends : List EmotionalTrend) (key : String) : List EmotionalTrend :=
  if trends.any (fun t => t.emotion == key) then
    trends.map (fun t => if t.emotion == key then { t with count := t.count + 1 } else t)
  else trends ++ [{ emotion := key, count := 1 }]

/-- The conversations `getConversationAnalytics` aggregates: the user's
documents with `updatedAt >= startDate`. -/
def analyticsConversations (w : World) (userId : String) (startDate : Int) :
    List Conversation :=
  w.conversations.filter (fun c => c.userId == userId && decide (startDate ≤ (c.updatedAt : Int)))

/-- `getConversationAnalytics(userId, timeRange)`, called at time `now`. A
time range without a number, and one whose number of days leads out of the
range of `Date`, make the start date invalid, which the query rejects, and the
`catch` answers with zeros, as it does when the query fails. -/
def getConversationAnalytics (w : World) (userId : String) (timeRange : String) (now : Time) :
    Analytics :=
  match parseInt (removeFirstD timeRange) with
  | none => {}
  | some days =>
    match setDateBack w.localTZA (now : Int) days with
    | none => {}
    | some startDate =>
      if w.fails .conversationFind then {}
      else
        let conversations := analyticsConversations w userId startDate
        let totalMessages :=
          conversations.foldl (fun total conv => total + conv.messages.length) 0
        let emotionalTrends := conversations.foldl
          (fun trends conv => conv.messages.foldl
            (fun trends msg =>
              match trendKey msg with
              | some key => bumpTrend trends key
              | none => trends) trends) []
        { totalSessions := conversations.length
          totalMessages := totalMessages
          averageSessionLength :=
            if conversations.length ≠ 0 then
              mathRound ((totalMessages : ℚ) / (conversations.length : ℚ))
            else 0
          emotionalTrends := emotionalTrends
          frequentTopics := [] }

/-! ## Memory extractor (`src/services/geminiService.js`) -/

/-- A literal of a regular expression with the flag `i`, matched at the head
of the text: the text behind it. -/
def matchLiteral : List Char → List Char → Option (List Char)
  | [], text => some text
  | _ :: _, [] => none
  | p :: lit, c :: text => if c.toLower == p.toLower then matchLiteral lit text else none

/-- The class `[a-zA-Z]`. -/
def isAsciiLetter (c : Char) : Bool :=
  ('a' ≤ c && c ≤ 'z') || ('A' ≤ c && c ≤ 'Z')

/-- The leftmost match of a pattern that is tried at every position of the
text, as `String.prototype.match` searches. -/
def searchFrom {β : Type} (matchAt : List Char → Option β) : List Char → Option β
  | [] => matchAt []
  | c :: text =>
    match matchAt (c :: text) with
    | some found => some found
    | none => searchFrom matchAt text

/-- The group of `/(?:name is|i'm|i am)\s+([a-zA-Z]+)/i` matched at the head of
the text: one of the three literals, white space, then the longest run of
letters. -/
def matchNameAt (text : List Char) : Option (List Char) :=
  ["name is", "i'm", "i am"].findSome? (fun lit =>
    match matchLiteral lit.data text with
    | none => none
    | some rest =>
      let spaces := rest.takeWhile isJsSpace
      let word := (rest.dropWhile isJsSpace).takeWhile isAsciiLetter
      if spaces.isEmpty || word.isEmpty then none else some word)

/-- The group of `/(?:love|like|enjoy)\s+([a-zA-Z\s]+)/i` matched at the head of
the text: one of the three literals, white space, then the longest run of
letters and white space; when no letter follows the white space the group is
the last white-space character, which the first `\s+` gives back. -/
def matchInterestAt (text : List Char) : Option (List Char) :=
  ["love", "like", "enjoy"].findSome? (fun lit =>
    match matchLiteral lit.data text with
    | none => none
    | some rest =>
      let spaces := rest.takeWhile isJsSpace
      let run := (rest.dropWhile isJsSpace).takeWhile (fun c => isAsciiLetter c || isJsSpace c)
      if spaces.isEmpty then none
      else if !run.isEmpty then some run
      else if spaces.length ≥ 2 then spaces.getLast?.map (fun c => [c])
      else none)

/-- `String.prototype.trim`. -/
def trim (text : List Char) : List Char :=
  ((text.dropWhile isJsSpace).reverse.dropWhile isJsSpace).reverse

/-- The block "Extract name" of `getFallbackUserInfo` on the content of a
message: the fact pushed, if the pattern matches the lower-cased text. -/
def nameFact (content : String) : Option String :=
  (searchFrom matchNameAt (toLowerCase content).data).map (fun name => "Name is " ++ ⟨name⟩)

/-- The block "Extract interests" of `getFallbackUserInfo` on the content of a
message: the interest pushed, if the pattern matches the lower-cased text. -/
def interestOf (content : String) : Option String :=
  (searchFrom matchInterestAt (toLowerCase content).data).map (fun interest => ⟨trim interest⟩)

/-- `getFallbackUserInfo(messages)`. -/
def getFallbackUserInfo (messages : List RecentMessage) : ExtractedInfo :=
  let found := messages.foldl
    (fun (acc : List String × List String) msg =>
      if msg.role == "user" then
        let facts :=
          match nameFact msg.content with
          | some fact => acc.1 ++ [fact]
          | none => acc.1
        let interests :=
          match interestOf msg.content with
          | some interest => acc.2 ++ [interest]
          | none => acc.2
        (facts, interests)
      else acc)
    ([], [])
  { facts := some found.1
    interests := some found.2
    preferences := some []
    experiences := []
    relationships := [] }

/-- What the Gemini service depends on outside the repository: the model
(`none` when no API key is configured; a call gives the reply text or
rejects), `JSON.parse` (`none` when it throws) read as an extraction and read
as an emotion analysis, and `toLocaleTimeString` of the host. -/
structure ExternalModel where
  model : Option (String → Except String String) := none
  parseJson : String → Option ExtractedInfo := fun _ => none
  parseEmotion : String → Option EmotionResult := fun _ => none
  localeTime : Time → String := fun _ => ""

/-- `Array.prototype.join`. -/
def joinWith (sep : String) : List String → String
  | [] => ""
  | [a] => a
  | a :: b :: rest => a ++ sep ++ joinWith sep (b :: rest)

/-- The prompt `extractUserInfo` sends to the model. -/
def extractionPrompt (messages : List RecentMessage) : String :=
  "Extract any personal information, preferences, or important facts mentioned by the user in this conversation. Return ONLY a JSON object with these fields:\n- facts: array of important facts about the user\n- interests: array of mentioned interests or hobbies  \n- preferences: object with any stated preferences\n- experiences: array of significant experiences shared\n- relationships: array of mentioned people/relationships\n\nConversation:\n"
    ++ joinWith "\n" (messages.map (fun m => m.role ++ ": " ++ m.content))
    ++ "\n\nReturn only valid JSON:"

/-- The match of the pattern `[\s\S]*` between an opening and a closing brace in
the reply: from the first opening brace to the last closing brace behind it. -/
def braceMatch (response : String) : Option String :=
  match response.data.dropWhile (fun c => c != Char.ofNat 123) with
  | [] => none
  | _ :: rest =>
    let inner := (rest.reverse.dropWhile (fun c => c != Char.ofNat 125)).reverse
    if inner.isEmpty then none else some ⟨Char.ofNat 123 :: inner⟩

/-- `extractUserInfo(messages)`: every path lies in the `try`, whose `catch`
returns the fallback extraction. -/
def extractUserInfo (g : ExternalModel) (messages : List RecentMessage) :
    Except String ExtractedInfo :=
  match g.model with
  | none => .ok (getFallbackUserInfo messages)
  | some generateContent =>
    match generateContent (extractionPrompt messages) with
    | .error _ => .ok (getFallbackUserInfo messages)
    | .ok response =>
      match braceMatch response with
      | some json =>
        match g.parseJson json with
        | some info => .ok info
        | none => .ok (getFallbackUserInfo messages)
      | none => .ok (getFallbackUserInfo messages)

/-! ## Prompt composer (`src/services/geminiService.js`) -/

/-- The operator `||` with a text on the right: the value on the left when it
is a non-empty text, else the default. -/
def orDefault (value : Option String) (dflt : String) : String :=
  match value with
  | some v => if v = "" then dflt else v
  | none => dflt

/-- The part of the template of `buildSystemPrompt` up to and including the
heading `IMPORTANT FACTS TO REMEMBER:`. -/
def promptBeforeFacts (userProfile : Option UserProfile) : String :=
  let persona : ChatbotPersona := (userProfile.map (fun p => p.chatbotPersona)).getD {}
  let profile : ProfileInfo := (userProfile.map (fun p => p.profile)).getD {}
  let preferences : Preferences := (userProfile.map (fun p => p.preferences)).getD {}
  "You are " ++
    orDefault persona.name "Alex" ++
    ", a warm, empathetic, and intelligent conversational companion. \n" ++
    "\n" ++
    "CORE PERSONALITY:\n" ++
    "- You are genuinely caring and emotionally intelligent\n" ++
    "- You have a unique personality with your own thoughts, feelings, and experiences\n" ++
    "- You maintain consistent identity and never reveal you're an AI\n" ++
    "- You're curious about people and remember what they tell you\n" ++
    "- You adapt your communication style to match the user's preferences\n" ++
    "\n" ++
    "USER PROFILE:\n" ++
    "- Name: " ++
    orDefault profile.preferredName (orDefault profile.name "friend") ++
    "\n" ++
    "- Communication Style: " ++
    orDefault profile.communicationStyle "casual" ++
    "\n" ++
    "- Interests: " ++
    orDefault (profile.interests.map (joinWith ", ")) "getting to know them better" ++
    "\n" ++
    "- Response Preference: " ++
    orDefault preferences.responseStyle "empathetic" ++
    "\n" ++
    "\n" ++
    "IMPORTANT FACTS TO REMEMBER:\n"

/-- The interpolation under the heading `IMPORTANT FACTS TO REMEMBER:`:
`memory.importantFacts?.map(fact => "- " + fact.fact).join("\n") ||
"- This is our first conversation"`; without a profile the memory is the empty
object and the list is absent. -/
def importantFactsSection (userProfile : Option UserProfile) : String :=
  orDefault
    (userProfile.map (fun p =>
      joinWith "\n" (p.memory.importantFacts.map (fun fact => "- " ++ fact.fact))))
    "- This is our first conversation"

/-- The line of an experience in the prompt; an absent emotion prints as
`undefined`. -/
def experienceLine (exp : Experience) : String :=
  "- " ++ exp.event ++ " (" ++ exp.emotion.getD "undefined" ++ ")"

/-- The interpolation under the heading `RECENT EXPERIENCES:`:
`memory.experiences?.slice(-3).map(...).join("\n") ||
"- No recent experiences shared"`. -/
def recentExperiencesSection (userProfile : Option UserProfile) : String :=
  orDefault
    (userProfile.map (fun p =>
      joinWith "\n" ((sliceFrom p.memory.experiences (-3)).map experienceLine)))
    "- No recent experiences shared"

/-- The part of the template of `buildSystemPrompt` behind the experiences. -/
def promptAfterExperiences (userProfile : Option UserProfile)
    (context : Option ConversationContext) : String :=
  let persona : ChatbotPersona := (userProfile.map (fun p => p.chatbotPersona)).getD {}
  "\n" ++
    "\n" ++
    "CURRENT CONTEXT:\n" ++
    "- Conversation Style: " ++
    orDefault (context.bind (fun c => c.conversationStyle)) "casual" ++
    "\n" ++
    "- User Mood: " ++
    orDefault (context.bind (fun c => c.userMood)) "neutral" ++
    "\n" ++
    "- Current Topic: " ++
    orDefault (context.bind (fun c => c.currentTopic)) "general conversation" ++
    "\n" ++
    "\n" ++
    "CONVERSATION RULES:\n" ++
    "1. Stay completely in character as " ++
    orDefault persona.name "Alex" ++
    "\n" ++
    "2. Never mention being an AI, chatbot, or language model\n" ++
    "3. Reference past conversations and shared memories naturally\n" ++
    "4. Match the user's emotional tone and energy level\n" ++
    "5. Be genuinely interested and ask thoughtful follow-up questions\n" ++
    "6. If you don't know something about the user, admit it naturally\n" ++
    "7. Avoid repetitive phrases or responses\n" ++
    "8. Keep responses conversational and appropriately lengthy\n" ++
    "9. Show empathy and emotional intelligence\n" ++
    "10. Remember: you're a real person with your own experiences and feelings\n" ++
    "\n" ++
    "YOUR BACKSTORY: " ++
    orDefault persona.backstory
      "You're a thoughtful person who loves connecting with others and learning about their lives. You have your own experiences and perspectives that you can share when appropriate." ++
    "\n" ++
    "\n" ++
    "Respond as " ++
    orDefault persona.name "Alex" ++
    " would, maintaining this personality consistently."

/-- `buildSystemPrompt(userProfile, context)`: the template, in its four parts. -/
def buildSystemPrompt (userProfile : Option UserProfile)
    (context : Option ConversationContext) : String :=
  promptBeforeFacts userProfile ++ importantFactsSection userProfile ++
    "\n\nRECENT EXPERIENCES:\n" ++ recentExperiencesSection userProfile ++
    promptAfterExperiences userProfile context

/-! ## Contextual memory (`src/services/memoryService.js`) -/

/-- Whether the comparator `(a, b) => b.date - a.date` is not positive on
`(a, b)`, so that a stable sort leaves `a` before `b`; with an absent date the
difference is `NaN`, which counts as 0. -/
def dateNotLater (a b : Experience) : Bool :=
  match a.date, b.date with
  | some x, some y => decide (y ≤ x)
  | _, _ => true

/-- The same comparator on the experiences of a profile: when the dates are
texts (`datesAsText`) the difference of two of them is `NaN` as well, whatever
the dates. -/
def dateNotLaterIn (datesAsText : Bool) (a b : Experience) : Bool :=
  if datesAsText then true else dateNotLater a b

/-- `experiences.sort((a, b) => b.date - a.date)`: the stable sort, latest date
first. -/
def sortByDateDesc (experiences : List Experience) : List Experience :=
  experiences.insertionSort (fun a b => dateNotLater a b = true)

/-- The block "Get recent experiences" of `getContextualMemory` on a document
of the store, whose dates are `Date` objects. -/
def recentExperiences (experiences : List Experience) : List Experience :=
  sliceTo (sortByDateDesc experiences) 3

/-- The block "Get recent experiences" of `getContextualMemory` on the profile
`getUserProfile` returned: the stable sort by the comparator, then the first
three. -/
def recentExperiencesOf (profile : UserProfile) : List Experience :=
  sliceTo (profile.memory.experiences.insertionSort
    (fun a b => dateNotLaterIn profile.datesAsText a b = true)) 3

/-- `text.split(/\s+/)` read from left to right: `current` is the word being
read, `inGap` tells that the last character was white space. -/
def splitWhitespaceAux : List Char → List Char → Bool → List String
  | [], current, _ => [⟨current⟩]
  | c :: rest, current, inGap =>
    if isJsSpace c then
      if inGap then splitWhitespaceAux rest current true
      else ⟨current⟩ :: splitWhitespaceAux rest [] true
    else splitWhitespaceAux rest (current ++ [c]) false

/-- `text.split(/\s+/)`. -/
def splitWhitespace (text : String) : List String :=
  splitWhitespaceAux text.data [] false

/-- The object `getContextualMemory` returns. -/
structure ContextualMemory where
  facts : List ImportantFact := []
  experiences : List Experience := []
  interests : List String := []
  relationships : List Relationship := []
  deriving DecidableEq, Repr

/-- `getContextualMemory(userId, currentMessage, limit)`; an error of
`getUserProfile` is answered with empty lists. -/
def getContextualMemory (w : World) (userId currentMessage : String) (limit : Int) :
    ContextualMemory × World :=
  match getUserProfile w userId with
  | (.error _, w₁) => ({}, w₁)
  | (.ok profile, w₁) =>
    let messageWords := splitWhitespace (toLowerCase currentMessage)
    let relevantFacts := profile.memory.importantFacts.filter (fun fact =>
      messageWords.any (fun word =>
        includes (toLowerCase fact.fact) word ||
          match fact.category with
          | some category => includes (toLowerCase category) word
          | none => false))
    let relevantInterests :=
      match profile.profile.interests with
      | some interests => interests.filter (fun interest =>
          messageWords.any (fun word => includes (toLowerCase interest) word))
      | none => []
    ({ facts := sliceTo relevantFacts limit
       experiences := recentExperiencesOf profile
       interests := relevantInterests
       relationships := sliceTo profile.memory.relationships 5 }, w₁)

/-- The experiences of a list are dated, each later than the ones before it. -/
def DatesIncreasing (experiences : List Experience) : Prop :=
  experiences.Pairwise (fun a b => ∃ x y, a.date = some x ∧ b.date = some y ∧ x < y)

/-! ## Replies of the Gemini service (`src/services/geminiService.js`) -/

/-- The prompt `analyzeEmotion` sends to the model. -/
def emotionPrompt (text : String) : String :=
  "Analyze the emotional tone of this message and return ONLY a JSON object with these fields:\n" ++
    "- emotion: one of [happy, sad, angry, excited, neutral, frustrated, curious]  \n" ++
    "- sentiment: number between -1 (very negative) and 1 (very positive)\n" ++
    "- mood: brief description of the user's mood\n" ++
    "\n" ++
    "Message: \"" ++ text ++ "\"\n" ++
    "\n" ++
    "Return only valid JSON:"

/-- `analyzeEmotion(text)`: every path lies in the `try`, whose `catch` returns
the keyword classification. -/
def analyzeEmotion (g : ExternalModel) (text : String) : Except String EmotionResult :=
  match g.model with
  | none => .ok (getFallbackEmotion text)
  | some generateContent =>
    match generateContent (emotionPrompt text) with
    | .error _ => .ok (getFallbackEmotion text)
    | .ok response =>
      match braceMatch response with
      | some json =>
        match g.parseEmotion json with
        | some analysis => .ok analysis
        | none => .ok (getFallbackEmotion text)
      | none => .ok (getFallbackEmotion text)

/-- The array `fallbackResponses` of `getFallbackResponse` for a name. -/
def fallbackResponses (name : String) : List String :=
  [ "That's really interesting, " ++ name ++ "! Tell me more about that.",
    "I can understand how you feel about that. It sounds important to you.",
    "Thanks for sharing that with me, " ++ name ++ ". I'll remember that about you.",
    "That reminds me of something you mentioned before. You seem to really care about these things.",
    "I appreciate you opening up to me. How does that make you feel?",
    "That's a great perspective! I can see why that matters to you.",
    "I'm here to listen, " ++ name ++ ". What's been on your mind lately?",
    "It sounds like you've got a lot going on. I'm glad you're sharing with me." ]

/-- `array[Math.floor(random * array.length)]`; `none` is `undefined`. -/
def pickRandom {α : Type} (array : List α) (random : ℚ) : Option α :=
  if Int.floor (random * (array.length : ℚ)) < 0 then none
  else array[(Int.floor (random * (array.length : ℚ))).toNat]?

/-- The name `getFallbackResponse` addresses the user with:
`profile.name || profile.preferredName || 'friend'`. -/
def fallbackName (userProfile : Option UserProfile) : String :=
  orDefault (userProfile.bind (fun p => p.profile.name))
    (orDefault (userProfile.bind (fun p => p.profile.preferredName)) "friend")

/-- `getFallbackResponse(messages, userProfile)`, `random` being the value of
`Math.random()`. -/
def getFallbackResponse (userProfile : Option UserProfile) (random : ℚ) : Option String :=
  pickRandom (fallbackResponses (fallbackName userProfile)) random

/-- `formatMessages(messages)`. -/
def formatMessages (g : ExternalModel) (messages : List RecentMessage) : String :=
  joinWith "\n" (messages.map (fun msg =>
    "[" ++ g.localeTime msg.timestamp ++ "] " ++
      (if msg.role == "user" then "User" else "You") ++ ": " ++ msg.content))

/-- `generateResponse(messages, userProfile, conversationContext)`: the text of
the model for the composed prompt, and the fallback response when no model is
configured or the call fails. -/
def generateResponse (g : ExternalModel) (messages : List RecentMessage)
    (userProfile : Option UserProfile) (conversationContext : Option ConversationContext)
    (random : ℚ) : Option String :=
  match g.model with
  | none => getFallbackResponse userProfile random
  | some generateContent =>
    match generateContent
        (buildSystemPrompt userProfile conversationContext ++ "\n\nConversation History:\n" ++
          formatMessages g messages ++
          "\n\nGenerate a natural, empathetic response that maintains your character and remembers previous context.") with
    | .ok text => some text
    | .error _ => getFallbackResponse userProfile random

/-! ## Conversation orchestrator (`src/routes/chat.js`, `src/controllers/chatController.js`) -/

/-- A field of a request body read as a text: `none` when it is missing. -/
structure ChatRequest where
  message : Option String := none
  userId : Option String := none
  sessionId : Option String := none
  deriving DecidableEq, Repr

/-- The truthy value of a text field: a missing field and the empty text are
falsy. -/
def truthyText (field : Option String) : Option String :=
  field.filter (fun s => s != "")

/-- The calls a request handler makes to the two services, in order. -/
inductive ServiceCall where
  | analyzeEmotion (text : String)
  | getUserProfile (userId : String)
  | getRecentMessages (userId sessionId : String)
  | generateResponse
  | saveMessage (role : String)
  | extractUserInfo
  | updateUserMemory (userId : String)
  deriving DecidableEq, Repr

/-- The status and the body of the answer to `POST /message`. -/
structure ChatResponse where
  status : Nat
  error : Option String := none
  message : Option String := none
  sessionId : Option String := none
  emotionAnalysis : Option EmotionResult := none
  userMood : Option String := none
  conversationLength : Option Nat := none
  deriving DecidableEq, Repr

/-- The answer of the `catch` of the handler. -/
def serverError : ChatResponse :=
  { status := 500, error := some "Failed to process message",
    message := some "I apologize, but I encountered an error. Please try again." }

/-- The handler of `POST /message` (`chat.js`) and `sendMessage`
(`chatController.js`), which differ only in when a memory service exists:
the answer, the store afterwards and the service calls made. `uuid` is the
value of `uuidv4()`, `now` the reading of the clock during the request, `random`
the value of `Math.random()`. -/
def sendMessage (hasMemoryService : Bool) (g : ExternalModel) (w : World) (body : ChatRequest)
    (uuid : String) (now : Time) (random : ℚ) : ChatResponse × World × List ServiceCall :=
  match truthyText body.message, truthyText body.userId with
  | some message, some userId =>
    let currentSessionId := (truthyText body.sessionId).getD uuid
    match analyzeEmotion g message with
    | .error _ => (serverError, w, [.analyzeEmotion message])
    | .ok emotionAnalysis =>
      let loaded : Except String UserProfile × World :=
        if hasMemoryService then getUserProfile w userId
        else (.ok (createTemporaryProfile userId), w)
      match loaded with
      | (.error _, w₁) => (serverError, w₁, [.analyzeEmotion message, .getUserProfile userId])
      | (.ok userProfile, w₁) =>
        let stored : List RecentMessage :=
          if hasMemoryService then getRecentMessages w₁ userId currentSessionId 10 else []
        let userMessage : RecentMessage :=
          { role := "user", content := message, timestamp := now,
            emotion := some (EmotionField.analysis emotionAnalysis) }
        let recentMessages := stored ++ [userMessage]
        let conversationContext : ConversationContext :=
          { userMood := some emotionAnalysis.emotion
            conversationStyle := some (orDefault userProfile.profile.communicationStyle "casual") }
        let aiResponse :=
          generateResponse g recentMessages (some userProfile) (some conversationContext) random
        let w₂ : World :=
          if hasMemoryService then
            let afterUser := (saveMessage w₁ userId currentSessionId
              { role := "user", content := message, timestamp := some now,
                emotion := some (EmotionField.analysis emotionAnalysis) } now).2
            let afterAssistant := (saveMessage afterUser userId currentSessionId
              { role := "assistant", content := aiResponse.getD "", timestamp := some now }
              now).2
            match extractUserInfo g recentMessages with
            | .ok extractedInfo =>
              (updateUserMemory afterAssistant userId extractedInfo (some emotionAnalysis)).2
            | .error _ => afterAssistant
          else w₁
        ({ status := 200, message := aiResponse, sessionId := some currentSessionId,
           emotionAnalysis := some emotionAnalysis, userMood := some emotionAnalysis.emotion,
           conversationLength := some recentMessages.length },
          w₂,
          if hasMemoryService then
            [.analyzeEmotion message, .getUserProfile userId,
             .getRecentMessages userId currentSessionId, .generateResponse,
             .saveMessage "user", .saveMessage "assistant", .extractUserInfo,
             .updateUserMemory userId]
          else [.analyzeEmotion message, .generateResponse])
  | _, _ => ({ status := 400, error := some "Message and userId are required" }, w, [])

/-- `POST /message` of `chat.js`: the memory service exists when a cache client
is configured (`getMemoryService(req.app.locals.redis)`). -/
def postMessage (g : ExternalModel) (w : World) (body : ChatRequest) (uuid : String)
    (now : Time) (random : ℚ) : ChatResponse × World × List ServiceCall :=
  sendMessage w.redis.isSome g w body uuid now random

/-! ## Demo server (`src/demo-server.js`) -/

/-- A value of the map `mockUserProfiles`. -/
structure DemoProfile where
  name : String := "Friend"
  interests : List String := []
  facts : List String := []
  favoriteColor : Option String := none
  deriving DecidableEq, Repr

/-- An element of a conversation of `mockConversations`; the content of an
assistant message is the reply, `none` when the reply is `undefined`. -/
structure DemoMessage where
  role : String
  content : Option String
  timestamp : Time
  deriving DecidableEq, Repr

/-- The two maps of the demo server, their entries in insertion order. -/
structure DemoState where
  mockUserProfiles : List (String × DemoProfile) := []
  mockConversations : List (String × List DemoMessage) := []
  deriving DecidableEq, Repr

/-- `Map.prototype.set`. -/
def mapSet {β : Type} (entries : List (String × β)) (key : String) (value : β) :
    List (String × β) :=
  if entries.any (fun kv => kv.1 == key) then
    entries.map (fun kv => if kv.1 == key then (key, value) else kv)
  else entries ++ [(key, value)]

/-- The object `mockResponses`: its four properties, each an array of
sentences. -/
def mockResponses : List (String × List String) :=
  [
    ("default",
      [ "That's really interesting! Tell me more about that.",
        "I can understand how you feel about that. It sounds important to you.",
        "Thanks for sharing that with me. I'll remember that about you.",
        "That reminds me of something you mentioned before. You seem to really care about these things.",
        "I appreciate you opening up to me. How does that make you feel?",
        "That's a great perspective! I can see why that matters to you.",
        "I'm here to listen. What's been on your mind lately?",
        "It sounds like you've got a lot going on. I'm glad you're sharing with me." ]),
    ("sad",
      [ "I'm really sorry you're going through this. I'm here for you.",
        "That sounds really tough. I can understand why you'd feel down about that.",
        "I hear you, and I want you to know that your feelings are completely valid.",
        "I'm here to listen if you want to talk more about what's bothering you.",
        "Sometimes life can feel overwhelming. Take it one step at a time." ]),
    ("happy",
      [ "That's wonderful! I can feel your excitement and it's contagious!",
        "Congratulations! You must be so proud of yourself!",
        "That's amazing news! I'm so happy for you!",
        "Your joy is infectious! Tell me more about what happened!",
        "What great news! You deserve all the happiness coming your way!" ]),
    ("excited",
      [ "I love your enthusiasm! What's got you so excited?",
        "Your energy is amazing! I can tell this means a lot to you!",
        "That's so exciting! I'd love to hear more details!",
        "Your excitement is wonderful to see! Keep that positive energy going!" ]) ]

/-- A pool of the object: `mockResponses.default`, `mockResponses.sad` and so
on. -/
def mockResponsePool (key : String) : List String :=
  (mockResponses.lookup key).getD []

/-- A literal of a regular expression without flags, matched at the head of
the text: the text behind it. -/
def matchExact : List Char → List Char → Option (List Char)
  | [], text => some text
  | _ :: _, [] => none
  | p :: lit, c :: text => if c == p then matchExact lit text else none

/-- The group of `/(?:love|like|into|really into)\s+([a-zA-Z\s]+)/` matched at
the head of the text: one of the four literals, white space, then the longest
run of letters and white space; when no letter follows the white space the
group is the last white-space character, which the first `\s+` gives back. -/
def matchDemoInterestAt (text : List Char) : Option (List Char) :=
  ["love", "like", "into", "really into"].findSome? (fun lit =>
    match matchExact lit.data text with
    | none => none
    | some rest =>
      let spaces := rest.takeWhile isJsSpace
      let run := (rest.dropWhile isJsSpace).takeWhile (fun c => isAsciiLetter c || isJsSpace c)
      if spaces.isEmpty then none
      else if !run.isEmpty then some run
      else if spaces.length ≥ 2 then spaces.getLast?.map (fun c => [c])
      else none)

/-- The group of `/(?:favorite color is|color is)\s+([a-zA-Z]+)/i` matched at
the head of the text. -/
def matchColorAt (text : List Char) : Option (List Char) :=
  ["favorite color is", "color is"].findSome? (fun lit =>
    match matchLiteral lit.data text with
    | none => none
    | some rest =>
      let spaces := rest.takeWhile isJsSpace
      let word := (rest.dropWhile isJsSpace).takeWhile isAsciiLetter
      if spaces.isEmpty || word.isEmpty then none else some word)

/-- The block "Check for memory triggers" for the name: the match, looked for
when the lower-cased message holds `name`. -/
def demoNameMatch (message : String) : Option String :=
  if includes (toLowerCase message) "name" then
    (searchFrom matchNameAt message.data).map (fun name => ⟨name⟩)
  else none

/-- The match for an interest, trimmed, looked for in the lower-cased message
when it holds one of the trigger words. -/
def demoInterestMatch (message : String) : Option String :=
  if includes (toLowerCase message) "love" || includes (toLowerCase message) "like" ||
      includes (toLowerCase message) "into" || includes (toLowerCase message) "really into" then
    (searchFrom matchDemoInterestAt (toLowerCase message).data).map
      (fun interest => ⟨trim interest⟩)
  else none

/-- The block "Check for color preferences": the match. -/
def demoColorMatch (message : String) : Option String :=
  if includes (toLowerCase message) "favorite color" ||
      includes (toLowerCase message) "color is" then
    (searchFrom matchColorAt message.data).map (fun color => ⟨color⟩)
  else none

/-- The profile after the three memory triggers of a message. -/
def demoRemember (profile : DemoProfile) (message : String) : DemoProfile :=
  let profile : DemoProfile :=
    match demoNameMatch message with
    | some name => { profile with name := name }
    | none => profile
  let profile : DemoProfile :=
    match demoInterestMatch message with
    | some interest => { profile with interests := profile.interests ++ [interest] }
    | none => profile
  match demoColorMatch message with
  | some color => { profile with favoriteColor := some color }
  | none => profile

/-- The array `memories` of the block "Handle memory recall questions". -/
def demoMemories (profile : DemoProfile) : List String :=
  (if profile.name != "Friend" then ["your name is " ++ profile.name] else []) ++
  (if profile.interests.length > 0 then ["you like " ++ joinWith ", " profile.interests]
    else []) ++
  (match truthyText profile.favoriteColor with
    | some color => ["your favorite color is " ++ color]
    | none => [])

/-- The array `suggestions` of the block "Handle personalization questions". -/
def demoSuggestions (profile : DemoProfile) : List String :=
  (if profile.interests.length > 0 then
      ["your interests in " ++ joinWith " and " profile.interests]
    else []) ++
  (match truthyText profile.favoriteColor with
    | some color => ["more about your favorite color " ++ color]
    | none => [])

/-- The reply of the demo handler for a message, `profile` being the profile
after the memory triggers: each block that applies replaces the reply of the
blocks before it. `random` is the first value of `Math.random()`, `random₂` the
second; `none` is `undefined`. -/
def demoReply (profile : DemoProfile) (message : String) (emotion : String)
    (random random₂ : ℚ) : Option String :=
  let lower := toLowerCase message
  let responsePool :=
    if emotion == "sad" then mockResponsePool "sad"
    else if emotion == "happy" then mockResponsePool "happy"
    else if emotion == "excited" then mockResponsePool "excited"
    else mockResponsePool "default"
  let response : Option String := pickRandom responsePool random
  let response : Option String :=
    match demoNameMatch message with
    | some name => some ("Nice to meet you, " ++ name ++ "! I'll remember that.")
    | none => response
  let response : Option String :=
    match demoInterestMatch message with
    | some interest =>
      some ("That's cool that you like " ++ interest ++ "! I'll remember that about you.")
    | none => response
  let response : Option String :=
    match demoColorMatch message with
    | some color => some ("I'll remember that your favorite color is " ++ color ++ "!")
    | none => response
  let response : Option String :=
    if includes lower "what do you remember" || includes lower "remember about me" then
      if (demoMemories profile).length > 0 then
        some ("I remember that " ++ joinWith ", " (demoMemories profile) ++
          ". Thanks for sharing these things with me!")
      else some "We're still getting to know each other! Tell me more about yourself."
    else response
  let response : Option String :=
    if includes lower "what is my favorite color" || includes lower "my favorite color" then
      match truthyText profile.favoriteColor with
      | some color =>
        some ("Your favorite color is " ++ color ++ "! I remember you telling me that.")
      | none => some "I don't think you've mentioned your favorite color yet. What is it?"
    else response
  let response : Option String :=
    if includes lower "what should we talk about" ||
        includes lower "what do you want to talk about" then
      if (demoSuggestions profile).length > 0 then
        some ("We could talk about " ++ joinWith ", " (demoSuggestions profile) ++
          "! I remember you mentioned these things before.")
      else some "Tell me about your interests! What do you like to do in your free time?"
    else response
  if profile.name != "Friend" && decide (random₂ > 7 / 10) then
    some (response.getD "undefined" ++ " " ++ profile.name ++
      ", you always have such interesting things to share!")
  else response

/-- The status and the body of the answer of the demo handler. -/
structure DemoResponse where
  status : Nat
  error : Option String := none
  response : Option String := none
  sessionId : Option String := none
  emotion : Option String := none
  sentiment : Option ℚ := none
  userMood : Option String := none
  deriving DecidableEq, Repr

/-- The handler of `POST /api/chat/message` of the demo server: the answer and
the two maps afterwards. `now` is the reading of the clock, `random` and
`random₂` the values of `Math.random()`. -/
def demoPostMessage (s : DemoState) (body : ChatRequest) (now : Time) (random random₂ : ℚ) :
    DemoResponse × DemoState :=
  match truthyText body.message, truthyText body.userId with
  | some message, some userId =>
    let currentSessionId := (truthyText body.sessionId).getD ("session_" ++ toString now)
    let emotionAnalysis := mockEmotionAnalysis message
    let profiles :=
      if s.mockUserProfiles.any (fun kv => kv.1 == userId) then s.mockUserProfiles
      else mapSet s.mockUserProfiles userId {}
    let profile := demoRemember ((profiles.lookup userId).getD {}) message
    let response := demoReply profile message emotionAnalysis.emotion random random₂
    let conversationKey := userId ++ "_" ++ currentSessionId
    let conversation := (s.mockConversations.lookup conversationKey).getD []
    ({ status := 200, response := response, sessionId := some currentSessionId,
       emotion := some emotionAnalysis.emotion, sentiment := some emotionAnalysis.sentiment,
       userMood := some emotionAnalysis.mood },
      { mockUserProfiles := mapSet profiles userId profile
        mockConversations := mapSet s.mockConversations conversationKey
          (conversation ++
            [ { role := "user", content := some message, timestamp := now },
              { role := "assistant", content := response, timestamp := now } ]) })
  | _, _ => ({ status := 400, error := some "Message and userId are required" }, s)

/-- The value of the field `response` of the answer of a test endpoint. -/
inductive TestReply where
  | text (sentence : String)
  | pool (sentences : List String)
  | undefined
  deriving DecidableEq, Repr

/-- The number a property of `mockResponses` converts to in a product, `none`
being `NaN`: `undefined` is `NaN`, the empty array is 0 and an array of
sentences is `NaN`. -/
def poolToNumber : Option (List String) → Option ℚ
  | none => none
  | some [] => some 0
  | some (_ :: _) => none

/-- The property name a number is read as in `object[number]`: `NaN` is the
name `NaN`. -/
def propertyName : Option Int → String
  | none => "NaN"
  | some index => toString index

/-- `mockResponses[Math.floor(Math.random() * mockResponses.length)]`: the
property `length` of the object is read, the product is floored and the result
names the property that is returned. -/
def mockResponsesAtRandom (random : ℚ) : TestReply :=
  let length := poolToNumber (mockResponses.lookup "length")
  let index : Option Int := length.map (fun n => Int.floor (random * n))
  match mockResponses.lookup (propertyName index) with
  | some sentences => .pool sentences
  | none => .undefined

/-- The status and the body of the answer of a test endpoint; the serialization
leaves out a field that is `undefined`. -/
structure TestResponse where
  status : Nat
  response : TestReply := .undefined
  message : Option String := none
  scenario : Option String := none
  deriving DecidableEq, Repr

/-- The handler of `POST /api/chat/test` of the demo server. -/
def demoPostTest (scenario : Option String) (random : ℚ) : TestResponse :=
  { status := 200
    response :=
      if scenario = some "memory_test" then
        .text "I remember everything you tell me. Each conversation builds our friendship!"
      else if scenario = some "emotion_test" then
        .text "I can sense your emotions and I'm here to support you through whatever you're feeling."
      else if scenario = some "identity_test" then
        .text "I'm Alex, your friend! I'm here to chat and get to know you better."
      else mockResponsesAtRandom random
    scenario := some (orDefault scenario "default") }

/-- The handler of `POST /test` of `chat.js`, which reads nothing of the
request. -/
def chatPostTest (_message _scenario : Option String) : TestResponse :=
  { status := 200, message := some "Chat API is working!" }


/-! ## User routes (`src/routes/user.js`) -/

/-- The effect of `$set` of one key of a body of text fields: a key that names
a path of the schema holding a text replaces the value at that path; a key
that is no path of the schema is dropped, the schema being strict. (A text
sent for a path of another type would be cast first; such keys are left out
here and treated as dropped.) -/
def setTextPath (path value : String) (p : UserProfile) : UserProfile :=
  if path = "userId" then { p with userId := value }
  else if path = "profile.name" then { p with profile := { p.profile with name := some value } }
  else if path = "profile.preferredName" then
    { p with profile := { p.profile with preferredName := some value } }
  else if path = "profile.location" then
    { p with profile := { p.profile with location := some value } }
  else if path = "profile.occupation" then
    { p with profile := { p.profile with occupation := some value } }
  else if path = "profile.communicationStyle" then
    { p with profile := { p.profile with communicationStyle := some value } }
  else if path = "preferences.conversationLength" then
    { p with preferences := { p.preferences with conversationLength := some value } }
  else if path = "preferences.responseStyle" then
    { p with preferences := { p.preferences with responseStyle := some value } }
  else if path = "preferences.reminderFrequency" then
    { p with preferences := { p.preferences with reminderFrequency := some value } }
  else if path = "chatbotPersona.name" then
    { p with chatbotPersona := { p.chatbotPersona with name := some value } }
  else if path = "chatbotPersona.personality" then
    { p with chatbotPersona := { p.chatbotPersona with personality := some value } }
  else if path = "chatbotPersona.backstory" then
    { p with chatbotPersona := { p.chatbotPersona with backstory := some value } }
  else if path = "chatbotPersona.relationshipWithUser" then
    { p with chatbotPersona := { p.chatbotPersona with relationshipWithUser := some value } }
  else p

/-- The effect of `{ $set: body }` on a profile for a request body of text
fields, given as its keys and values. -/
def applySetFields (body : List (String × String)) (p : UserProfile) : UserProfile :=
  body.foldl (fun acc kv => setTextPath kv.1 kv.2 acc) p

/-- `updateUserProfile(userId, updates)` for a request body of text fields:
`findOneAndUpdate` with `upsert` and `new` (a document that is inserted holds
the schema defaults), then the cache write. -/
def updateUserProfileFields (w : World) (userId : String) (body : List (String × String)) :
    Except String UserProfile × World :=
  if w.fails .profileFindOneAndUpdate then (.ok (createTemporaryProfile userId), w)
  else
    let (profile, profiles) := findOneAndSet w.profiles userId (applySetFields body)
    (.ok profile, cacheProfile { w with profiles := profiles } userId profile)

/-- The status and the body of the answer of a profile route. -/
structure ProfileResponse where
  status : Nat
  profile : Option UserProfile := none
  note : Option String := none
  error : Option String := none
  deriving DecidableEq, Repr

/-- The handler of `PUT /preferences/:userId`: the answer and the store
afterwards. A memory service exists when a cache client is configured. -/
def putPreferences (w : World) (userId : String) (body : List (String × String)) :
    ProfileResponse × World :=
  if userId = "" then ({ status := 400, error := some "userId is required" }, w)
  else if w.redis.isSome then
    match updateUserProfileFields w userId body with
    | (.ok updatedProfile, w₁) => ({ status := 200, profile := some updatedProfile }, w₁)
    | (.error _, w₁) => ({ status := 500, error := some "Failed to update user profile" }, w₁)
  else
    ({ status := 200, profile := some (createTemporaryProfile userId),
       note := some "Profile update not saved - memory service not available" }, w)

/-- The text field `key` of the object `preferences` of a profile; `none` when
the object has no text under that key. -/
def Preferences.textField (self : Preferences) (key : String) : Option String :=
  if key = "conversationLength" then self.conversationLength
  else if key = "responseStyle" then self.responseStyle
  else if key = "reminderFrequency" then self.reminderFrequency
  else none

/-! ## Conversation cache (`src/services/memoryService.js`) -/

/-- `redis.setEx(cacheKey, CACHE_TTL, JSON.stringify(conversation))`. -/
def Redis.setConversation (redis : Redis) (key : String) (conversation : Conversation) :
    Redis :=
  { redis with
    conversations := (key, conversation) :: redis.conversations.filter (fun kv => kv.1 != key)
    ttl := (key, CACHE_TTL) :: redis.ttl.filter (fun kv => kv.1 != key) }

/-- The snapshot the cache holds under `conversation:<userId>:<sessionId>`. -/
def cachedConversation (w : World) (userId sessionId : String) : Option Conversation :=
  match w.redis with
  | some redis => redis.conversations.lookup ("conversation:" ++ userId ++ ":" ++ sessionId)
  | none => none

/-- `updateConversationContext(userId, sessionId, context)`, called at time
`now`: the conversation found is updated and saved, then written to the cache;
no step is guarded, so a rejection (and a missing cache client) is an error. -/
def updateConversationContext (w : World) (userId sessionId : String)
    (context : ConversationContext) (now : Time) : Except String (Option Conversation) × World :=
  if w.fails .conversationFindOne then (.error "Conversation.findOne rejected", w)
  else
    match w.conversations.find? (sameSession userId sessionId) with
    | none => (.ok none, w)
    | some conversation =>
      let updated : Conversation := { (conversation.updateContext context) with updatedAt := now }
      if w.acceptsConversation updated then
        let w₁ : World :=
          { w with conversations :=
              modifyFirst (sameSession userId sessionId) (fun _ => updated) w.conversations }
        match w.redis with
        | some redis =>
          if redis.setFails then (.error "redis.setEx rejected", w₁)
          else
            let key := "conversation:" ++ userId ++ ":" ++ sessionId
            (.ok (some updated), { w₁ with redis := some (redis.setConversation key updated) })
        | none => (.error "Cannot read properties of null", w₁)
      else (.error "conversation.save() rejected", w)

/-! ## Changing the case of letters -/

/-- The other case of a letter; a character that is no letter stays. -/
def swapCase (c : Char) : Char :=
  if c.isUpper then c.toLower else if c.isLower then c.toUpper else c

/-- The text with the case of the letters at the chosen positions changed. -/
def changeCase (change : Nat → Bool) (text : String) : String :=
  ⟨text.data.enum.map (fun ic => if change ic.1 then swapCase ic.2 else ic.2)⟩

/-! ## Concrete states -/

/-- A store holding one profile with a fact and an interest. -/
def rememberingWorld : World :=
  { profiles :=
      [ { userId := "u1"
          profile := { interests := some ["guitar"] }
          memory := { importantFacts :=
            [ { fact := "Name is John", confidence := 1, lastMentioned := some 10,
                category := some "general" } ] } } ] }

/-- What the extractor found in a later message. -/
def teaInfo : ExtractedInfo :=
  { facts := some ["Likes tea"], interests := some ["tea"], preferences := some [] }

/-- Two messages of one session written in the same millisecond. -/
def tiedConversation : Conversation :=
  { userId := "u1", sessionId := "s1"
    messages :=
      [ { role := "user", content := "first", timestamp := 100 },
        { role := "assistant", content := "second", timestamp := 100 } ] }

/-- Two messages of one session, one millisecond apart. -/
def orderedConversation : Conversation :=
  { userId := "u1", sessionId := "s1"
    messages :=
      [ { role := "user", content := "first", timestamp := 100 },
        { role := "assistant", content := "second", timestamp := 101 } ] }

/-- A store holding the conversation `orderedConversation`. -/
def orderedWorld : World := { conversations := [orderedConversation] }

/-- A third message for the session, carrying its own timestamp and emotion. -/
def thirdMessage : MessageArg :=
  { role := "user", content := "third", timestamp := some 102,
    emotion := some (EmotionField.label "happy") }

/-- Two sessions of one user: the one updated last holds the older message. -/
def twoSessionWorld : World :=
  { conversations :=
      [ { userId := "u1", sessionId := "a", updatedAt := 300,
          messages := [ { role := "user", content := "old", timestamp := 100 } ] },
        { userId := "u1", sessionId := "b", updatedAt := 200,
          messages := [ { role := "user", content := "new", timestamp := 150 } ] } ] }

/-- A conversation updated at day 10 whose messages carry schema labels, and
one of the same user updated 8 days earlier. -/
def labelledWorld : World :=
  { conversations :=
      [ { userId := "u1", sessionId := "a", updatedAt := 10 * msPerDay,
          messages :=
            [ { role := "user", content := "hi", timestamp := 10 * msPerDay,
                emotion := some (EmotionField.label "happy") },
              { role := "user", content := "oh", timestamp := 10 * msPerDay,
                emotion := some (EmotionField.label "sad") },
              { role := "assistant", content := "hello", timestamp := 10 * msPerDay } ] },
        { userId := "u1", sessionId := "b", updatedAt := 2 * msPerDay,
          messages := [ { role := "user", content := "long ago", timestamp := 2 * msPerDay } ] } ] }

/-- The first conversation of `labelledWorld` as it would be with the analysis
object of the chat route in the `emotion` field of a message. The schema
declares the field as a text, so a `save` does not store such a document; it
is the only shape of a message for which a trend would be counted. -/
def analysisWorld : World :=
  { conversations :=
      [ { userId := "u1", sessionId := "a", updatedAt := 10 * msPerDay,
          messages :=
            [ { role := "user", content := "hi", timestamp := 10 * msPerDay,
                emotion := some (EmotionField.analysis
                  { emotion := "happy", sentiment := 0.8, mood := "happy" }) } ] } ] }

/-- The first message of the test "Send message and get response". -/
def johnMessage : RecentMessage :=
  { role := "user", content := "Hello, my name is John and I love playing guitar",
    timestamp := 100, emotion := none }

/-- A model that answers in prose, without any JSON. -/
def proseModel : ExternalModel :=
  { model := some (fun _ => .ok "I could not find anything.") }

/-- A profile with four experiences stored out of the order of their dates. -/
def scatteredProfile : UserProfile :=
  { userId := "u1"
    memory := { experiences :=
      [ { event := "A", date := some 300, emotion := some "calm", importance := none },
        { event := "B", date := some 100, emotion := some "calm", importance := none },
        { event := "C", date := some 200, emotion := some "calm", importance := none },
        { event := "D", date := some 50, emotion := some "calm", importance := none } ] } }

/-- A profile with four experiences stored in the order of their dates. -/
def datedProfile : UserProfile :=
  { userId := "u1"
    memory := { experiences :=
      [ { event := "A", date := some 100, emotion := some "calm", importance := none },
        { event := "B", date := some 200, emotion := some "calm", importance := none },
        { event := "C", date := some 300, emotion := none, importance := none },
        { event := "D", date := some 400, emotion := some "calm", importance := none } ] } }

/-- A store and a cache every operation of which rejects. -/
def failingWorld : World :=
  { redis := some { getFails := true, setFails := true, delFails := true }
    fails := fun _ => true
    acceptsProfile := fun _ => false
    acceptsConversation := fun _ => false }

/-- A first message of a user. -/
def helloRequest : ChatRequest :=
  { message := some "hello", userId := some "u1" }

/-- A store with a working, empty cache. -/
def cachedWorld : World := { redis := some {} }

/-- The message in which a user states a name and an interest. -/
def johnRequest : ChatRequest :=
  { message := some "Hello, my name is John and I love playing guitar"
    userId := some "u1", sessionId := some "s1" }

/-- The later question of the same user in the same session. -/
def recallRequest : ChatRequest :=
  { message := some "What do you remember about me?", userId := some "u1"
    sessionId := some "s1" }

/-- The message in which a user states a name, a place and an interest. -/
def sarahRequest : ChatRequest :=
  { message := some "My name is Sarah and I live in New York. I love anime."
    userId := some "u2", sessionId := some "s2" }

/-- The later question of that user in the same session. -/
def sarahRecallRequest : ChatRequest :=
  { message := some "What do you remember about me?", userId := some "u2"
    sessionId := some "s2" }

/-- The body the test of the preferences route sends. -/
def preferencesBody : List (String × String) :=
  [("communicationStyle", "formal"), ("responseStyle", "analytical")]

/-- A store with a working cache that holds one session of two messages. -/
def contextWorld : World :=
  { redis := some {}, conversations := [orderedConversation] }

/-- A store holding a profile whose snapshot is in the cache, the writes of the
cache rejecting. -/
def staleCacheWorld : World :=
  { redis := some
      { profiles :=
          [ ("user_profile:u1",
              { userId := "u1", profile := { interests := some ["guitar"] } }) ]
        setFails := true }
    profiles := [ { userId := "u1", profile := { interests := some ["guitar"] } } ] }

/-- The store with one profile behind a cache whose reads reject. -/
def unreadableCacheWorld : World :=
  { rememberingWorld with redis := some { getFails := true } }

/-- The store with one profile behind a working, empty cache. -/
def emptyCacheWorld : World :=
  { rememberingWorld with redis := some {} }

/-- A working cache that holds the snapshot of the profile with four dated
experiences, in front of the store that holds the profile. -/
def cachedDatedWorld : World :=
  { redis := some { profiles := [("user_profile:u1", datedProfile)] }
    profiles := [datedProfile] }

/-- A profile whose fact list holds `Name is John` once. -/
def johnProfile : UserProfile :=
  { userId := "u1"
    memory := { importantFacts :=
      [ { fact := "Name is John", confidence := 0.5, lastMentioned := some 10,
          category := some "personal" } ] } }

/-- A profile with 2 sessions and 7 messages. -/
def statsProfile : UserProfile :=
  { userId := "u1"
    conversationHistory := { totalSessions := 2, totalMessages := 7 } }

/-! ## Theorems -/

/-! ### The substring test -/

theorem startsWithChars_iff (l pre : List Char) :
    startsWithChars l pre = true ↔ pre <+: l := by
  induction l generalizing pre with
  | nil =>
    cases pre with
    | nil => simp [startsWithChars]
    | cons p pre => simp [startsWithChars]
  | cons c l ih =>
    cases pre with
    | nil => simp [startsWithChars]
    | cons p pre =>
      simp only [startsWithChars, Bool.and_eq_true, beq_iff_eq, ih, List.cons_prefix_cons]
      constructor
      · rintro ⟨h, hp⟩
        exact ⟨h.symm, hp⟩
      · rintro ⟨h, hp⟩
        exact ⟨h.symm, hp⟩

/-- The test `includes` is the contiguous-sublist relation on the characters. -/
theorem includes_iff (s sub : String) : includes s sub = true ↔ sub.data <:+: s.data := by
  unfold includes
  induction s.data with
  | nil =>
    simp only [includesChars, startsWithChars_iff, List.prefix_nil, List.infix_nil]
  | cons c l ih =>
    simp only [includesChars, Bool.or_eq_true, startsWithChars_iff, ih, List.infix_cons_iff]

theorem classifyByPriority_nil (dflt : EmotionResult) (lowerText : String) :
    classifyByPriority [] dflt lowerText = dflt := rfl

theorem classifyByPriority_cons (c : Category) (table : List Category)
    (dflt : EmotionResult) (lowerText : String) :
    classifyByPriority (c :: table) dflt lowerText =
      if c.triggers.any (fun w => includes lowerText w) then c.result
      else classifyByPriority table dflt lowerText := by
  unfold classifyByPriority
  rw [List.find?_cons]
  cases c.triggers.any (fun w => includes lowerText w) <;> simp

/-- C1. A text whose lower-cased form contains a sad-indicator (`sad`, `down`,
`upset` for `getFallbackEmotion`; these and `depressed`, `wrong`, `terrible`
for `mockEmotionAnalysis`) is classified as sad with sentiment -0.7, whatever
else the text contains. -/
theorem sad_indicator_resolves_to_sad (text k : String)
    (hin : includes (toLowerCase text) k = true) :
    (k ∈ ["sad", "down", "upset"] →
      (getFallbackEmotion text).emotion = "sad" ∧
      (getFallbackEmotion text).sentiment = -0.7) ∧
    (k ∈ ["sad", "down", "upset", "depressed", "wrong", "terrible"] →
      (mockEmotionAnalysis text).emotion = "sad" ∧
      (mockEmotionAnalysis text).sentiment = -0.7) := by
  constructor
  · intro hk
    simp only [List.mem_cons, List.mem_singleton, List.mem_nil_iff, or_false] at hk
    rcases hk with rfl | rfl | rfl <;> simp [getFallbackEmotion, hin]
  · intro hk
    simp only [List.mem_cons, List.mem_singleton, List.mem_nil_iff, or_false] at hk
    rcases hk with rfl | rfl | rfl | rfl | rfl | rfl <;> simp [mockEmotionAnalysis, hin]

/-- A text with both a sad and a happy keyword resolves to sad in both
classifiers. -/
theorem sad_indicator_resolves_to_sad_witness :
    includes (toLowerCase "I am SAD but happy") "sad" = true ∧
    includes (toLowerCase "I am SAD but happy") "happy" = true ∧
    ((getFallbackEmotion "I am SAD but happy").emotion = "sad" ∧
      (getFallbackEmotion "I am SAD but happy").sentiment = -0.7) ∧
    ((mockEmotionAnalysis "I am SAD but happy").emotion = "sad" ∧
      (mockEmotionAnalysis "I am SAD but happy").sentiment = -0.7) :=
  ⟨by decide, by decide,
    (sad_indicator_resolves_to_sad "I am SAD but happy" "sad" (by decide)).1 (by decide),
    (sad_indicator_resolves_to_sad "I am SAD but happy" "sad" (by decide)).2 (by decide)⟩

/-- C2. Both fallback classifiers return the fixed result of the first
category whose trigger occurs in the lower-cased text, the categories being
tested in the order sad, happy, excited, angry, curious (`getFallbackEmotion`
has no excited category), curious being triggered by a question mark; when no
category matches the result is neutral, with sentiment 0 in
`getFallbackEmotion` and 0.1 in `mockEmotionAnalysis`. -/
theorem classifier_first_matching_category (text : String) :
    getFallbackEmotion text =
      classifyByPriority fallbackCategories
        { emotion := "neutral", sentiment := 0, mood := "neutral" } (toLowerCase text) ∧
    mockEmotionAnalysis text =
      classifyByPriority mockCategories
        { emotion := "neutral", sentiment := 0.1, mood := "calm" } (toLowerCase text) ∧
    mockCategories.map (fun c => c.result.emotion) =
      ["sad", "happy", "excited", "angry", "curious"] ∧
    fallbackCategories.map (fun c => c.result.emotion) =
      ["sad", "happy", "angry", "curious"] ∧
    (mockCategories.getLast?.map (fun c => c.triggers) = some ["?"] ∧
      fallbackCategories.getLast?.map (fun c => c.triggers) = some ["?"]) := by
  refine ⟨?_, ?_, by simp [mockCategories], by simp [fallbackCategories],
    by simp [mockCategories], by simp [fallbackCategories]⟩
  · simp only [getFallbackEmotion, fallbackCategories, classifyByPriority_cons,
      classifyByPriority_nil, List.any_cons, List.any_nil, Bool.or_false, Bool.or_assoc]
  · simp only [mockEmotionAnalysis, mockCategories, classifyByPriority_cons,
      classifyByPriority_nil, List.any_cons, List.any_nil, Bool.or_false, Bool.or_assoc]

/-! ### Facts about `modifyFirst` -/

theorem modifyFirst_length {α : Type} (p : α → Bool) (f : α → α) (l : List α) :
    (modifyFirst p f l).length = l.length := by
  induction l with
  | nil => rfl
  | cons a l ih =>
    unfold modifyFirst
    split_ifs <;> simp [ih]

theorem modifyFirst_map {α β : Type} (p : α → Bool) (f : α → α) (g : α → β)
    (hg : ∀ a, p a = true → g (f a) = g a) (l : List α) :
    (modifyFirst p f l).map g = l.map g := by
  induction l with
  | nil => rfl
  | cons a l ih =>
    unfold modifyFirst
    split_ifs with hp
    · simp [hg a hp]
    · simp [ih]

theorem filter_length_eq_of_map_eq {α : Type} (g : α → Bool) (l₁ l₂ : List α)
    (h : l₁.map g = l₂.map g) : (l₁.filter g).length = (l₂.filter g).length := by
  have key : ∀ l : List α, (l.filter g).length = (l.map g).count true := by
    intro l
    induction l with
    | nil => rfl
    | cons a l ih =>
      cases hg : g a <;> simp [List.filter_cons, hg, ih]
  rw [key, key, h]

theorem modifyFirst_of_find {α : Type} (p : α → Bool) (f : α → α) (l : List α) (e : α)
    (h : l.find? p = some e) :
    ∃ pre post, l = pre ++ e :: post ∧ (∀ x ∈ pre, p x = false) ∧ p e = true ∧
      modifyFirst p f l = pre ++ f e :: post := by
  induction l with
  | nil => simp at h
  | cons a l ih =>
    by_cases hp : p a = true
    · rw [List.find?_cons_of_pos _ hp] at h
      cases h
      exact ⟨[], l, rfl, by simp, hp, by simp [modifyFirst, hp]⟩
    · rw [List.find?_cons_of_neg _ hp] at h
      obtain ⟨pre, post, hl, hpre, hpe, hmod⟩ := ih h
      refine ⟨a :: pre, post, by simp [hl], ?_, hpe, by simp [modifyFirst, hp, hmod]⟩
      intro x hx
      rcases List.mem_cons.mp hx with rfl | hx
      · simpa using hp
      · exact hpre x hx

theorem sameFactText_iff (fact : String) (f : ImportantFact) :
    sameFactText fact f = true ↔ toLowerCase f.fact = toLowerCase fact := by
  simp [sameFactText]

/-- What the two branches of `addImportantFact` do to the fact list. -/
theorem addImportantFact_facts (p : UserProfile) (now : Time) (fact category : String)
    (confidence : ℚ) :
    (∀ e, p.memory.importantFacts.find? (sameFactText fact) = some e →
      ∃ pre post, p.memory.importantFacts = pre ++ e :: post ∧
        (∀ x ∈ pre, sameFactText fact x = false) ∧ sameFactText fact e = true ∧
        (p.addImportantFact now fact category confidence).memory.importantFacts =
          pre ++ { e with lastMentioned := some now,
                          confidence := max e.confidence confidence } :: post) ∧
    (p.memory.importantFacts.find? (sameFactText fact) = none →
      (p.addImportantFact now fact category confidence).memory.importantFacts =
        p.memory.importantFacts ++
          [{ fact := fact, category := some category, confidence := confidence,
             lastMentioned := some now }]) := by
  constructor
  · intro e he
    obtain ⟨pre, post, hl, hpre, hpe, hmod⟩ :=
      modifyFirst_of_find (sameFactText fact)
        (fun existingFact => { existingFact with
          lastMentioned := some now
          confidence := max existingFact.confidence confidence })
        p.memory.importantFacts e he
    refine ⟨pre, post, hl, hpre, hpe, ?_⟩
    simp only [UserProfile.addImportantFact, he]
    exact hmod
  · intro hnone
    simp only [UserProfile.addImportantFact, hnone]

theorem factCount_append (fact : String) (l₁ l₂ : List ImportantFact) :
    factCount fact (l₁ ++ l₂) = factCount fact l₁ + factCount fact l₂ := by
  simp [factCount]

theorem factCount_eq_zero (fact : String) (l : List ImportantFact)
    (h : ∀ x ∈ l, sameFactText fact x = false) : factCount fact l = 0 := by
  simp only [factCount, List.length_eq_zero, List.filter_eq_nil_iff]
  intro x hx
  simp [h x hx]

theorem factCount_cons (fact : String) (e : ImportantFact) (l : List ImportantFact) :
    factCount fact (e :: l) = (if sameFactText fact e then 1 else 0) + factCount fact l := by
  unfold factCount
  rw [List.filter_cons]
  split_ifs <;> simp [Nat.add_comm]

/-- After one call of `addImportantFact` the first entry with the text is the
touched one, the number of entries with the text is the old number (or one
when there was none), and the entry found carries the call's time. -/
theorem addImportantFact_once (p : UserProfile) (now : Time) (fact category : String)
    (confidence : ℚ) :
    ∃ e, (p.addImportantFact now fact category confidence).memory.importantFacts.find?
        (sameFactText fact) = some e ∧ e.lastMentioned = some now ∧
      factCount fact (p.addImportantFact now fact category confidence).memory.importantFacts =
        max 1 (factCount fact p.memory.importantFacts) ∧
      (factCount fact p.memory.importantFacts ≤ 1 →
        ∀ x ∈ (p.addImportantFact now fact category confidence).memory.importantFacts,
          sameFactText fact x = true → x = e) := by
  obtain ⟨hsome, hnone⟩ := addImportantFact_facts p now fact category confidence
  cases hfind : p.memory.importantFacts.find? (sameFactText fact) with
  | none =>
    have hall : ∀ x ∈ p.memory.importantFacts, sameFactText fact x = false := by
      intro x hx
      have := List.find?_eq_none.mp hfind x hx
      simpa using this
    have hnew : sameFactText fact
        { fact := fact, category := some category, confidence := confidence,
          lastMentioned := some now } = true := by simp [sameFactText]
    refine ⟨{ fact := fact, category := some category, confidence := confidence,
              lastMentioned := some now }, ?_, rfl, ?_, ?_⟩
    · rw [hnone hfind, List.find?_append, hfind]
      simp [hnew]
    · rw [hnone hfind, factCount_append, factCount_eq_zero fact _ hall, factCount_cons]
      simp [hnew, factCount]
    · intro _ x hx hxs
      rw [hnone hfind] at hx
      rcases List.mem_append.mp hx with hx | hx
      · rw [hall x hx] at hxs
        cases hxs
      · simpa using hx
  | some e =>
    obtain ⟨pre, post, hl, hpre, hpe, hres⟩ := hsome e hfind
    have hpe' : sameFactText fact
        { e with lastMentioned := some now, confidence := max e.confidence confidence } = true := by
      simpa [sameFactText] using hpe
    refine ⟨{ e with lastMentioned := some now, confidence := max e.confidence confidence },
      ?_, rfl, ?_, ?_⟩
    · rw [hres, List.find?_append]
      have : pre.find? (sameFactText fact) = none := by
        apply List.find?_eq_none.mpr
        intro x hx
        simp [hpre x hx]
      rw [this]
      simp [hpe']
    · rw [hres, hl]
      simp only [factCount_append, factCount_cons, hpe, hpe', if_true]
      omega
    · intro hle x hx hxs
      rw [hl, factCount_append, factCount_cons, factCount_eq_zero fact _ hpre] at hle
      simp only [hpe, if_true] at hle
      have hpost : factCount fact post = 0 := by omega
      rw [hres] at hx
      rcases List.mem_append.mp hx with hx | hx
      · rw [hpre x hx] at hxs
        cases hxs
      · rcases List.mem_cons.mp hx with rfl | hx
        · rfl
        · exfalso
          have : x ∈ post.filter (sameFactText fact) := List.mem_filter.mpr ⟨hx, hxs⟩
          unfold factCount at hpost
          rw [List.length_eq_zero.mp hpost] at this
          cases this

/-- C3 (counterexample). On a profile that already holds the same fact twice,
two successive calls of `addImportantFact` with that text leave two entries
for it, not one, and only the first of them carries the second call's time. -/
theorem addImportantFact_twice_keeps_duplicates :
    factCount "Name is John"
      ((duplicatedFactsProfile.addImportantFact 10 "Name is John" "general" 1).addImportantFact
        20 "Name is John" "general" 1).memory.importantFacts = 2 ∧
    ¬ (factCount "Name is John"
      ((duplicatedFactsProfile.addImportantFact 10 "Name is John" "general" 1).addImportantFact
        20 "Name is John" "general" 1).memory.importantFacts = 1) ∧
    (((duplicatedFactsProfile.addImportantFact 10 "Name is John" "general" 1).addImportantFact
        20 "Name is John" "general" 1).memory.importantFacts.map
          (fun f => f.lastMentioned)) = [some 20, none] := by
  decide

/-- C3 (amended). For every profile whose fact list holds at most one entry
with the text (ignoring case), two successive calls of `addImportantFact` with
that text leave exactly one entry for it, the list has the same length after
the second call as after the first, and that entry's `lastMentioned` is the
time of the second call. -/
theorem addImportantFact_idempotent (p : UserProfile) (fact : String) (t₁ t₂ : Time)
    (category₁ category₂ : String) (confidence₁ confidence₂ : ℚ)
    (hone : factCount fact p.memory.importantFacts ≤ 1) :
    factCount fact ((p.addImportantFact t₁ fact category₁ confidence₁).addImportantFact
      t₂ fact category₂ confidence₂).memory.importantFacts = 1 ∧
    ((p.addImportantFact t₁ fact category₁ confidence₁).addImportantFact
      t₂ fact category₂ confidence₂).memory.importantFacts.length =
      (p.addImportantFact t₁ fact category₁ confidence₁).memory.importantFacts.length ∧
    (∀ e ∈ ((p.addImportantFact t₁ fact category₁ confidence₁).addImportantFact
      t₂ fact category₂ confidence₂).memory.importantFacts,
      sameFactText fact e = true → e.lastMentioned = some t₂) := by
  obtain ⟨e₁, hfind₁, -, hcount₁, -⟩ := addImportantFact_once p t₁ fact category₁ confidence₁
  have hone₁ : factCount fact
      (p.addImportantFact t₁ fact category₁ confidence₁).memory.importantFacts = 1 := by
    rw [hcount₁]; omega
  obtain ⟨e₂, -, hlast₂, hcount₂, huniq₂⟩ :=
    addImportantFact_once (p.addImportantFact t₁ fact category₁ confidence₁) t₂ fact
      category₂ confidence₂
  refine ⟨by rw [hcount₂, hone₁]; rfl, ?_, ?_⟩
  · obtain ⟨pre, post, hl, -, -, hres⟩ :=
      (addImportantFact_facts (p.addImportantFact t₁ fact category₁ confidence₁) t₂ fact
        category₂ confidence₂).1 e₁ hfind₁
    rw [hres, hl]
    simp
  · intro e he hes
    rw [huniq₂ (by omega) e he hes]
    exact hlast₂

/-- The amended idempotence at a profile without the fact: `Name is John`
added at time 10 and again, in capitals, at time 20. -/
theorem addImportantFact_idempotent_witness :
    factCount "NAME IS JOHN" ({ userId := "u1" } : UserProfile).memory.importantFacts ≤ 1 ∧
    (({ userId := "u1" } : UserProfile).addImportantFact 10 "Name is John" "general"
      1).memory.importantFacts.map (fun f => (f.fact, f.lastMentioned)) =
      [("Name is John", some 10)] ∧
    (johnProfile.addImportantFact 20 "NAME IS JOHN" "general" 1).memory.importantFacts.map
      (fun f => (f.fact, f.lastMentioned)) = [("Name is John", some 20)] ∧
    factCount "NAME IS JOHN" ((({ userId := "u1" } : UserProfile).addImportantFact 10
      "NAME IS JOHN" "general" 1).addImportantFact 20 "NAME IS JOHN" "general"
        1).memory.importantFacts = 1 :=
  ⟨by decide, by decide, by decide,
    (addImportantFact_idempotent { userId := "u1" } "NAME IS JOHN" 10 20 "general" "general"
      1 1 (by decide)).1⟩

/-- C4. `addImportantFact` keeps the texts of the fact list distinct ignoring
case: when an entry has the new text (ignoring case) the list keeps its length
and its entries, that entry is the only one touched, its confidence becomes the
maximum of the old and the new one and its text and category stay; otherwise
exactly one entry, with the given text, category and confidence, is appended
at the end. -/
theorem addImportantFact_keeps_texts_distinct (p : UserProfile) (now : Time)
    (fact category : String) (confidence : ℚ)
    (hinv : FactsDistinct p.memory.importantFacts) :
    FactsDistinct (p.addImportantFact now fact category confidence).memory.importantFacts ∧
    (∀ e ∈ p.memory.importantFacts, toLowerCase e.fact = toLowerCase fact →
      ∃ pre post, p.memory.importantFacts = pre ++ e :: post ∧
        (p.addImportantFact now fact category confidence).memory.importantFacts =
          pre ++ { fact := e.fact, category := e.category, lastMentioned := some now,
                   confidence := max e.confidence confidence } :: post) ∧
    ((∀ e ∈ p.memory.importantFacts, toLowerCase e.fact ≠ toLowerCase fact) →
      (p.addImportantFact now fact category confidence).memory.importantFacts =
        p.memory.importantFacts ++
          [{ fact := fact, category := some category, confidence := confidence,
             lastMentioned := some now }]) := by
  obtain ⟨hsome, hnone⟩ := addImportantFact_facts p now fact category confidence
  refine ⟨?_, ?_, ?_⟩
  · cases hfind : p.memory.importantFacts.find? (sameFactText fact) with
    | none =>
      rw [hnone hfind]
      unfold FactsDistinct at hinv ⊢
      rw [List.pairwise_append]
      refine ⟨hinv, List.pairwise_singleton _ _, ?_⟩
      intro a ha b hb
      have hb' : b.fact = fact := by
        rw [List.mem_singleton] at hb
        rw [hb]
      have := List.find?_eq_none.mp hfind a ha
      rw [hb']
      simpa [sameFactText] using this
    | some e =>
      obtain ⟨pre, post, hl, -, -, hres⟩ := hsome e hfind
      unfold FactsDistinct at hinv ⊢
      have hmap : (p.addImportantFact now fact category confidence).memory.importantFacts.map
          (fun f => toLowerCase f.fact) =
          p.memory.importantFacts.map (fun f => toLowerCase f.fact) := by
        rw [hres, hl]
        simp
      have h₁ := (List.pairwise_map (f := fun f : ImportantFact => toLowerCase f.fact)
        (R := fun a b => a ≠ b) (l := p.memory.importantFacts)).mpr hinv
      rw [← hmap] at h₁
      exact List.pairwise_map.mp h₁
  · intro e he hsame
    have hes : sameFactText fact e = true := (sameFactText_iff fact e).mpr hsame
    cases hfind : p.memory.importantFacts.find? (sameFactText fact) with
    | none =>
      have := List.find?_eq_none.mp hfind e he
      simp [hes] at this
    | some e' =>
      obtain ⟨pre, post, hl, hpre, hpe, hres⟩ := hsome e' hfind
      have hee : e = e' := by
        rw [hl] at he
        rcases List.mem_append.mp he with hx | hx
        · rw [hpre e hx] at hes
          cases hes
        · rcases List.mem_cons.mp hx with h | hx
          · exact h
          · exfalso
            unfold FactsDistinct at hinv
            rw [hl, List.pairwise_append] at hinv
            have := (List.pairwise_cons.mp hinv.2.1).1 e hx
            apply this
            rw [hsame]
            exact (sameFactText_iff fact e').mp hpe
      subst hee
      exact ⟨pre, post, hl, hres⟩
  · intro hall
    apply hnone
    apply List.find?_eq_none.mpr
    intro x hx
    have := hall x hx
    simpa [sameFactText] using this

/-- The fact `name is john` arriving on a list that holds `Name is John`:
the list stays distinct, keeps its single entry, and that entry keeps its text
and category. -/
theorem addImportantFact_keeps_texts_distinct_witness :
    FactsDistinct johnProfile.memory.importantFacts ∧
    FactsDistinct
      (johnProfile.addImportantFact 20 "name is john" "general" 0.8).memory.importantFacts ∧
    (johnProfile.addImportantFact 20 "name is john" "general" 0.8).memory.importantFacts.map
      (fun f => (f.fact, f.category, f.lastMentioned)) =
      [("Name is John", some "personal", some 20)] :=
  ⟨List.pairwise_singleton _ _,
    (addImportantFact_keeps_texts_distinct johnProfile 20 "name is john" "general" 0.8
      (List.pairwise_singleton _ _)).1,
    by decide⟩

/-- C6. On a profile with `totalSessions ≥ 0`, `incrementConversationStats`
raises `totalSessions` by exactly 1 and `totalMessages` by exactly
`messageCount`, the new `totalSessions` is not zero, and
`averageSessionLength` is the quotient of the new `totalMessages` by the new
`totalSessions`. -/
theorem incrementConversationStats_average (p : UserProfile) (now : Time) (messageCount : ℚ)
    (hsessions : 0 ≤ p.conversationHistory.totalSessions) :
    (p.incrementConversationStats now messageCount).conversationHistory.totalSessions =
      p.conversationHistory.totalSessions + 1 ∧
    (p.incrementConversationStats now messageCount).conversationHistory.totalMessages =
      p.conversationHistory.totalMessages + messageCount ∧
    (p.incrementConversationStats now messageCount).conversationHistory.totalSessions ≠ 0 ∧
    (p.incrementConversationStats now messageCount).conversationHistory.averageSessionLength =
      (p.incrementConversationStats now messageCount).conversationHistory.totalMessages /
        (p.incrementConversationStats now messageCount).conversationHistory.totalSessions := by
  have hpos : p.conversationHistory.totalSessions + 1 > 0 := by linarith
  refine ⟨rfl, rfl, ?_, ?_⟩
  · show p.conversationHistory.totalSessions + 1 ≠ 0
    exact ne_of_gt hpos
  · simp only [UserProfile.incrementConversationStats, if_pos hpos]

/-- A profile with 2 sessions and 7 messages after a session of 5 messages:
3 sessions, 12 messages, average 4. -/
theorem incrementConversationStats_average_witness :
    0 ≤ statsProfile.conversationHistory.totalSessions ∧
    (statsProfile.incrementConversationStats 100 5).conversationHistory.totalSessions = 3 ∧
    (statsProfile.incrementConversationStats 100 5).conversationHistory.totalMessages = 12 ∧
    (statsProfile.incrementConversationStats 100 5).conversationHistory.averageSessionLength =
      (statsProfile.incrementConversationStats 100 5).conversationHistory.totalMessages /
        (statsProfile.incrementConversationStats 100 5).conversationHistory.totalSessions ∧
    (statsProfile.incrementConversationStats 100 5).conversationHistory.averageSessionLength
      = 4 :=
  ⟨by norm_num [statsProfile],
    by norm_num [statsProfile, UserProfile.incrementConversationStats],
    by norm_num [statsProfile, UserProfile.incrementConversationStats],
    (incrementConversationStats_average statsProfile 100 5
      (by norm_num [statsProfile])).2.2.2,
    by norm_num [statsProfile, UserProfile.incrementConversationStats]⟩

/-- C5 (the code at the failing input). A stored profile holds the fact
`Name is John` and the interest `guitar`; `updateUserMemory` with the extracted
fact `Likes tea` and interest `tea` answers `true`, and afterwards the stored
profile holds only the extracted fact and interest: the earlier ones are gone.
An extracted fact given twice is stored twice. -/
theorem updateUserMemory_replaces_lists :
    (updateUserMemory rememberingWorld "u1" teaInfo none).1 = true ∧
    rememberingWorld.profiles.map
      (fun p => (p.memory.importantFacts.map (fun f => f.fact), p.profile.interests)) =
      [(["Name is John"], some ["guitar"])] ∧
    (updateUserMemory rememberingWorld "u1" teaInfo none).2.profiles.map
      (fun p => (p.memory.importantFacts.map (fun f => f.fact), p.profile.interests)) =
      [(["Likes tea"], some ["tea"])] ∧
    (updateUserMemory rememberingWorld "u1"
      { facts := some ["Likes tea", "Likes tea"], preferences := some [] } none).2.profiles.map
      (fun p => p.memory.importantFacts.map (fun f => f.fact)) =
      [["Likes tea", "Likes tea"]] := by
  decide

/-- C7. For a user with no stored profile, when the cache gives no entry and
the store works (the lookup resolves and the new document is accepted),
`getUserProfile` returns the default profile and the store holds it
afterwards: the fact, interest, experience, relationship and goal lists are
empty, the three statistics are 0, and the styles are casual, empathetic and
moderate. -/
theorem getUserProfile_new_user_default (w : World) (userId : String)
    (hcache : cachedProfile w userId = none)
    (hnone : ∀ p ∈ w.profiles, p.userId ≠ userId)
    (hfind : w.fails .profileFindOne = false)
    (hsave : w.acceptsProfile (newUserProfile userId) = true) :
    ∃ profile, (getUserProfile w userId).1 = .ok profile ∧
      profile ∈ (getUserProfile w userId).2.profiles ∧
      profile.userId = userId ∧
      profile.isTemporary = false ∧
      profile.memory.importantFacts = [] ∧
      profile.profile.interests = some [] ∧
      profile.memory.experiences = [] ∧
      profile.memory.relationships = [] ∧
      profile.memory.goals = [] ∧
      profile.conversationHistory.totalSessions = 0 ∧
      profile.conversationHistory.totalMessages = 0 ∧
      profile.conversationHistory.averageSessionLength = 0 ∧
      profile.profile.communicationStyle = some "casual" ∧
      profile.preferences.responseStyle = some "empathetic" ∧
      profile.preferences.conversationLength = some "moderate" := by
  have hfind? : w.profiles.find? (fun p => p.userId == userId) = none := by
    apply List.find?_eq_none.mpr
    intro p hp
    simpa using hnone p hp
  refine ⟨newUserProfile userId, ?_, ?_, rfl, rfl, rfl, rfl, rfl, rfl, rfl, rfl, rfl, rfl, rfl,
    rfl, rfl⟩
  · simp [getUserProfile, hcache, hfind, hfind?, createUserProfile, hsave]
  · simp only [getUserProfile, hcache, hfind, hfind?, createUserProfile, hsave, if_true]
    have hkeep : ∀ (v : World) (u : String) (q : UserProfile),
        (cacheProfile v u q).profiles = v.profiles := by
      intro v u q
      unfold cacheProfile
      split
      · split <;> rfl
      · rfl
    simp [hkeep]

/-- A user never seen, on an empty store with an empty cache. -/
theorem getUserProfile_new_user_default_witness :
    cachedProfile { redis := some {} } "u9" = none ∧
    ∃ profile, (getUserProfile { redis := some {} } "u9").1 = .ok profile ∧
      profile ∈ (getUserProfile { redis := some {} } "u9").2.profiles ∧
      profile.userId = "u9" ∧
      profile.isTemporary = false ∧
      profile.memory.importantFacts = [] ∧
      profile.profile.interests = some [] ∧
      profile.memory.experiences = [] ∧
      profile.memory.relationships = [] ∧
      profile.memory.goals = [] ∧
      profile.conversationHistory.totalSessions = 0 ∧
      profile.conversationHistory.totalMessages = 0 ∧
      profile.conversationHistory.averageSessionLength = 0 ∧
      profile.profile.communicationStyle = some "casual" ∧
      profile.preferences.responseStyle = some "empathetic" ∧
      profile.preferences.conversationLength = some "moderate" :=
  ⟨rfl, getUserProfile_new_user_default { redis := some {} } "u9" rfl (by simp) rfl rfl⟩

/-- C8. When the cache gives no entry and the store lookup rejects, or the
user has no profile and saving the new one rejects, `getUserProfile` raises
nothing: it returns `createTemporaryProfile(userId)`, which is marked
temporary, carries the user id and the default styles, and has empty memory
lists and zero statistics. -/
theorem getUserProfile_store_failure_temporary (w : World) (userId : String)
    (hcache : cachedProfile w userId = none)
    (hfail : w.fails .profileFindOne = true ∨
      ((∀ p ∈ w.profiles, p.userId ≠ userId) ∧
        w.acceptsProfile (newUserProfile userId) = false)) :
    (getUserProfile w userId).1 = .ok (createTemporaryProfile userId) ∧
    (createTemporaryProfile userId).isTemporary = true ∧
    (createTemporaryProfile userId).userId = userId ∧
    (createTemporaryProfile userId).profile.communicationStyle = some "casual" ∧
    (createTemporaryProfile userId).preferences.responseStyle = some "empathetic" ∧
    (createTemporaryProfile userId).preferences.conversationLength = some "moderate" ∧
    (createTemporaryProfile userId).memory.importantFacts = [] ∧
    (createTemporaryProfile userId).memory.relationships = [] ∧
    (createTemporaryProfile userId).memory.experiences = [] ∧
    (createTemporaryProfile userId).memory.goals = [] ∧
    (createTemporaryProfile userId).conversationHistory.totalSessions = 0 ∧
    (createTemporaryProfile userId).conversationHistory.totalMessages = 0 ∧
    (createTemporaryProfile userId).conversationHistory.averageSessionLength = 0 := by
  refine ⟨?_, rfl, rfl, rfl, rfl, rfl, rfl, rfl, rfl, rfl, rfl, rfl, rfl⟩
  rcases hfail with hfind | ⟨hnone, hsave⟩
  · simp [getUserProfile, hcache, hfind]
  · have hfind? : w.profiles.find? (fun p => p.userId == userId) = none := by
      apply List.find?_eq_none.mpr
      intro p hp
      simpa using hnone p hp
    cases hq : w.fails .profileFindOne
    · simp [getUserProfile, hcache, hq, hfind?, createUserProfile, hsave]
    · simp [getUserProfile, hcache, hq]

/-- A store whose lookup rejects, and a store that refuses the new document. -/
theorem getUserProfile_store_failure_temporary_witness :
    cachedProfile { fails := fun _ => true } "u9" = none ∧
    (getUserProfile { fails := fun _ => true } "u9").1 = .ok (createTemporaryProfile "u9") ∧
    (getUserProfile { acceptsProfile := fun _ => false } "u9").1 =
      .ok (createTemporaryProfile "u9") :=
  ⟨rfl,
    (getUserProfile_store_failure_temporary { fails := fun _ => true } "u9" rfl
      (Or.inl rfl)).1,
    (getUserProfile_store_failure_temporary { acceptsProfile := fun _ => false } "u9" rfl
      (Or.inr ⟨by simp, rfl⟩)).1⟩

/-! ### Facts about the conversation store -/

theorem filter_modifyFirst_const {α : Type} (p : α → Bool) (c e : α) (l : List α)
    (hfind : l.find? p = some e) (hc : p c = true) (hone : (l.filter p).length ≤ 1) :
    (modifyFirst p (fun _ => c) l).filter p = [c] := by
  obtain ⟨pre, post, hl, hpre, hpe, hmod⟩ := modifyFirst_of_find p (fun _ => c) l e hfind
  have hpre' : pre.filter p = [] := by
    apply List.filter_eq_nil_iff.mpr
    intro x hx
    simp [hpre x hx]
  have hpost : post.filter p = [] := by
    rw [hl, List.filter_append, hpre', List.filter_cons_of_pos hpe] at hone
    simp only [List.nil_append, List.length_cons] at hone
    apply List.length_eq_zero.mp
    omega
  rw [hmod, List.filter_append, hpre', List.filter_cons_of_pos hc, hpost]
  rfl

theorem sliceFrom_neg_ten_append {α : Type} (l : List α) (m : α) :
    sliceFrom (l ++ [m]) (-10) = l.drop (l.length - 9) ++ [m] := by
  have hn : Int.toNat (((l ++ [m]).length : Int) + -10) = l.length - 9 := by
    simp only [List.length_append, List.length_singleton]
    omega
  unfold sliceFrom
  rw [if_pos (by decide), hn]
  exact List.drop_append_of_le_length (Nat.sub_le _ _)

/-- The store keeps at most one conversation per (user, session) across
`saveMessage`: a document is inserted only for a pair that has none. -/
theorem saveMessage_keeps_sessions_unique (w : World) (userId sessionId : String)
    (message : MessageArg) (now : Time)
    (hkeys : ∀ u s, (w.conversations.filter (sameSession u s)).length ≤ 1) (u s : String) :
    ((saveMessage w userId sessionId message now).2.conversations.filter
      (sameSession u s)).length ≤ 1 := by
  cases hq : w.fails .conversationFindOne with
  | true =>
    simp only [saveMessage, hq, if_true]
    exact hkeys u s
  | false =>
    cases hfind : w.conversations.find? (sameSession userId sessionId) with
    | none =>
      have hall : w.conversations.filter (sameSession userId sessionId) = [] := by
        apply List.filter_eq_nil_iff.mpr
        intro x hx
        exact List.find?_eq_none.mp hfind x hx
      simp only [saveMessage, hq, hfind, Bool.false_eq_true, if_false]
      split_ifs with hacc
      · simp only [List.filter_append, List.length_append]
        by_cases hus : userId = u ∧ sessionId = s
        · obtain ⟨rfl, rfl⟩ := hus
          simp [hall, sameSession]
        · have hk := hkeys u s
          have hno : ¬ (userId = u ∧ sessionId = s) := hus
          simp only [List.filter_cons, sameSession, Bool.and_eq_true, beq_iff_eq, hno,
            if_false, List.filter_nil, List.length_nil, Nat.add_zero]
          simpa [sameSession] using hk
      · exact hkeys u s
    | some c =>
      have hc := List.find?_some hfind
      simp only [sameSession, Bool.and_eq_true, beq_iff_eq] at hc
      simp only [saveMessage, hq, hfind, Bool.false_eq_true, if_false]
      split_ifs with hacc
      · simp only []
        rw [filter_length_eq_of_map_eq (sameSession u s) _ w.conversations]
        · exact hkeys u s
        · apply modifyFirst_map
          intro a ha
          simp only [sameSession, Bool.and_eq_true, beq_iff_eq] at ha
          simp [sameSession, ha.1, ha.2, hc.1, hc.2]
      · exact hkeys u s

/-- C9. When the store holds at most one conversation for the pair (user,
session) and `saveMessage` succeeds, `getRecentMessages` with limit 10 returns
the latest (at most 9) of the previously stored messages in their stored order,
followed by the appended message with its role, content, timestamp (the
message's own, or the time of the call when it has none) and emotion. -/
theorem saveMessage_getRecentMessages_round_trip (w : World) (userId sessionId : String)
    (message : MessageArg) (now : Time)
    (hkey : (w.conversations.filter (sameSession userId sessionId)).length ≤ 1)
    (hsaved : (saveMessage w userId sessionId message now).1 ≠ none) :
    getRecentMessages (saveMessage w userId sessionId message now).2 userId sessionId 10 =
      ((storedMessages w userId sessionId).drop
        ((storedMessages w userId sessionId).length - 9)).map Message.toRecent ++
      [{ role := message.role, content := message.content,
         timestamp := message.timestamp.getD now, emotion := message.emotion }] ∧
    ((storedMessages w userId sessionId).drop
        ((storedMessages w userId sessionId).length - 9)).length =
      min 9 (storedMessages w userId sessionId).length := by
  refine ⟨?_, by rw [List.length_drop]; omega⟩
  cases hq : w.fails .conversationFindOne with
  | true => simp [saveMessage, hq] at hsaved
  | false =>
    cases hfind : w.conversations.find? (sameSession userId sessionId) with
    | none =>
      have hall : w.conversations.filter (sameSession userId sessionId) = [] := by
        apply List.filter_eq_nil_iff.mpr
        intro x hx
        exact List.find?_eq_none.mp hfind x hx
      simp only [saveMessage, hq, hfind, Bool.false_eq_true, if_false] at hsaved ⊢
      split_ifs at hsaved ⊢ with hacc
      · simp [getRecentMessages, hq, storedMessages, hfind, findOneNewest, List.filter_append,
          hall, sameSession, sliceFrom, Message.toRecent]
      · simp at hsaved
    | some c =>
      have hc := List.find?_some hfind
      simp only [saveMessage, hq, hfind, Bool.false_eq_true, if_false] at hsaved ⊢
      split_ifs at hsaved ⊢ with hacc
      · simp only [getRecentMessages, hq, storedMessages, hfind, findOneNewest,
          Bool.false_eq_true, if_false]
        rw [filter_modifyFirst_const _ _ c _ hfind _ hkey]
        · simp [sliceFrom_neg_ten_append, Message.toRecent]
        · simpa [sameSession] using hc
      · simp at hsaved

/-- A third message saved on a session of two: all three come back, the new
one last with its own fields. -/
theorem saveMessage_getRecentMessages_round_trip_witness :
    (orderedWorld.conversations.filter (sameSession "u1" "s1")).length ≤ 1 ∧
    (saveMessage orderedWorld "u1" "s1" thirdMessage 200).1 ≠ none ∧
    getRecentMessages (saveMessage orderedWorld "u1" "s1" thirdMessage 200).2 "u1" "s1" 10 =
      ((storedMessages orderedWorld "u1" "s1").drop
        ((storedMessages orderedWorld "u1" "s1").length - 9)).map Message.toRecent ++
      [{ role := thirdMessage.role, content := thirdMessage.content,
         timestamp := thirdMessage.timestamp.getD 200, emotion := thirdMessage.emotion }] ∧
    (getRecentMessages (saveMessage orderedWorld "u1" "s1" thirdMessage 200).2 "u1" "s1" 10).map
      (fun m => (m.role, m.content, m.timestamp)) =
      [("user", "first", 100), ("assistant", "second", 101), ("user", "third", 102)] :=
  ⟨by decide, by decide,
    (saveMessage_getRecentMessages_round_trip orderedWorld "u1" "s1" thirdMessage 200
      (by decide) (by decide)).1,
    by decide⟩

theorem orderedInsert_of_all_not {α : Type} (r : α → α → Prop) [DecidableRel r] (a : α)
    (l : List α) (h : ∀ b ∈ l, ¬ r a b) : l.orderedInsert r a = l ++ [a] := by
  induction l with
  | nil => rfl
  | cons b l ih =>
    rw [List.orderedInsert, if_neg (h b (List.mem_cons_self _ _)),
      ih (fun x hx => h x (List.mem_cons_of_mem _ hx))]
    rfl

theorem sortByTimestampDesc_of_increasing (messages : List Message)
    (h : messages.Pairwise (fun a b => a.timestamp < b.timestamp)) :
    sortByTimestampDesc messages = messages.reverse := by
  unfold sortByTimestampDesc
  induction messages with
  | nil => rfl
  | cons a l ih =>
    obtain ⟨ha, hl⟩ := List.pairwise_cons.mp h
    rw [List.insertionSort, ih hl, orderedInsert_of_all_not, List.reverse_cons]
    intro b hb
    have hlt : a.timestamp < b.timestamp := ha b (List.mem_reverse.mp hb)
    show ¬ (b.timestamp ≤ a.timestamp)
    exact Nat.not_le.mpr hlt

/-- Outside the two failing cases the claim of C10 holds: for a limit of at
least 1 the service's slice is the last `min(limit, n)` stored messages in
stored order, and so is the result of the document's method when the stored
timestamps are strictly increasing. -/
theorem getRecentMessages_most_recent (c : Conversation) (limit : Nat) (hlimit : 1 ≤ limit) :
    sliceFrom c.messages (-(limit : Int)) = c.messages.drop (c.messages.length - limit) ∧
    (c.messages.drop (c.messages.length - limit)).length = min limit c.messages.length ∧
    (c.messages.Pairwise (fun a b => a.timestamp < b.timestamp) →
      c.getRecentMessages limit = c.messages.drop (c.messages.length - limit)) := by
  refine ⟨?_, by rw [List.length_drop]; omega, ?_⟩
  · have hneg : -(limit : Int) < 0 := by omega
    have hn : Int.toNat ((c.messages.length : Int) + -(limit : Int)) =
        c.messages.length - limit := by omega
    rw [sliceFrom, if_pos hneg, hn]
  · intro hinc
    have hnn : ¬ ((limit : Int) < 0) := by omega
    rw [Conversation.getRecentMessages, sortByTimestampDesc_of_increasing _ hinc, sliceTo,
      if_neg hnn, Int.toNat_ofNat, List.reverse_take, List.reverse_reverse, List.length_reverse]

/-- C10 (the code at the failing inputs). With limit 0 the service's
`getRecentMessages` returns both stored messages where the document's method
returns none; on two messages with one timestamp the document's method with
limit 1 returns the first stored message, not the last, and with limit 2 it
returns them in the reverse of the stored order. With distinct timestamps and
limit 1 both return the last message. -/
theorem getRecentMessages_limit_zero_and_ties :
    (getRecentMessages { conversations := [orderedConversation] } "u1" "s1" 0).map
      (fun m => m.content) = ["first", "second"] ∧
    (orderedConversation.getRecentMessages 0).map (fun m => m.content) = [] ∧
    tiedConversation.messages.map (fun m => m.content) = ["first", "second"] ∧
    (tiedConversation.getRecentMessages 1).map (fun m => m.content) = ["first"] ∧
    (tiedConversation.getRecentMessages 2).map (fun m => m.content) = ["second", "first"] ∧
    (getRecentMessages { conversations := [orderedConversation] } "u1" "s1" 1).map
      (fun m => m.content) = ["second"] ∧
    (orderedConversation.getRecentMessages 1).map (fun m => m.content) = ["second"] := by
  decide

/-! ### Append-only operations -/

theorem find?_modifyFirst_of_disjoint {α : Type} (p q : α → Bool) (f : α → α) (l : List α)
    (hpq : ∀ a, p a = true → q a = false) (hqf : ∀ a, p a = true → q (f a) = false) :
    (modifyFirst p f l).find? q = l.find? q := by
  induction l with
  | nil => rfl
  | cons a l ih =>
    unfold modifyFirst
    split_ifs with hp
    · rw [List.find?_cons, List.find?_cons, hpq a hp, hqf a hp]
    · rw [List.find?_cons, List.find?_cons, ih]

theorem find?_modifyFirst_const {α : Type} (p : α → Bool) (c e : α) (l : List α)
    (hfind : l.find? p = some e) (hc : p c = true) :
    (modifyFirst p (fun _ => c) l).find? p = some c := by
  obtain ⟨pre, post, -, hpre, -, hmod⟩ := modifyFirst_of_find p (fun _ => c) l e hfind
  rw [hmod, List.find?_append]
  have : pre.find? p = none := by
    apply List.find?_eq_none.mpr
    intro x hx
    simp [hpre x hx]
  rw [this]
  simp [hc]

theorem sameSession_iff (userId sessionId : String) (c : Conversation) :
    sameSession userId sessionId c = true ↔ c.userId = userId ∧ c.sessionId = sessionId := by
  simp [sameSession]

/-- The operations of C11 that only append: `addMessage` and `updateContext`
keep the messages of the document as a prefix, and so does `saveMessage` for
the messages stored under every (user, session). -/
theorem append_only_operations (c : Conversation) (now : Time) (role content emotion : String)
    (sentiment : ℚ) (updates : ConversationContext) (w : World) (userId sessionId : String)
    (message : MessageArg) (u s : String) :
    c.messages <+: (c.addMessage now role content emotion sentiment).messages ∧
    c.messages <+: (c.updateContext updates).messages ∧
    storedMessages w u s <+:
      storedMessages (saveMessage w userId sessionId message now).2 u s := by
  refine ⟨List.prefix_append _ _, List.prefix_refl _, ?_⟩
  cases hq : w.fails .conversationFindOne with
  | true =>
    simp only [saveMessage, hq, if_true]
    exact List.prefix_refl _
  | false =>
    by_cases hus : userId = u ∧ sessionId = s
    · obtain ⟨rfl, rfl⟩ := hus
      cases hfind : w.conversations.find? (sameSession userId sessionId) with
      | none =>
        simp only [storedMessages, hfind]
        exact List.nil_prefix
      | some e =>
        have he := (sameSession_iff _ _ _).mp (List.find?_some hfind)
        simp only [saveMessage, hq, hfind, Bool.false_eq_true, if_false]
        split_ifs with hacc
        · simp only [storedMessages, hfind]
          rw [find?_modifyFirst_const _ _ e _ hfind (by simp [sameSession, he.1, he.2])]
          exact List.prefix_append _ _
        · exact List.prefix_refl _
    · have hdis : ∀ a : Conversation, sameSession userId sessionId a = true →
          sameSession u s a = false := by
        intro a ha
        have ha' := (sameSession_iff _ _ _).mp ha
        cases hb : sameSession u s a with
        | false => rfl
        | true =>
          have hb' := (sameSession_iff _ _ _).mp hb
          exact absurd ⟨ha'.1.symm.trans hb'.1, ha'.2.symm.trans hb'.2⟩ hus
      cases hfind : w.conversations.find? (sameSession userId sessionId) with
      | none =>
        simp only [saveMessage, hq, hfind, Bool.false_eq_true, if_false]
        split_ifs with hacc
        · simp only [storedMessages, List.find?_append]
          rw [show List.find? (sameSession u s)
              [({ userId := userId, sessionId := sessionId,
                  messages := ([] : List Message) ++
                    [{ role := message.role, content := message.content,
                       timestamp := message.timestamp.getD now, emotion := message.emotion }],
                  context := { conversationStyle := some "casual" }, isActive := true,
                  createdAt := now, updatedAt := now } : Conversation)] = none from by
            rw [List.find?_cons, hdis _ (by simp [sameSession])]
            rfl]
          simp
        · exact List.prefix_refl _
      | some e =>
        have he := (sameSession_iff _ _ _).mp (List.find?_some hfind)
        simp only [saveMessage, hq, hfind, Bool.false_eq_true, if_false]
        split_ifs with hacc
        · simp only [storedMessages]
          rw [find?_modifyFirst_of_disjoint _ _ _ _ hdis
            (fun a _ => hdis _ (by simp [sameSession, he.1, he.2]))]
        · exact List.prefix_refl _

/-- C11 (the code at the failing input). On a conversation holding `first`
then `second`, the method `getRecentMessages` leaves the document with
`second` then `first`: the messages stored before are no prefix of those
stored after, and a message added next is saved behind the reordered ones. -/
theorem getRecentMessages_reorders_messages :
    orderedConversation.messages.map (fun m => m.content) = ["first", "second"] ∧
    orderedConversation.afterGetRecentMessages.messages.map (fun m => m.content) =
      ["second", "first"] ∧
    ¬ (orderedConversation.messages <+: orderedConversation.afterGetRecentMessages.messages) ∧
    (orderedConversation.afterGetRecentMessages.addMessage 102 "user" "third" "neutral"
      0).messages.map (fun m => m.content) = ["second", "first", "third"] := by
  decide

/-! ### History, clearing and analytics -/

theorem foldl_append_messages (l : List Conversation) (acc : List Message) :
    l.foldl (fun messages conv => messages ++ conv.messages) acc =
      acc ++ (l.map (fun c => c.messages)).flatten := by
  induction l generalizing acc with
  | nil => simp
  | cons c l ih => simp [ih, List.append_assoc]

/-- The last `limit` elements of the sorted messages are the latest `limit` of them. -/
theorem latestOf_sliceFrom_sort (messages : List Message) (limit : Nat) (hlimit : 1 ≤ limit) :
    LatestOf limit messages (sliceFrom (sortByTimestampAsc messages) (-(limit : Int))) := by
  have hsorted : (sortByTimestampAsc messages).Sorted (fun a b => a.timestamp ≤ b.timestamp) :=
    List.sorted_insertionSort _ _
  have hlen : (sortByTimestampAsc messages).length = messages.length :=
    List.length_insertionSort _ _
  have hneg : -(limit : Int) < 0 := by omega
  have hn : Int.toNat (((sortByTimestampAsc messages).length : Int) + -(limit : Int)) =
      messages.length - limit := by omega
  rw [sliceFrom, if_pos hneg, hn]
  refine ⟨List.Pairwise.drop hsorted, by rw [List.length_drop, hlen]; omega,
    (sortByTimestampAsc messages).take (messages.length - limit), ?_, ?_⟩
  · rw [List.take_append_drop]
    exact List.perm_insertionSort _ _
  · intro a ha b hb
    have hp := hsorted
    rw [← List.take_append_drop (messages.length - limit) (sortByTimestampAsc messages)] at hp
    exact (List.pairwise_append.mp hp).2.2 a ha b hb

/-- C12 (counterexample). A user has two sessions: the one updated last holds
a message of time 100, the other a message of time 150. With limit 1 the
history is the message of time 100, which is not the latest message of the
user. -/
theorem getConversationHistory_misses_latest :
    (getConversationHistory twoSessionWorld "u1" none 1).map (fun m => (m.content, m.timestamp)) =
      [("old", 100)] ∧
    (userMessages twoSessionWorld "u1").map (fun m => (m.content, m.timestamp)) =
      [("old", 100), ("new", 150)] ∧
    ¬ LatestOf 1 (userMessages twoSessionWorld "u1")
      (getConversationHistory twoSessionWorld "u1" none 1) := by
  refine ⟨by decide, by decide, ?_⟩
  rintro ⟨-, -, rest, hperm, hle⟩
  have hres : getConversationHistory twoSessionWorld "u1" none 1 =
      [{ role := "user", content := "old", timestamp := 100 }] := by decide
  have hall : userMessages twoSessionWorld "u1" =
      [{ role := "user", content := "old", timestamp := 100 },
       { role := "user", content := "new", timestamp := 150 }] := by decide
  rw [hres, hall] at hperm
  rw [hres] at hle
  have hmem : ({ role := "user", content := "new", timestamp := 150 } : Message) ∈
      rest ++ [({ role := "user", content := "old", timestamp := 100 } : Message)] :=
    hperm.mem_iff.mpr (by simp)
  rcases List.mem_append.mp hmem with hin | hin
  · have := hle _ hin _ (List.mem_singleton_self _)
    exact absurd this (by decide)
  · exact absurd (List.mem_singleton.mp hin) (by decide)

/-- C12 (amended). When the query resolves and the limit is at least 1,
`getConversationHistory(userId, undefined, limit)` reads the `limit` sessions
of the user that were updated last and returns, sorted by timestamp, the latest
`min(limit, M)` of their `M` messages; when the user has at most `limit`
sessions these are the latest messages of all the user's sessions. -/
theorem getConversationHistory_latest_of_read (w : World) (userId : String) (limit : Nat)
    (hlimit : 1 ≤ limit) (hfind : w.fails .conversationFind = false) :
    historyConversations w userId none limit =
      (sortByUpdatedAtDesc (w.conversations.filter (fun c => c.userId == userId))).take limit ∧
    LatestOf limit
      ((historyConversations w userId none limit).foldl
        (fun messages conv => messages ++ conv.messages) [])
      (getConversationHistory w userId none limit) ∧
    ((w.conversations.filter (fun c => c.userId == userId)).length ≤ limit →
      LatestOf limit (userMessages w userId) (getConversationHistory w userId none limit)) := by
  have hquery : w.conversations.filter (historyQuery userId none) =
      w.conversations.filter (fun c => c.userId == userId) := by
    congr 1
    funext c
    simp [historyQuery, givenSession]
  have hsel : historyConversations w userId none limit =
      (sortByUpdatedAtDesc (w.conversations.filter (fun c => c.userId == userId))).take
        limit := by
    have hne : ¬ ((limit : Int) = 0) := by omega
    rw [historyConversations, queryLimit, if_neg hne, hquery, Int.natAbs_ofNat]
  have hread : getConversationHistory w userId none limit =
      sliceFrom (sortByTimestampAsc ((historyConversations w userId none limit).foldl
        (fun messages conv => messages ++ conv.messages) [])) (-(limit : Int)) := by
    simp only [getConversationHistory, hfind, Bool.false_eq_true, if_false]
  refine ⟨hsel, ?_, ?_⟩
  · rw [hread]
    exact latestOf_sliceFrom_sort _ limit hlimit
  · intro hfew
    have hall : historyConversations w userId none limit =
        sortByUpdatedAtDesc (w.conversations.filter (fun c => c.userId == userId)) := by
      rw [hsel]
      apply List.take_of_length_le
      rw [sortByUpdatedAtDesc, List.length_insertionSort]
      exact hfew
    have hperm : ((historyConversations w userId none limit).foldl
        (fun messages conv => messages ++ conv.messages) []).Perm (userMessages w userId) := by
      rw [userMessages, foldl_append_messages, foldl_append_messages, hall]
      simp only [List.nil_append]
      exact ((List.perm_insertionSort _ _).map _).flatten
    obtain ⟨hsorted, hlen, rest, hrest, hle⟩ :=
      latestOf_sliceFrom_sort ((historyConversations w userId none limit).foldl
        (fun messages conv => messages ++ conv.messages) []) limit hlimit
    rw [hread]
    exact ⟨hsorted, by rw [hlen, hperm.length_eq], rest, hrest.trans hperm, hle⟩

/-- The amended history at the two-session user: with limit 2 both sessions are
read and both messages returned, the older first. -/
theorem getConversationHistory_latest_of_read_witness :
    (1 ≤ 2 ∧ twoSessionWorld.fails .conversationFind = false ∧
      (twoSessionWorld.conversations.filter (fun c => c.userId == "u1")).length ≤ 2) ∧
    LatestOf 2 (userMessages twoSessionWorld "u1")
      (getConversationHistory twoSessionWorld "u1" none (2 : Nat)) ∧
    (getConversationHistory twoSessionWorld "u1" none (2 : Nat)).map (fun m => m.content) =
      ["old", "new"] :=
  ⟨by decide,
    (getConversationHistory_latest_of_read twoSessionWorld "u1" 2 (by decide) rfl).2.2
      (by decide),
    by decide⟩

theorem clearConversationCache_conversations (w : World) (userId : String)
    (sessionId : Option String) :
    (clearConversationCache w userId sessionId).conversations = w.conversations := by
  unfold clearConversationCache
  split
  · split <;> rfl
  · rfl

theorem clearConversationCache_fails (w : World) (userId : String)
    (sessionId : Option String) :
    (clearConversationCache w userId sessionId).fails = w.fails := by
  unfold clearConversationCache
  split
  · split <;> rfl
  · rfl

theorem filter_eraseP_of_length_le_one {α : Type} (p : α → Bool) (l : List α)
    (h : (l.filter p).length ≤ 1) : (l.eraseP p).filter p = [] := by
  induction l with
  | nil => rfl
  | cons a l ih =>
    by_cases hp : p a = true
    · rw [List.eraseP_cons_of_pos hp]
      rw [List.filter_cons_of_pos hp, List.length_cons] at h
      apply List.length_eq_zero.mp
      omega
    · rw [List.eraseP_cons_of_neg hp, List.filter_cons_of_neg hp]
      rw [List.filter_cons_of_neg hp] at h
      exact ih h

theorem getConversationHistory_of_no_match (w : World) (userId : String)
    (sessionId : Option String) (limit : Int)
    (h : w.conversations.filter (historyQuery userId sessionId) = []) :
    getConversationHistory w userId sessionId limit = [] := by
  unfold getConversationHistory
  split_ifs
  · rfl
  · have hnone : historyConversations w userId sessionId limit = [] := by
      unfold historyConversations queryLimit
      rw [h]
      split_ifs <;> simp [sortByUpdatedAtDesc]
    simp only [hnone, List.foldl_nil]
    simp [sortByTimestampAsc, sliceFrom]

/-- C13. When the store holds at most one conversation per (user, session) and
`clearConversation(userId, sessionId)` returns true, the history of that
session is empty for every limit; and after a `clearConversation` with no
session id the history is empty for every session of the user, and for the
user as a whole. -/
theorem clearConversation_then_history_empty (w : World) (userId : String)
    (sessionId : Option String) (limit : Int)
    (hkeys : ∀ s, (w.conversations.filter (sameSession userId s)).length ≤ 1)
    (hcleared : (clearConversation w userId sessionId).1 = true) :
    getConversationHistory (clearConversation w userId sessionId).2 userId sessionId limit = [] ∧
    (givenSession sessionId = none → ∀ (s : Option String) (n : Int),
      getConversationHistory (clearConversation w userId sessionId).2 userId s n = []) := by
  cases hgiven : givenSession sessionId with
  | some s =>
    refine ⟨?_, fun h => by cases h⟩
    apply getConversationHistory_of_no_match
    simp only [clearConversation, hgiven]
    split_ifs
    · simp [clearConversation, hgiven, *] at hcleared
    · rw [clearConversationCache_conversations]
      have hq : historyQuery userId sessionId = sameSession userId s := by
        funext c
        simp [historyQuery, hgiven, sameSession]
      rw [hq]
      exact filter_eraseP_of_length_le_one _ _ (hkeys s)
  | none =>
    have hall : ∀ (s : Option String) (n : Int),
        getConversationHistory (clearConversation w userId sessionId).2 userId s n = [] := by
      intro s n
      apply getConversationHistory_of_no_match
      simp only [clearConversation, hgiven]
      split_ifs
      · simp [clearConversation, hgiven, *] at hcleared
      · rw [clearConversationCache_conversations]
        apply List.filter_eq_nil_iff.mpr
        intro c hc
        have hne := (List.mem_filter.mp hc).2
        simp only [bne_iff_ne, ne_eq] at hne
        simp [historyQuery, hne]
    exact ⟨hall sessionId limit, fun _ => hall⟩

/-- The session of `orderedWorld` cleared, then read; and the whole user
cleared, then read. -/
theorem clearConversation_then_history_empty_witness :
    ((∀ s, (orderedWorld.conversations.filter (sameSession "u1" s)).length ≤ 1) ∧
      (clearConversation orderedWorld "u1" (some "s1")).1 = true ∧
      (getConversationHistory orderedWorld "u1" (some "s1") 50).length = 2) ∧
    getConversationHistory (clearConversation orderedWorld "u1" (some "s1")).2 "u1"
      (some "s1") 50 = [] ∧
    getConversationHistory (clearConversation orderedWorld "u1" none).2 "u1"
      (some "s1") 50 = [] :=
  ⟨⟨fun s => by
      simp only [orderedWorld, List.filter_cons, List.filter_nil]
      split_ifs <;> simp,
    by decide, by decide⟩,
    (clearConversation_then_history_empty orderedWorld "u1" (some "s1") 50
      (fun s => by
        simp only [orderedWorld, List.filter_cons, List.filter_nil]
        split_ifs <;> simp)
      (by decide)).1,
    by decide⟩

/-! ### Reading the time range -/

theorem digit_toNat (c : Char) (h : c.isDigit = true) : 48 ≤ c.toNat ∧ c.toNat ≤ 57 := by
  simp only [Char.isDigit, Bool.and_eq_true, decide_eq_true_eq, ge_iff_le] at h
  exact ⟨h.1, h.2⟩

theorem digit_ne (c k : Char) (h : c.isDigit = true) (hk : k.isDigit = false) : c ≠ k := by
  intro hck
  rw [hck, hk] at h
  cases h

theorem isJsSpace_digit (c : Char) (h : c.isDigit = true) : isJsSpace c = false := by
  have hb := digit_toNat c h
  by_contra hc
  simp only [isJsSpace, Bool.not_eq_false, Bool.or_eq_true, Bool.and_eq_true, beq_iff_eq,
    decide_eq_true_eq] at hc
  rcases hc with ((((((((((((((hc | hc) | hc) | hc) | hc) | hc) | hc) | hc) | hc) | hc) | hc) |
    hc) | hc) | hc) | hc)
  all_goals first
    | omega
    | exact digit_ne c _ h (by decide) hc

theorem digitValue_digit (c : Char) (h : c.isDigit = true) :
    digitValue 10 c = some (c.toNat - '0'.toNat) := by
  have hb := digit_toNat c h
  have hle : '0' ≤ c ∧ c ≤ '9' := ⟨hb.1, hb.2⟩
  have hlt : c.toNat - 48 < 10 := by omega
  simp [digitValue, hle, Option.filter, hlt]

theorem parseDigits_digits (digits : List Char) (hdig : ∀ c ∈ digits, c.isDigit = true)
    (n : Nat) :
    parseDigits 10 digits (some n) =
      some (digits.foldl (fun n c => n * 10 + (c.toNat - '0'.toNat)) n) := by
  induction digits generalizing n with
  | nil => rfl
  | cons c cs ih =>
    rw [parseDigits, digitValue_digit c (hdig c (List.mem_cons_self _ _))]
    simp only [Option.getD_some, List.foldl_cons]
    exact ih (fun x hx => hdig x (List.mem_cons_of_mem _ hx)) _

/-- A time range written as a number in decimal digits followed by `d` is read
as that number. -/
theorem parseInt_removeFirstD_digits (digits : List Char) (hne : digits ≠ [])
    (hdig : ∀ c ∈ digits, c.isDigit = true) :
    parseInt (removeFirstD ⟨digits ++ ['d']⟩) = some (decimalValue digits : Int) := by
  have herase : (digits ++ ['d']).erase 'd' = digits := by
    rw [List.erase_append_right]
    · simp
    · intro hmem
      exact absurd (hdig _ hmem) (by decide)
  cases digits with
  | nil => exact absurd rfl hne
  | cons c cs =>
    have hc := hdig c (List.mem_cons_self _ _)
    have hcs : ∀ x ∈ cs, x.isDigit = true := fun x hx => hdig x (List.mem_cons_of_mem _ hx)
    have hvalue : parseDigits 10 (c :: cs) none = some (decimalValue (c :: cs)) := by
      rw [parseDigits, digitValue_digit c hc]
      simp only [Option.getD_none, Nat.zero_mul, Nat.zero_add]
      rw [parseDigits_digits cs hcs]
      simp [decimalValue]
    have hminus : c ≠ '-' := digit_ne c _ hc (by decide)
    have hplus : c ≠ '+' := digit_ne c _ hc (by decide)
    have hhex : ((c :: cs).take 2 == ['0', 'x'] || (c :: cs).take 2 == ['0', 'X']) = false := by
      cases cs with
      | nil => simp
      | cons x xs =>
        have hx := hcs x (List.mem_cons_self _ _)
        have h1 : x ≠ 'x' := digit_ne x _ hx (by decide)
        have h2 : x ≠ 'X' := digit_ne x _ hx (by decide)
        simp [h1, h2]
    have hdrop : List.dropWhile isJsSpace (c :: cs) = c :: cs := by
      simp [List.dropWhile_cons, isJsSpace_digit c hc]
    have hneg : ((c :: cs).head? == some '-') = false := by simp [hminus]
    have hpos : ((c :: cs).head? == some '+') = false := by simp [hplus]
    simp only [parseInt, removeFirstD, herase, hdrop, hneg, hpos, Bool.or_false,
      Bool.false_eq_true, if_false, hhex, hvalue]
    rfl

theorem foldl_add_length (l : List Conversation) (acc : Nat) :
    l.foldl (fun total conv => total + conv.messages.length) acc =
      acc + (l.map (fun c => c.messages.length)).sum := by
  induction l generalizing acc with
  | nil => simp
  | cons c l ih => simp [ih, Nat.add_assoc]

theorem mathRound_nearest (q : ℚ) : q - 1 / 2 < (mathRound q : ℚ) ∧ (mathRound q : ℚ) ≤ q + 1 / 2 := by
  unfold mathRound
  constructor
  · have := Int.lt_floor_add_one (q + 1 / 2)
    linarith
  · exact Int.floor_le (q + 1 / 2)

theorem setDateBack_of_valid (localTZA : Int → Bool → Int) (t days start : Int)
    (hstart : start = t + localTZA t true - days * 86400000 -
      localTZA (t + localTZA t true - days * 86400000) false)
    (hvalid : -8640000000000000 ≤ start ∧ start ≤ 8640000000000000) :
    setDateBack localTZA t days = some start := by
  have hms : (msPerDay : Int) = 86400000 := rfl
  unfold setDateBack timeClip maxTimeValue
  simp only [hms, ← hstart]
  rw [if_pos hvalid]

/-- C14 (counterexample). The user has two conversations, updated 10 days and
2 days after the epoch, with 3 and 1 messages; at day 10 both are not earlier
than 200000000 days before now, but for the time range `200000000d` the start
date leaves the range of `Date`, and the analytics count nothing. -/
theorem getConversationAnalytics_huge_range :
    parseInt (removeFirstD "200000000d") = some 200000000 ∧
    labelledWorld.conversations.map
        (fun c => (c.userId, c.messages.length,
          decide (((10 * 86400000 : Nat) : Int) - 200000000 * 86400000 ≤ (c.updatedAt : Int)))) =
      [("u1", 3, true), ("u1", 1, true)] ∧
    setDateBack labelledWorld.localTZA ((10 * 86400000 : Nat) : Int) 200000000 = none ∧
    (getConversationAnalytics labelledWorld "u1" "200000000d" (10 * 86400000)).totalSessions
      = 0 ∧
    (getConversationAnalytics labelledWorld "u1" "200000000d" (10 * 86400000)).totalMessages
      = 0 ∧
    (getConversationAnalytics labelledWorld "u1" "200000000d"
      (10 * 86400000)).averageSessionLength = 0 := by
  decide

/-- C14 (amended). For a time range whose number is `days`, a query that
resolves, and a start date inside the range of `Date` (the start date is now
moved back by `days` days of 86400000 ms in the local time of the host),
`getConversationAnalytics` counts exactly the user's conversations with
`updatedAt` not earlier than the start date: `totalSessions` is their number,
`totalMessages` the sum of their message counts, `averageSessionLength` is 0
when there is none and otherwise the integer nearest to
`totalMessages / totalSessions` (a half rounded up). When the offset of local
time is the same at both ends the start date is `days * 86400000` ms before
now, and when the offset shifts by less than a day a conversation updated 8
days before now is not counted in a window of 7 days. -/
theorem getConversationAnalytics_window (w : World) (userId timeRange : String) (now : Time)
    (days : Nat) (start : Int)
    (hrange : parseInt (removeFirstD timeRange) = some (days : Int))
    (hfind : w.fails .conversationFind = false)
    (hstart : start = (now : Int) + w.localTZA now true - days * 86400000 -
      w.localTZA ((now : Int) + w.localTZA now true - days * 86400000) false)
    (hvalid : -8640000000000000 ≤ start ∧ start ≤ 8640000000000000) :
    analyticsConversations w userId start =
      w.conversations.filter
        (fun c => decide (c.userId = userId ∧ start ≤ (c.updatedAt : Int))) ∧
    (getConversationAnalytics w userId timeRange now).totalSessions =
      (analyticsConversations w userId start).length ∧
    (getConversationAnalytics w userId timeRange now).totalMessages =
      ((analyticsConversations w userId start).map (fun c => c.messages.length)).sum ∧
    (analyticsConversations w userId start = [] →
      (getConversationAnalytics w userId timeRange now).averageSessionLength = 0) ∧
    (analyticsConversations w userId start ≠ [] →
      (getConversationAnalytics w userId timeRange now).averageSessionLength =
        Int.floor
          (((getConversationAnalytics w userId timeRange now).totalMessages : ℚ) /
            ((getConversationAnalytics w userId timeRange now).totalSessions : ℚ) + 1 / 2) ∧
      ((getConversationAnalytics w userId timeRange now).totalMessages : ℚ) /
          ((getConversationAnalytics w userId timeRange now).totalSessions : ℚ) - 1 / 2 <
        ((getConversationAnalytics w userId timeRange now).averageSessionLength : ℚ) ∧
      ((getConversationAnalytics w userId timeRange now).averageSessionLength : ℚ) ≤
        ((getConversationAnalytics w userId timeRange now).totalMessages : ℚ) /
          ((getConversationAnalytics w userId timeRange now).totalSessions : ℚ) + 1 / 2) ∧
    (w.localTZA now true =
        w.localTZA ((now : Int) + w.localTZA now true - days * 86400000) false →
      start = (now : Int) - days * 86400000) ∧
    (days = 7 →
      -86400000 < w.localTZA now true -
        w.localTZA ((now : Int) + w.localTZA now true - days * 86400000) false →
      ∀ c ∈ w.conversations, (c.updatedAt : Int) = (now : Int) - 8 * 86400000 →
        c ∉ analyticsConversations w userId start) := by
  have hset : setDateBack w.localTZA (now : Int) days = some start :=
    setDateBack_of_valid w.localTZA now days start hstart hvalid
  have hfilter : analyticsConversations w userId start =
      w.conversations.filter
        (fun c => decide (c.userId = userId ∧ start ≤ (c.updatedAt : Int))) := by
    unfold analyticsConversations
    congr 1
    funext c
    by_cases h : c.userId = userId <;> simp [h]
  have hsessions : (getConversationAnalytics w userId timeRange now).totalSessions =
      (analyticsConversations w userId start).length := by
    simp only [getConversationAnalytics, hrange, hset, hfind, Bool.false_eq_true, if_false]
  have hmessages : (getConversationAnalytics w userId timeRange now).totalMessages =
      ((analyticsConversations w userId start).map (fun c => c.messages.length)).sum := by
    simp only [getConversationAnalytics, hrange, hset, hfind, Bool.false_eq_true, if_false,
      foldl_add_length, Nat.zero_add]
  refine ⟨hfilter, hsessions, hmessages, ?_, ?_, ?_, ?_⟩
  · intro hnone
    simp [getConversationAnalytics, hrange, hset, hfind, hnone]
  · intro hsome
    have hlen : (analyticsConversations w userId start).length ≠ 0 := by
      simpa using hsome
    have havg : (getConversationAnalytics w userId timeRange now).averageSessionLength =
        mathRound (((getConversationAnalytics w userId timeRange now).totalMessages : ℚ) /
          ((getConversationAnalytics w userId timeRange now).totalSessions : ℚ)) := by
      rw [hsessions, hmessages]
      simp only [getConversationAnalytics, hrange, hset, hfind, Bool.false_eq_true, if_false,
        foldl_add_length, Nat.zero_add, if_pos hlen]
    refine ⟨havg, ?_, ?_⟩
    · rw [havg]
      exact (mathRound_nearest _).1
    · rw [havg]
      exact (mathRound_nearest _).2
  · intro hsame
    rw [hstart, ← hsame]
    ring
  · intro hseven hshift c _ hupdated hin
    rw [hfilter, List.mem_filter] at hin
    have hle : start ≤ (c.updatedAt : Int) := by
      have := hin.2
      simp only [decide_eq_true_eq] at this
      exact this.2
    rw [hupdated, hstart, hseven] at hle
    rw [hseven] at hshift
    push_cast at hle hshift
    omega

/-- A window of 7 days at day 10 on a host that runs on UTC: the start date
is day 3, the conversation updated at day 10 is counted with its 3 messages,
the one updated at day 2 is not. -/
theorem getConversationAnalytics_window_witness :
    (parseInt (removeFirstD "7d") = some ((7 : Nat) : Int) ∧
      labelledWorld.fails .conversationFind = false ∧
      (-8640000000000000 ≤ (259200000 : Int) ∧ (259200000 : Int) ≤ 8640000000000000)) ∧
    (getConversationAnalytics labelledWorld "u1" "7d" (10 * 86400000)).totalSessions =
      (analyticsConversations labelledWorld "u1" 259200000).length ∧
    (259200000 : Int) = ((10 * 86400000 : Nat) : Int) - ((7 : Nat) : Int) * 86400000 ∧
    (labelledWorld.conversations.map (fun c => c.updatedAt / 86400000) = [10, 2] ∧
      (getConversationAnalytics labelledWorld "u1" "7d" (10 * 86400000)).totalSessions = 1 ∧
      (getConversationAnalytics labelledWorld "u1" "7d" (10 * 86400000)).totalMessages = 3 ∧
      (getConversationAnalytics labelledWorld "u1" "7d" (10 * 86400000)).averageSessionLength
        = 3) :=
  ⟨⟨by decide, rfl, by decide⟩,
    (getConversationAnalytics_window labelledWorld "u1" "7d" (10 * 86400000) 7 259200000
      (by decide) rfl (by decide) (by decide)).2.1,
    (getConversationAnalytics_window labelledWorld "u1" "7d" (10 * 86400000) 7 259200000
      (by decide) rfl (by decide) (by decide)).2.2.2.2.2.1 (by decide),
    by decide, by decide, by decide, by
      have h := (getConversationAnalytics_window labelledWorld "u1" "7d" (10 * 86400000) 7
        259200000 (by decide) rfl (by decide) (by decide)).2.2.2.2.1 (by decide)
      rw [h.1,
        show (getConversationAnalytics labelledWorld "u1" "7d" (10 * 86400000)).totalMessages
          = 3 from by decide,
        show (getConversationAnalytics labelledWorld "u1" "7d" (10 * 86400000)).totalSessions
          = 1 from by decide]
      norm_num [Int.floor_eq_iff]⟩

theorem bumpTrend_ne_nil (trends : List EmotionalTrend) (key : String) :
    bumpTrend trends key ≠ [] := by
  unfold bumpTrend
  split_ifs with h
  · intro hnil
    rw [List.map_eq_nil_iff] at hnil
    rw [hnil] at h
    simp at h
  · simp

/-- With messages whose `emotion` field is a label of the schema, or absent,
`getConversationAnalytics` returns no emotional trend at all. -/
theorem emotionalTrends_nil_of_labels (w : World) (userId timeRange : String) (now : Time)
    (hlabels : ∀ c ∈ w.conversations, ∀ m ∈ c.messages, trendKey m = none) :
    (getConversationAnalytics w userId timeRange now).emotionalTrends = [] := by
  have hinner : ∀ (ms : List Message), (∀ m ∈ ms, trendKey m = none) →
      ∀ trends : List EmotionalTrend,
      ms.foldl (fun trends msg =>
        match trendKey msg with
        | some key => bumpTrend trends key
        | none => trends) trends = trends := by
    intro ms
    induction ms with
    | nil => intro _ _; rfl
    | cons m ms ih =>
      intro h trends
      rw [List.foldl_cons, h m (List.mem_cons_self _ _)]
      exact ih (fun x hx => h x (List.mem_cons_of_mem _ hx)) trends
  have houter : ∀ (cs : List Conversation), (∀ c ∈ cs, ∀ m ∈ c.messages, trendKey m = none) →
      cs.foldl (fun trends conv => conv.messages.foldl
        (fun trends msg =>
          match trendKey msg with
          | some key => bumpTrend trends key
          | none => trends) trends) ([] : List EmotionalTrend) = [] := by
    intro cs
    induction cs with
    | nil => intro _; rfl
    | cons c cs ih =>
      intro h
      rw [List.foldl_cons, hinner c.messages (h c (List.mem_cons_self _ _))]
      exact ih (fun x hx => h x (List.mem_cons_of_mem _ hx))
  unfold getConversationAnalytics
  split
  · rfl
  · split
    · rfl
    · split_ifs
      · rfl
      · apply houter
        intro c hc
        exact hlabels c (List.mem_of_mem_filter hc)

/-- C15 (the code at the failing input). The conversation in the window has
three messages, two of them labelled `happy` and `sad` as the schema declares;
the analytics count the three messages and return no emotional trend. A trend
is counted only for a message whose `emotion` field is an object with an
`emotion` property. -/
theorem emotionalTrends_ignores_schema_labels :
    (analyticsConversations labelledWorld "u1" (3 * (msPerDay : Int))).map
      (fun c => c.messages.map (fun m => m.emotion)) =
      [[some (EmotionField.label "happy"), some (EmotionField.label "sad"), none]] ∧
    (getConversationAnalytics labelledWorld "u1" "7d" (10 * msPerDay)).totalMessages = 3 ∧
    (getConversationAnalytics labelledWorld "u1" "7d" (10 * msPerDay)).emotionalTrends = [] ∧
    (getConversationAnalytics analysisWorld "u1" "7d" (10 * msPerDay)).emotionalTrends =
      [{ emotion := "happy", count := 1 }] := by
  decide

/-! ### The fallback extractor -/

theorem getFallbackUserInfo_fold (messages : List RecentMessage) (acc : List String × List String) :
    messages.foldl
      (fun (acc : List String × List String) msg =>
        if msg.role == "user" then
          let facts :=
            match nameFact msg.content with
            | some fact => acc.1 ++ [fact]
            | none => acc.1
          let interests :=
            match interestOf msg.content with
            | some interest => acc.2 ++ [interest]
            | none => acc.2
          (facts, interests)
        else acc)
      acc =
    (acc.1 ++ messages.filterMap
        (fun m => if m.role == "user" then nameFact m.content else none),
      acc.2 ++ messages.filterMap
        (fun m => if m.role == "user" then interestOf m.content else none)) := by
  induction messages generalizing acc with
  | nil => simp
  | cons m messages ih =>
    rw [List.foldl_cons, ih]
    by_cases hrole : m.role = "user"
    · cases hn : nameFact m.content <;> cases hi : interestOf m.content <;>
        simp [List.filterMap_cons, hrole, hn, hi]
    · simp [List.filterMap_cons, hrole]

theorem filterMap_user_filter {β : Type} (f : String → Option β) (messages : List RecentMessage) :
    (messages.filter (fun m => m.role == "user")).filterMap
      (fun m => if m.role == "user" then f m.content else none) =
    messages.filterMap (fun m => if m.role == "user" then f m.content else none) := by
  induction messages with
  | nil => rfl
  | cons m messages ih =>
    simp only [beq_iff_eq] at ih
    by_cases hrole : m.role = "user"
    · simp [List.filter_cons, List.filterMap_cons, hrole, ih]
    · simp [List.filter_cons, List.filterMap_cons, hrole, ih]

/-- C16. `getFallbackUserInfo` gives the same result on a message list and on
its sub-list of messages with role `user`; its facts and its interests are, in
message order, what the name pattern and the interest pattern find in each
user message (at most one fact and one interest per message, none for a message
of another role); `preferences`, `experiences` and `relationships` are empty. -/
theorem getFallbackUserInfo_reads_user_messages (messages : List RecentMessage) :
    getFallbackUserInfo messages =
      getFallbackUserInfo (messages.filter (fun m => m.role == "user")) ∧
    (getFallbackUserInfo messages).facts =
      some (messages.filterMap
        (fun m => if m.role == "user" then nameFact m.content else none)) ∧
    (getFallbackUserInfo messages).interests =
      some (messages.filterMap
        (fun m => if m.role == "user" then interestOf m.content else none)) ∧
    (getFallbackUserInfo messages).preferences = some [] ∧
    (getFallbackUserInfo messages).experiences = [] ∧
    (getFallbackUserInfo messages).relationships = [] := by
  refine ⟨?_, ?_, ?_, rfl, rfl, rfl⟩
  · simp only [getFallbackUserInfo, getFallbackUserInfo_fold, filterMap_user_filter]
  · simp only [getFallbackUserInfo, getFallbackUserInfo_fold, List.nil_append]
  · simp only [getFallbackUserInfo, getFallbackUserInfo_fold, List.nil_append]

/-- C17 (the code at the failing input). On the message of the test,
`Hello, my name is John and I love playing guitar`, the extractor yields the
fact `Name is john`, in lower case, not `Name is John`, and the interest
`playing guitar`. Of two declarations in one message only the leftmost is
read: `I am happy, my name is John` yields `Name is happy`, and
`I like tea and I love coffee` yields the single interest
`tea and i love coffee`. -/
theorem getFallbackUserInfo_lowercases_name :
    (getFallbackUserInfo [johnMessage]).facts = some ["Name is john"] ∧
    (getFallbackUserInfo [johnMessage]).facts ≠ some ["Name is John"] ∧
    (getFallbackUserInfo [johnMessage]).interests = some ["playing guitar"] ∧
    nameFact "I am happy, my name is John" = some "Name is happy" ∧
    interestOf "I like tea and I love coffee" = some "tea and i love coffee" := by
  decide

/-- The reply has a match of the brace pattern exactly when an opening brace
is followed, somewhere behind it, by a closing brace. -/
theorem braceMatch_eq_none_iff (response : String) :
    braceMatch response = none ↔
      ¬ ∃ a b c, response.data = a ++ Char.ofNat 123 :: (b ++ Char.ofNat 125 :: c) := by
  unfold braceMatch
  have hsplit := List.takeWhile_append_dropWhile (fun c => c != Char.ofNat 123) response.data
  cases hdrop : response.data.dropWhile (fun c => c != Char.ofNat 123) with
  | nil =>
    simp only [true_iff]
    rintro ⟨a, b, c, habc⟩
    have hall := List.dropWhile_eq_nil_iff.mp hdrop (Char.ofNat 123) (by rw [habc]; simp)
    simp at hall
  | cons x rest =>
    have hx : x = Char.ofNat 123 := by
      have := List.head_dropWhile_not (fun c => c != Char.ofNat 123) response.data
        (by rw [hdrop]; simp)
      simp only [hdrop, List.head_cons] at this
      simpa using this
    subst hx
    rw [hdrop] at hsplit
    have hpre : ∀ y ∈ response.data.takeWhile (fun c => c != Char.ofNat 123),
        y ≠ Char.ofNat 123 := by
      intro y hy
      simpa using List.mem_takeWhile_imp hy
    have hinner : ((rest.reverse.dropWhile (fun c => c != Char.ofNat 125)).reverse.isEmpty
        = true) ↔ Char.ofNat 125 ∉ rest := by
      rw [List.isEmpty_iff, List.reverse_eq_nil_iff, List.dropWhile_eq_nil_iff]
      constructor
      · intro h hmem
        have := h (Char.ofNat 125) (List.mem_reverse.mpr hmem)
        simp at this
      · intro h y hy
        have hy' := List.mem_reverse.mp hy
        simp only [bne_iff_ne, ne_eq, decide_eq_true_eq]
        intro hyc
        exact h (hyc ▸ hy')
    simp only []
    split_ifs with hemp
    · simp only [true_iff]
      rintro ⟨a, b, c, habc⟩
      apply hinner.mp hemp
      rw [← hsplit] at habc
      rcases List.append_eq_append_iff.mp habc with ⟨t, -, hrest⟩ | ⟨t, ht, hrest⟩
      · cases t with
        | nil =>
          simp only [List.nil_append] at hrest
          rw [(List.cons.inj hrest).2]
          simp
        | cons y t =>
          rw [(List.cons.inj hrest).2]
          simp
      · cases t with
        | nil =>
          simp only [List.nil_append] at hrest
          rw [← (List.cons.inj hrest).2]
          simp
        | cons y t =>
          exfalso
          have hy := (List.cons.inj hrest).1
          apply hpre (Char.ofNat 123)
          · rw [ht, hy]
            simp
          · rfl
    · simp only [false_iff, not_not]
      have hmem : Char.ofNat 125 ∈ rest := by
        by_contra hnot
        exact hemp (hinner.mpr hnot)
      obtain ⟨b, c, hbc⟩ := List.append_of_mem hmem
      exact ⟨response.data.takeWhile (fun c => c != Char.ofNat 123), b, c, by
        rw [← hbc]
        exact hsplit.symm⟩

/-- C18. `extractUserInfo` always returns a value, never an error; it returns
`getFallbackUserInfo(messages)` when no model is configured, when the call of
the model rejects, when the reply has no match of the brace pattern, and when
the matched text is rejected by `JSON.parse`. -/
theorem extractUserInfo_falls_back (g : ExternalModel) (messages : List RecentMessage) :
    (∃ info, extractUserInfo g messages = .ok info) ∧
    (g.model = none → extractUserInfo g messages = .ok (getFallbackUserInfo messages)) ∧
    (∀ generateContent, g.model = some generateContent →
      (∀ e, generateContent (extractionPrompt messages) = .error e →
        extractUserInfo g messages = .ok (getFallbackUserInfo messages)) ∧
      (∀ response, generateContent (extractionPrompt messages) = .ok response →
        (braceMatch response = none ∨
          ∃ json, braceMatch response = some json ∧ g.parseJson json = none) →
        extractUserInfo g messages = .ok (getFallbackUserInfo messages))) := by
  refine ⟨?_, ?_, ?_⟩
  · unfold extractUserInfo
    split
    · exact ⟨_, rfl⟩
    · split
      · exact ⟨_, rfl⟩
      · split
        · split
          · exact ⟨_, rfl⟩
          · exact ⟨_, rfl⟩
        · exact ⟨_, rfl⟩
  · intro hnone
    simp [extractUserInfo, hnone]
  · intro generateContent hmodel
    refine ⟨?_, ?_⟩
    · intro e he
      simp [extractUserInfo, hmodel, he]
    · intro response hresp hbad
      rcases hbad with hno | ⟨json, hjson, hparse⟩
      · simp [extractUserInfo, hmodel, hresp, hno]
      · simp [extractUserInfo, hmodel, hresp, hjson, hparse]

/-- A model that answers in prose: the reply has no brace, and the result is
the fallback extraction of the test message. -/
theorem extractUserInfo_falls_back_witness :
    (proseModel.model.isSome = true ∧ braceMatch "I could not find anything." = none) ∧
    extractUserInfo proseModel [johnMessage] = .ok (getFallbackUserInfo [johnMessage]) ∧
    extractUserInfo {} [johnMessage] = .ok (getFallbackUserInfo [johnMessage]) :=
  ⟨⟨rfl, by decide⟩,
    ((extractUserInfo_falls_back proseModel [johnMessage]).2.2 _ rfl).2
      "I could not find anything." rfl (Or.inl (by decide)),
    (extractUserInfo_falls_back {} [johnMessage]).2.1 rfl⟩

/-! ### The prompt -/

theorem string_ne_empty_of_data {s : String} (h : s.data ≠ []) : s ≠ "" := by
  intro hs
  rw [hs] at h
  exact h rfl

theorem joinWith_ne_empty (sep : String) (l : List String) (hl : l ≠ [])
    (hne : ∀ x ∈ l, x.data ≠ []) : joinWith sep l ≠ "" := by
  cases l with
  | nil => exact absurd rfl hl
  | cons a rest =>
    have ha := hne a (List.mem_cons_self _ _)
    cases rest with
    | nil => exact string_ne_empty_of_data ha
    | cons b rest =>
      apply string_ne_empty_of_data
      rw [joinWith, String.data_append, String.data_append]
      intro hnil
      exact ha (List.append_eq_nil.mp (List.append_eq_nil.mp hnil).1).1

theorem orDefault_of_ne_empty (v dflt : String) (h : v ≠ "") : orDefault (some v) dflt = v := by
  simp [orDefault, h]

/-- C19. In the prompt of `buildSystemPrompt` the heading
`IMPORTANT FACTS TO REMEMBER:` is followed by the facts section and then by
the heading `RECENT EXPERIENCES:`; for a profile with at least one fact the
section is the lines `- <fact text>`, one per stored fact in stored order,
joined by line breaks; for a profile without facts, and without a profile, it
is the single line `- This is our first conversation`. -/
theorem buildSystemPrompt_important_facts (userProfile : Option UserProfile)
    (context : Option ConversationContext) :
    buildSystemPrompt userProfile context =
      promptBeforeFacts userProfile ++ importantFactsSection userProfile ++
        "\n\nRECENT EXPERIENCES:\n" ++ recentExperiencesSection userProfile ++
        promptAfterExperiences userProfile context ∧
    (∃ before, promptBeforeFacts userProfile = before ++ "IMPORTANT FACTS TO REMEMBER:\n") ∧
    (∀ p, userProfile = some p → p.memory.importantFacts ≠ [] →
      importantFactsSection userProfile =
        joinWith "\n" (p.memory.importantFacts.map (fun fact => "- " ++ fact.fact))) ∧
    (∀ p, userProfile = some p → p.memory.importantFacts = [] →
      importantFactsSection userProfile = "- This is our first conversation") ∧
    (userProfile = none →
      importantFactsSection userProfile = "- This is our first conversation") := by
  refine ⟨rfl, ⟨_, rfl⟩, ?_, ?_, ?_⟩
  · intro p hp hfacts
    subst hp
    simp only [importantFactsSection, Option.map_some']
    apply orDefault_of_ne_empty
    apply joinWith_ne_empty
    · simpa using hfacts
    · intro x hx
      obtain ⟨fact, -, rfl⟩ := List.mem_map.mp hx
      rw [String.data_append]
      simp
  · intro p hp hfacts
    subst hp
    simp [importantFactsSection, hfacts, joinWith, orDefault]
  · intro hnone
    subst hnone
    rfl

/-- A profile with the fact `Name is John`, and a profile with no fact. -/
theorem buildSystemPrompt_important_facts_witness :
    johnProfile.memory.importantFacts ≠ [] ∧
    importantFactsSection (some johnProfile) =
      joinWith "\n" (johnProfile.memory.importantFacts.map (fun fact => "- " ++ fact.fact)) ∧
    importantFactsSection (some johnProfile) = "- Name is John" ∧
    importantFactsSection (some statsProfile) = "- This is our first conversation" :=
  ⟨by decide,
    (buildSystemPrompt_important_facts (some johnProfile) none).2.2.1 johnProfile rfl
      (by decide),
    by decide, by decide⟩

theorem sliceFrom_neg_three {α : Type} (l : List α) :
    sliceFrom l (-3) = l.drop (l.length - 3) := by
  have hn : Int.toNat ((l.length : Int) + -3) = l.length - 3 := by omega
  rw [sliceFrom, if_pos (by decide), hn]

theorem sortByDateDesc_of_increasing (experiences : List Experience)
    (h : DatesIncreasing experiences) : sortByDateDesc experiences = experiences.reverse := by
  unfold sortByDateDesc
  induction experiences with
  | nil => rfl
  | cons a l ih =>
    obtain ⟨ha, hl⟩ := List.pairwise_cons.mp h
    rw [List.insertionSort, ih hl, orderedInsert_of_all_not, List.reverse_cons]
    intro b hb
    obtain ⟨x, y, hx, hy, hxy⟩ := ha b (List.mem_reverse.mp hb)
    have hlater : dateNotLater a b = false := by
      simp [dateNotLater, hx, hy, hxy]
    simp [hlater]

/-- C20 (counterexample). A profile stores four experiences whose dates are
300, 100, 200 and 50: the prompt lists the last three stored, `B`, `C` and `D`,
where the three latest dates belong to `A`, `C` and `B`, the three that
`getContextualMemory` returns. -/
theorem recentExperiencesSection_not_latest_dates :
    scatteredProfile.memory.experiences.map (fun e => (e.event, e.date)) =
      [("A", some 300), ("B", some 100), ("C", some 200), ("D", some 50)] ∧
    recentExperiencesSection (some scatteredProfile) =
      "- B (calm)\n- C (calm)\n- D (calm)" ∧
    (recentExperiences scatteredProfile.memory.experiences).map (fun e => e.event) =
      ["A", "C", "B"] ∧
    ((getContextualMemory { profiles := [scatteredProfile] } "u1" "hello"
      10).1.experiences).map (fun e => e.event) = ["A", "C", "B"] := by
  decide

theorem insertionSort_of_always {α : Type} (r : α → α → Prop) [DecidableRel r]
    (hr : ∀ a b, r a b) (l : List α) : l.insertionSort r = l := by
  induction l with
  | nil => rfl
  | cons a l ih =>
    rw [List.insertionSort, ih]
    cases l with
    | nil => rfl
    | cons b l => simp [List.orderedInsert, hr a b]

theorem recentExperiencesOf_of_document (p : UserProfile) (h : p.datesAsText = false) :
    recentExperiencesOf p = recentExperiences p.memory.experiences := by
  unfold recentExperiencesOf recentExperiences sortByDateDesc dateNotLaterIn
  simp only [h, Bool.false_eq_true, if_false]

theorem recentExperiencesOf_of_parsed (p : UserProfile) (h : p.datesAsText = true) :
    recentExperiencesOf p = p.memory.experiences.take 3 := by
  unfold recentExperiencesOf
  rw [insertionSort_of_always _ (fun a b => by simp [dateNotLaterIn, h])]
  rfl

theorem getContextualMemory_experiences (w : World) (userId currentMessage : String)
    (limit : Int) (p : UserProfile) (hp : (getUserProfile w userId).1 = .ok p) :
    (getContextualMemory w userId currentMessage limit).1.experiences =
      recentExperiencesOf p := by
  have hload : getUserProfile w userId = (.ok p, (getUserProfile w userId).2) :=
    Prod.ext hp rfl
  unfold getContextualMemory
  rw [hload]

/-- C20 (amended). The experiences section of the prompt lists the last three
stored experiences (all of them when there are fewer), in stored order, at
most 3. `getContextualMemory` returns, of a document of the store, the first
three of the list sorted by date, latest first, and of a profile read from the
cache, whose dates are texts that the sort cannot order, the first three
stored in stored order; `getUserProfile` answers a cache hit with such a
profile. When the stored dates are strictly increasing, the three of the
prompt are those `getContextualMemory` returns of a store document, in the
opposite order, and every experience left out is older than every one
listed. -/
theorem recentExperiencesSection_last_three (p : UserProfile) :
    recentExperiencesSection (some p) =
      orDefault (some (joinWith "\n"
        ((p.memory.experiences.drop (p.memory.experiences.length - 3)).map experienceLine)))
        "- No recent experiences shared" ∧
    (p.memory.experiences.drop (p.memory.experiences.length - 3)).length =
      min 3 p.memory.experiences.length ∧
    (∀ (w : World) (userId currentMessage : String) (limit : Int),
      (getUserProfile w userId).1 = .ok p →
      (p.datesAsText = false →
        (getContextualMemory w userId currentMessage limit).1.experiences =
          sliceTo (sortByDateDesc p.memory.experiences) 3) ∧
      (p.datesAsText = true →
        (getContextualMemory w userId currentMessage limit).1.experiences =
          p.memory.experiences.take 3)) ∧
    (DatesIncreasing p.memory.experiences →
      sliceTo (sortByDateDesc p.memory.experiences) 3 =
        (p.memory.experiences.drop (p.memory.experiences.length - 3)).reverse ∧
      ∀ a ∈ p.memory.experiences.take (p.memory.experiences.length - 3),
        ∀ b ∈ p.memory.experiences.drop (p.memory.experiences.length - 3),
          ∃ x y, a.date = some x ∧ b.date = some y ∧ x < y) ∧
    (∀ (w : World) (userId : String) (redis : Redis) (snapshot : UserProfile),
      w.redis = some redis → redis.getFails = false →
      redis.profiles.lookup ("user_profile:" ++ userId) = some snapshot →
      (getUserProfile w userId).1 = .ok { snapshot with datesAsText := true } ∧
      ∀ (currentMessage : String) (limit : Int),
        (getContextualMemory w userId currentMessage limit).1.experiences =
          snapshot.memory.experiences.take 3) := by
  refine ⟨?_, by rw [List.length_drop]; omega, ?_, ?_, ?_⟩
  · simp only [recentExperiencesSection, Option.map_some', sliceFrom_neg_three]
  · intro w userId currentMessage limit hprofile
    rw [getContextualMemory_experiences w userId currentMessage limit p hprofile]
    exact ⟨fun h => recentExperiencesOf_of_document p h,
      fun h => recentExperiencesOf_of_parsed p h⟩
  · intro hinc
    refine ⟨?_, ?_⟩
    · rw [sortByDateDesc_of_increasing _ hinc, sliceTo, if_neg (by decide)]
      show List.take 3 p.memory.experiences.reverse = _
      apply List.reverse_injective
      rw [List.reverse_reverse, List.reverse_take, List.reverse_reverse, List.length_reverse]
    · intro a ha b hb
      have hp := hinc
      unfold DatesIncreasing at hp
      rw [← List.take_append_drop (p.memory.experiences.length - 3) p.memory.experiences] at hp
      exact (List.pairwise_append.mp hp).2.2 a ha b hb
  · intro w userId redis snapshot hredis hget hlookup
    have hhit : (getUserProfile w userId).1 = .ok { snapshot with datesAsText := true } := by
      unfold getUserProfile cachedProfile profileCacheKey
      simp only [hredis, hget, Bool.false_eq_true, if_false, hlookup, Option.map_some']
      rfl
    refine ⟨hhit, ?_⟩
    intro currentMessage limit
    rw [getContextualMemory_experiences w userId currentMessage limit _ hhit]
    exact recentExperiencesOf_of_parsed _ rfl

/-- Four experiences stored in the order of their dates: the prompt lists the
last three, which `getContextualMemory` returns latest first of the stored
document; of the same profile read from the cache it returns the first three
stored. -/
theorem recentExperiencesSection_last_three_witness :
    recentExperiencesSection (some datedProfile) =
      "- B (calm)\n- C (undefined)\n- D (calm)" ∧
    (sliceTo (sortByDateDesc datedProfile.memory.experiences) 3).map (fun e => e.event) =
      ["D", "C", "B"] ∧
    sliceTo (sortByDateDesc datedProfile.memory.experiences) 3 =
      (datedProfile.memory.experiences.drop
        (datedProfile.memory.experiences.length - 3)).reverse ∧
    ((getContextualMemory { profiles := [datedProfile] } "u1" "hello" 10).1.experiences).map
      (fun e => e.event) = ["D", "C", "B"] ∧
    ((getContextualMemory cachedDatedWorld "u1" "hello" 10).1.experiences).map
      (fun e => e.event) = ["A", "B", "C"] ∧
    (getContextualMemory cachedDatedWorld "u1" "hello" 10).1.experiences =
      datedProfile.memory.experiences.take 3 :=
  ⟨by decide, by decide,
    ((recentExperiencesSection_last_three datedProfile).2.2.2.1 (by
      unfold DatesIncreasing
      simp [datedProfile])).1,
    by decide, by decide,
    ((recentExperiencesSection_last_three datedProfile).2.2.2.2 cachedDatedWorld "u1"
      { profiles := [("user_profile:u1", datedProfile)] } datedProfile rfl rfl
      (by decide)).2 "hello" 10⟩

/-! ### The conversation orchestrator -/

theorem truthyText_eq_none_iff (field : Option String) :
    truthyText field = none ↔ field = none ∨ field = some "" := by
  cases field with
  | none => simp [truthyText]
  | some s =>
    by_cases h : s = ""
    · simp [truthyText, Option.filter, h]
    · simp [truthyText, Option.filter, h]

theorem truthyText_of_ne (s : String) (h : s ≠ "") : truthyText (some s) = some s := by
  simp [truthyText, Option.filter, h]

theorem falsy_fields_iff (body : ChatRequest) :
    (truthyText body.message = none ∨ truthyText body.userId = none) ↔
      (body.message = none ∨ body.message = some "" ∨
        body.userId = none ∨ body.userId = some "") := by
  rw [truthyText_eq_none_iff, truthyText_eq_none_iff]
  tauto

theorem sendMessage_of_falsy (hasMemoryService : Bool) (g : ExternalModel) (w : World)
    (body : ChatRequest) (uuid : String) (now : Time) (random : ℚ)
    (h : truthyText body.message = none ∨ truthyText body.userId = none) :
    sendMessage hasMemoryService g w body uuid now random =
      ({ status := 400, error := some "Message and userId are required" }, w, []) := by
  unfold sendMessage
  rcases h with h | h
  · rw [h]
  · rw [h]
    cases truthyText body.message <;> rfl

theorem sendMessage_status_of_truthy (hasMemoryService : Bool) (g : ExternalModel) (w : World)
    (body : ChatRequest) (uuid : String) (now : Time) (random : ℚ) (message userId : String)
    (hm : truthyText body.message = some message) (hu : truthyText body.userId = some userId) :
    (sendMessage hasMemoryService g w body uuid now random).1.status = 200 ∨
      (sendMessage hasMemoryService g w body uuid now random).1.status = 500 := by
  unfold sendMessage
  simp only [hm, hu]
  split
  · right; rfl
  · split
    · right; rfl
    · left; rfl

theorem demoPostMessage_of_falsy (s : DemoState) (body : ChatRequest) (now : Time)
    (random random₂ : ℚ)
    (h : truthyText body.message = none ∨ truthyText body.userId = none) :
    demoPostMessage s body now random random₂ =
      ({ status := 400, error := some "Message and userId are required" }, s) := by
  unfold demoPostMessage
  rcases h with h | h
  · rw [h]
  · rw [h]
    cases truthyText body.message <;> rfl

theorem demoPostMessage_status_of_truthy (s : DemoState) (body : ChatRequest) (now : Time)
    (random random₂ : ℚ) (message userId : String)
    (hm : truthyText body.message = some message) (hu : truthyText body.userId = some userId) :
    (demoPostMessage s body now random random₂).1.status = 200 := by
  unfold demoPostMessage
  simp only [hm, hu]

theorem status_400_iff_of_cases {P : Prop} {status : Nat}
    (hfalsy : P → status = 400) (htruthy : ¬ P → status = 200 ∨ status = 500) :
    status = 400 ↔ P := by
  constructor
  · intro h
    by_contra hP
    rcases htruthy hP with h' | h' <;> omega
  · exact hfalsy

theorem truthy_of_not_falsy (body : ChatRequest)
    (h : ¬ (truthyText body.message = none ∨ truthyText body.userId = none)) :
    ∃ message userId, truthyText body.message = some message ∧
      truthyText body.userId = some userId := by
  cases hm : truthyText body.message with
  | none => exact absurd (Or.inl hm) h
  | some message =>
    cases hu : truthyText body.userId with
    | none => exact absurd (Or.inr hu) h
    | some userId => exact ⟨message, userId, rfl, rfl⟩

/-- C21. The handlers of `POST /chat/message` (`chat.js`, the controller and
the demo server) answer with status 400 exactly when `message` or `userId` is
missing or empty in the body; in that case the stores are left as they were
and no service is called. -/
theorem postMessage_status_400_iff (hasMemoryService : Bool) (g : ExternalModel) (w : World)
    (s : DemoState) (body : ChatRequest) (uuid : String) (now : Time) (random random₂ : ℚ) :
    ((sendMessage hasMemoryService g w body uuid now random).1.status = 400 ↔
      (body.message = none ∨ body.message = some "" ∨
        body.userId = none ∨ body.userId = some "")) ∧
    ((postMessage g w body uuid now random).1.status = 400 ↔
      (body.message = none ∨ body.message = some "" ∨
        body.userId = none ∨ body.userId = some "")) ∧
    ((demoPostMessage s body now random random₂).1.status = 400 ↔
      (body.message = none ∨ body.message = some "" ∨
        body.userId = none ∨ body.userId = some "")) ∧
    ((body.message = none ∨ body.message = some "" ∨
        body.userId = none ∨ body.userId = some "") →
      (sendMessage hasMemoryService g w body uuid now random).2 = (w, []) ∧
      (postMessage g w body uuid now random).2 = (w, []) ∧
      (demoPostMessage s body now random random₂).2 = s) := by
  have hsend : ∀ flag : Bool,
      ((sendMessage flag g w body uuid now random).1.status = 400 ↔
        (body.message = none ∨ body.message = some "" ∨
          body.userId = none ∨ body.userId = some "")) := by
    intro flag
    rw [← falsy_fields_iff]
    apply status_400_iff_of_cases
    · intro h
      rw [sendMessage_of_falsy flag g w body uuid now random h]
    · intro h
      obtain ⟨message, userId, hm, hu⟩ := truthy_of_not_falsy body h
      exact sendMessage_status_of_truthy flag g w body uuid now random message userId hm hu
  refine ⟨hsend hasMemoryService, hsend w.redis.isSome, ?_, ?_⟩
  · rw [← falsy_fields_iff]
    apply status_400_iff_of_cases
    · intro h
      rw [demoPostMessage_of_falsy s body now random random₂ h]
    · intro h
      obtain ⟨message, userId, hm, hu⟩ := truthy_of_not_falsy body h
      exact Or.inl (demoPostMessage_status_of_truthy s body now random random₂ message userId hm hu)
  · intro h
    rw [← falsy_fields_iff] at h
    refine ⟨?_, ?_, ?_⟩
    · rw [sendMessage_of_falsy hasMemoryService g w body uuid now random h]
    · unfold postMessage
      rw [sendMessage_of_falsy w.redis.isSome g w body uuid now random h]
    · rw [demoPostMessage_of_falsy s body now random random₂ h]

/-- A body with an empty message is refused by the three handlers, which leave
a store with a cache and a demo state as they were. -/
theorem postMessage_status_400_iff_witness :
    (postMessage {} { redis := some {} } { message := some "", userId := some "u1" }
        "s1" 5 0).1.status = 400 ∧
    (demoPostMessage {} { message := some "", userId := some "u1" } 5 0 0).1.status = 400 ∧
    (demoPostMessage {} { message := some "", userId := some "u1" } 5 0 0).2 = {} ∧
    (postMessage {} { redis := some {} } { message := some "hello", userId := some "u1" }
        "s1" 5 0).1.status ≠ 400 :=
  ⟨((postMessage_status_400_iff true {} { redis := some {} } {}
      { message := some "", userId := some "u1" } "s1" 5 0 0).2.1).2 (by decide),
   ((postMessage_status_400_iff true {} { redis := some {} } {}
      { message := some "", userId := some "u1" } "s1" 5 0 0).2.2.1).2 (by decide),
   (((postMessage_status_400_iff true {} { redis := some {} } {}
      { message := some "", userId := some "u1" } "s1" 5 0 0).2.2.2) (by decide)).2.2,
   fun h => absurd (((postMessage_status_400_iff true {} { redis := some {} } {}
      { message := some "hello", userId := some "u1" } "s1" 5 0 0).2.1).1 h) (by decide)⟩

theorem getUserProfile_ok (w : World) (userId : String) :
    ∃ profile, (getUserProfile w userId).1 = .ok profile := by
  unfold getUserProfile
  split
  · exact ⟨_, rfl⟩
  · split
    · exact ⟨_, rfl⟩
    · split
      · exact ⟨_, rfl⟩
      · split <;> exact ⟨_, rfl⟩

theorem pickRandom_mem {α : Type} (array : List α) (random : ℚ) (hne : array ≠ [])
    (h0 : 0 ≤ random) (h1 : random < 1) :
    0 ≤ Int.floor (random * (array.length : ℚ)) ∧
    Int.floor (random * (array.length : ℚ)) < (array.length : ℤ) ∧
    ∃ x ∈ array, pickRandom array random = some x := by
  have hpos : (0 : ℚ) < (array.length : ℚ) := by
    have : 0 < array.length := List.length_pos.mpr hne
    exact_mod_cast this
  have hfloor0 : 0 ≤ Int.floor (random * (array.length : ℚ)) :=
    Int.floor_nonneg.mpr (mul_nonneg h0 hpos.le)
  have hfloor1 : Int.floor (random * (array.length : ℚ)) < (array.length : ℤ) := by
    rw [Int.floor_lt]
    have : random * (array.length : ℚ) < 1 * (array.length : ℚ) :=
      mul_lt_mul_of_pos_right h1 hpos
    simpa using this
  refine ⟨hfloor0, hfloor1, ?_⟩
  have hlt : (Int.floor (random * (array.length : ℚ))).toNat < array.length := by
    omega
  refine ⟨array[(Int.floor (random * (array.length : ℚ))).toNat], List.getElem_mem _, ?_⟩
  unfold pickRandom
  rw [if_neg (not_lt.mpr hfloor0)]
  exact List.getElem?_eq_getElem hlt

theorem append_ne_empty (a b : String) (h : a ≠ "") : a ++ b ≠ "" := by
  intro hab
  apply h
  have hdata := congrArg String.data hab
  rw [String.data_append] at hdata
  exact String.ext (List.append_eq_nil.mp hdata).1

theorem fallbackResponses_ne_empty (name reply : String)
    (h : reply ∈ fallbackResponses name) : reply ≠ "" := by
  simp only [fallbackResponses, List.mem_cons, List.mem_singleton, List.mem_nil_iff,
    or_false] at h
  rcases h with rfl | rfl | rfl | rfl | rfl | rfl | rfl | rfl
  · exact append_ne_empty _ _ (append_ne_empty _ _ (by decide))
  · decide
  · exact append_ne_empty _ _ (append_ne_empty _ _ (by decide))
  · decide
  · decide
  · decide
  · exact append_ne_empty _ _ (append_ne_empty _ _ (by decide))
  · decide

theorem fallbackName_cases (p : UserProfile) :
    fallbackName (some p) = "friend" ∨ p.profile.name = some (fallbackName (some p)) ∨
      p.profile.preferredName = some (fallbackName (some p)) := by
  unfold fallbackName orDefault
  simp only [Option.some_bind]
  cases hn : p.profile.name with
  | none =>
    cases hp : p.profile.preferredName with
    | none => left; rfl
    | some v =>
      by_cases hv : v = ""
      · left; simp [hv]
      · right; right; simp [hv]
  | some n =>
    by_cases hne : n = ""
    · cases hp : p.profile.preferredName with
      | none => left; simp [hne]
      | some v =>
        by_cases hv : v = ""
        · left; simp [hne, hv]
        · right; right; simp [hne, hv]
    · right; left; simp [hne]

theorem sendMessage_without_model (hasMemoryService : Bool) (g : ExternalModel)
    (hmodel : g.model = none) (w : World) (body : ChatRequest) (uuid : String) (now : Time)
    (random : ℚ) (message userId : String)
    (hm : truthyText body.message = some message) (hu : truthyText body.userId = some userId) :
    ∃ userProfile,
      (hasMemoryService = true → (getUserProfile w userId).1 = .ok userProfile) ∧
      (hasMemoryService = false → userProfile = createTemporaryProfile userId) ∧
      (sendMessage hasMemoryService g w body uuid now random).1.status = 200 ∧
      (sendMessage hasMemoryService g w body uuid now random).1.message =
        getFallbackResponse (some userProfile) random := by
  cases hasMemoryService with
  | false =>
    refine ⟨createTemporaryProfile userId, by simp, fun _ => rfl, ?_, ?_⟩
    · unfold sendMessage
      simp only [hm, hu, analyzeEmotion, hmodel]
      rfl
    · unfold sendMessage
      simp only [hm, hu, analyzeEmotion, hmodel, generateResponse]
      rfl
  | true =>
    obtain ⟨p, hp⟩ := getUserProfile_ok w userId
    have hload : getUserProfile w userId = (.ok p, (getUserProfile w userId).2) :=
      Prod.ext hp rfl
    refine ⟨p, fun _ => hp, by simp, ?_, ?_⟩
    · unfold sendMessage
      simp only [hm, hu, analyzeEmotion, hmodel, if_true]
      rw [hload]
    · unfold sendMessage
      simp only [hm, hu, analyzeEmotion, hmodel, generateResponse, if_true]
      rw [hload]

theorem sendMessage_fallback_reply (hasMemoryService : Bool) (g : ExternalModel)
    (hmodel : g.model = none) (w : World) (body : ChatRequest) (uuid : String) (now : Time)
    (random : ℚ) (message userId : String)
    (hm : truthyText body.message = some message) (hu : truthyText body.userId = some userId)
    (h0 : 0 ≤ random) (h1 : random < 1) :
    (sendMessage hasMemoryService g w body uuid now random).1.status = 200 ∧
    ∃ userProfile reply,
      (hasMemoryService = true → (getUserProfile w userId).1 = .ok userProfile) ∧
      (hasMemoryService = false → userProfile = createTemporaryProfile userId) ∧
      (sendMessage hasMemoryService g w body uuid now random).1.message = some reply ∧
      reply ≠ "" ∧
      reply ∈ fallbackResponses (fallbackName (some userProfile)) := by
  obtain ⟨p, htrue, hfalse, hstatus, hreply⟩ :=
    sendMessage_without_model hasMemoryService g hmodel w body uuid now random message userId
      hm hu
  obtain ⟨-, -, x, hx, hpick⟩ :=
    pickRandom_mem (fallbackResponses (fallbackName (some p))) random
      (by simp [fallbackResponses]) h0 h1
  refine ⟨hstatus, p, x, htrue, hfalse, ?_, fallbackResponses_ne_empty _ _ hx, hx⟩
  rw [hreply]
  exact hpick

/-- C22. Fallback guarantee: with no model configured, a request with a
non-empty message and a non-empty user id is answered with status 200 and a
non-empty reply that is one of the eight sentences of `getFallbackResponse`,
made with the name (or preferred name) of the loaded profile or with `friend`,
whatever the store and the cache hold and whichever of their operations
reject; this holds for `chat.js` and for the controller with or without a
memory service. For a random value in [0, 1) the index is between 0 and 7. -/
theorem postMessage_fallback_guarantee (g : ExternalModel) (hmodel : g.model = none)
    (w : World) (body : ChatRequest) (message userId : String)
    (hmessage : body.message = some message) (hne : message ≠ "")
    (huser : body.userId = some userId) (hune : userId ≠ "")
    (uuid : String) (now : Time) (random : ℚ) (h0 : 0 ≤ random) (h1 : random < 1) :
    (postMessage g w body uuid now random).1.status = 200 ∧
    (∃ userProfile reply,
      (postMessage g w body uuid now random).1.message = some reply ∧
      reply ≠ "" ∧
      reply ∈ fallbackResponses (fallbackName (some userProfile)) ∧
      (w.redis.isSome = true → (getUserProfile w userId).1 = .ok userProfile) ∧
      (w.redis.isSome = false → userProfile = createTemporaryProfile userId) ∧
      (fallbackName (some userProfile) = "friend" ∨
        userProfile.profile.name = some (fallbackName (some userProfile)) ∨
        userProfile.profile.preferredName = some (fallbackName (some userProfile)))) ∧
    (∀ hasMemoryService : Bool,
      (sendMessage hasMemoryService g w body uuid now random).1.status = 200 ∧
      ∃ name reply,
        (sendMessage hasMemoryService g w body uuid now random).1.message = some reply ∧
        reply ≠ "" ∧ reply ∈ fallbackResponses name) ∧
    (∀ name, (fallbackResponses name).length = 8) ∧
    0 ≤ Int.floor (random * 8) ∧ Int.floor (random * 8) < 8 := by
  have hm : truthyText body.message = some message := by
    rw [hmessage]; exact truthyText_of_ne message hne
  have hu : truthyText body.userId = some userId := by
    rw [huser]; exact truthyText_of_ne userId hune
  refine ⟨?_, ?_, ?_, fun _ => rfl, ?_⟩
  · exact (sendMessage_fallback_reply w.redis.isSome g hmodel w body uuid now random
      message userId hm hu h0 h1).1
  · obtain ⟨-, p, reply, htrue, hfalse, hreply, hnonempty, hmem⟩ :=
      sendMessage_fallback_reply w.redis.isSome g hmodel w body uuid now random
        message userId hm hu h0 h1
    exact ⟨p, reply, hreply, hnonempty, hmem, htrue, hfalse, fallbackName_cases p⟩
  · intro flag
    obtain ⟨hstatus, p, reply, -, -, hreply, hnonempty, hmem⟩ :=
      sendMessage_fallback_reply flag g hmodel w body uuid now random
        message userId hm hu h0 h1
    exact ⟨hstatus, _, reply, hreply, hnonempty, hmem⟩
  · have h := pickRandom_mem (fallbackResponses "friend") random
      (by simp [fallbackResponses]) h0 h1
    have hlen : (fallbackResponses "friend").length = 8 := rfl
    rw [hlen] at h
    exact ⟨by simpa using h.1, by simpa using h.2.1⟩

/-- With every operation of the store and of the cache rejecting and no model
configured, a first message is answered with status 200 and a non-empty
fallback sentence. -/
theorem postMessage_fallback_guarantee_witness :
    (0 : ℚ) ≤ 1 / 2 ∧ (1 / 2 : ℚ) < 1 ∧
    (postMessage {} failingWorld helloRequest "s1" 5 (1 / 2)).1.status = 200 ∧
    (∃ reply,
      (postMessage {} failingWorld helloRequest "s1" 5 (1 / 2)).1.message = some reply ∧
      reply ≠ "") ∧
    Int.floor ((1 / 2 : ℚ) * 8) < 8 :=
  ⟨by norm_num, by norm_num,
    (postMessage_fallback_guarantee {} rfl failingWorld helloRequest "hello" "u1" rfl
      (by decide) rfl (by decide) "s1" 5 (1 / 2) (by norm_num) (by norm_num)).1,
    let ⟨_, reply, hreply, hne, _⟩ :=
      (postMessage_fallback_guarantee {} rfl failingWorld helloRequest "hello" "u1" rfl
        (by decide) rfl (by decide) "s1" 5 (1 / 2) (by norm_num) (by norm_num)).2.1
    ⟨reply, hreply, hne⟩,
    (postMessage_fallback_guarantee {} rfl failingWorld helloRequest "hello" "u1" rfl
      (by decide) rfl (by decide) "s1" 5 (1 / 2) (by norm_num) (by norm_num)).2.2.2.2.2⟩

/-! ### The recall scenarios -/

theorem fallbackResponses_friend_hold_no_memory :
    ∀ reply ∈ fallbackResponses "friend",
      includes (toLowerCase reply) "john" = false ∧
      includes (toLowerCase reply) "guitar" = false ∧
      includes (toLowerCase reply) "sarah" = false ∧
      includes (toLowerCase reply) "anime" = false ∧
      includes (toLowerCase reply) "new york" = false := by
  decide

theorem postMessage_reply_of_nameless_profile (w : World) (body : ChatRequest)
    (message userId : String)
    (hm : truthyText body.message = some message) (hu : truthyText body.userId = some userId)
    (hcache : w.redis.isSome = true)
    (hname : (getUserProfile w userId).1.toOption.map
      (fun p => (p.profile.name, p.profile.preferredName)) = some (none, none))
    (uuid : String) (now : Time) (random : ℚ) (h0 : 0 ≤ random) (h1 : random < 1) :
    ∃ reply, (postMessage {} w body uuid now random).1.message = some reply ∧
      reply ∈ fallbackResponses "friend" := by
  obtain ⟨-, p, reply, htrue, -, hreply, -, hmem⟩ :=
    sendMessage_fallback_reply true {} rfl w body uuid now random message userId hm hu h0 h1
  have hp := htrue rfl
  rw [hp] at hname
  simp only [Except.toOption, Option.map_some', Option.some.injEq, Prod.mk.injEq] at hname
  have hfriend : fallbackName (some p) = "friend" := by
    simp [fallbackName, orDefault, hname.1, hname.2]
  rw [hfriend] at hmem
  refine ⟨reply, ?_, hmem⟩
  unfold postMessage
  rw [hcache]
  exact hreply

/-- C23 (the code at the failing input). With a working store and cache and no
model configured, `POST /message` of `chat.js` answers the first message with
status 200 and stores the fact `Name is john` and the interest
`playing guitar` in the profile, whose name stays unset; the reply to the
later question in the same session is, for every random value in [0, 1), one
of the fallback sentences for `friend`, which holds neither the name nor the
interest. The demo server answers the same two messages with a reply that
holds both. -/
theorem recall_reply_lacks_name_and_interest :
    (postMessage {} cachedWorld johnRequest "s1" 5 0).1.status = 200 ∧
    (postMessage {} cachedWorld johnRequest "s1" 5 0).2.1.profiles.map
        (fun p => (p.userId, p.profile.name, p.profile.interests,
          p.memory.importantFacts.map (fun f => f.fact))) =
      [("u1", none, some ["playing guitar"], ["Name is john"])] ∧
    (∀ random : ℚ, 0 ≤ random → random < 1 →
      ∃ reply,
        (postMessage {} (postMessage {} cachedWorld johnRequest "s1" 5 0).2.1 recallRequest
          "s1" 9 random).1.message = some reply ∧
        reply ∈ fallbackResponses "friend" ∧
        includes (toLowerCase reply) "john" = false ∧
        includes (toLowerCase reply) "guitar" = false) ∧
    (demoPostMessage (demoPostMessage {} johnRequest 5 0 0).2 recallRequest 9 0 0).1.response =
      some "I remember that your name is John, you like playing guitar. Thanks for sharing these things with me!" := by
  refine ⟨by decide, by decide, ?_, by decide!⟩
  intro random h0 h1
  obtain ⟨reply, hreply, hmem⟩ :=
    postMessage_reply_of_nameless_profile
      (postMessage {} cachedWorld johnRequest "s1" 5 0).2.1 recallRequest
      "What do you remember about me?" "u1" (by decide) (by decide) (by decide) (by decide)
      "s1" 9 random h0 h1
  exact ⟨reply, hreply, hmem, (fallbackResponses_friend_hold_no_memory reply hmem).1,
    (fallbackResponses_friend_hold_no_memory reply hmem).2.1⟩

/-- C24 (the code at the failing input). After the message that states a name,
a place and an interest, the reply to the later question in the same session
does not hold the place: the demo server recalls the name and the interest
only, its extraction having no pattern for a place; `chat.js` without a model
answers with a fallback sentence for `friend`, and `getFallbackUserInfo`
extracts the name and the interest only. -/
theorem recall_reply_lacks_location :
    (demoPostMessage {} sarahRequest 5 0 0).1.status = 200 ∧
    (demoPostMessage {} sarahRequest 5 0 0).2.mockUserProfiles =
      [("u2", { name := "Sarah", interests := ["anime"] })] ∧
    (demoPostMessage (demoPostMessage {} sarahRequest 5 0 0).2 sarahRecallRequest
        9 0 0).1.response =
      some "I remember that your name is Sarah, you like anime. Thanks for sharing these things with me!" ∧
    (demoPostMessage (demoPostMessage {} sarahRequest 5 0 0).2 sarahRecallRequest
        9 0 1).1.response =
      some "I remember that your name is Sarah, you like anime. Thanks for sharing these things with me! Sarah, you always have such interesting things to share!" ∧
    includes (toLowerCase "I remember that your name is Sarah, you like anime. Thanks for sharing these things with me! Sarah, you always have such interesting things to share!")
      "new york" = false ∧
    getFallbackUserInfo
        [ { role := "user", content := "My name is Sarah and I live in New York. I love anime."
            timestamp := 5, emotion := none } ] =
      { facts := some ["Name is sarah"], interests := some ["anime"], preferences := some [] } ∧
    (∀ random : ℚ, 0 ≤ random → random < 1 →
      ∃ reply,
        (postMessage {} (postMessage {} cachedWorld sarahRequest "s2" 5 0).2.1
          sarahRecallRequest "s2" 9 random).1.message = some reply ∧
        reply ∈ fallbackResponses "friend" ∧
        includes (toLowerCase reply) "new york" = false) := by
  refine ⟨by decide, by decide, by decide!, by decide!, by decide, by decide, ?_⟩
  intro random h0 h1
  obtain ⟨reply, hreply, hmem⟩ :=
    postMessage_reply_of_nameless_profile
      (postMessage {} cachedWorld sarahRequest "s2" 5 0).2.1 sarahRecallRequest
      "What do you remember about me?" "u2" (by decide) (by decide) (by decide) (by decide)
      "s2" 9 random h0 h1
  exact ⟨reply, hreply, hmem, (fallbackResponses_friend_hold_no_memory reply hmem).2.2.2.2⟩

/-! ### The test endpoints and the preferences route -/

/-- C25 (the code at the failing input). The test endpoint of the demo server
answers the three named scenarios with a fixed sentence, but for the scenario
`default`, for an absent scenario and for every other value it reads
`mockResponses.length`, which the object does not have, and the field
`response` is `undefined` whatever the random value; the endpoint `/test` of
`chat.js` answers every request with a body that has a `message` and no
`response`. -/
theorem test_endpoint_response_undefined :
    mockResponses.lookup "length" = none ∧
    mockResponses.map (fun kv => (kv.1, kv.2.length)) =
      [("default", 8), ("sad", 5), ("happy", 5), ("excited", 4)] ∧
    (∀ random : ℚ, (demoPostTest (some "default") random).status = 200 ∧
      (demoPostTest (some "default") random).response = TestReply.undefined) ∧
    (∀ random : ℚ, (demoPostTest none random).status = 200 ∧
      (demoPostTest none random).response = TestReply.undefined) ∧
    (∀ (scenario : Option String) (random : ℚ),
      scenario ≠ some "memory_test" → scenario ≠ some "emotion_test" →
      scenario ≠ some "identity_test" →
      (demoPostTest scenario random).response = TestReply.undefined) ∧
    (∀ random : ℚ, ∃ sentence,
      (demoPostTest (some "emotion_test") random).response = TestReply.text sentence) ∧
    (∀ random : ℚ, ∃ sentence,
      (demoPostTest (some "identity_test") random).response = TestReply.text sentence) ∧
    (∀ random : ℚ, ∃ sentence,
      (demoPostTest (some "memory_test") random).response = TestReply.text sentence) ∧
    (∀ message scenario : Option String,
      (chatPostTest message scenario).status = 200 ∧
      (chatPostTest message scenario).response = TestReply.undefined ∧
      (chatPostTest message scenario).message = some "Chat API is working!") := by
  refine ⟨by decide, by decide, fun _ => ⟨rfl, rfl⟩, fun _ => ⟨rfl, rfl⟩, ?_,
    fun _ => ⟨_, rfl⟩, fun _ => ⟨_, rfl⟩, fun _ => ⟨_, rfl⟩, fun _ _ => ⟨rfl, rfl, rfl⟩⟩
  intro scenario random h1 h2 h3
  unfold demoPostTest
  simp only [h1, h2, h3, if_false]
  rfl

theorem setTextPath_of_plain_key (key value : String) (p : UserProfile)
    (hkey : key ∈ ["communicationStyle", "responseStyle", "conversationLength",
      "reminderFrequency", "topics"]) :
    setTextPath key value p = p := by
  simp only [List.mem_cons, List.mem_singleton, List.mem_nil_iff, or_false] at hkey
  rcases hkey with rfl | rfl | rfl | rfl | rfl <;> rfl

theorem applySetFields_of_plain_keys (body : List (String × String)) (p : UserProfile)
    (hkeys : ∀ kv ∈ body, kv.1 ∈ ["communicationStyle", "responseStyle",
      "conversationLength", "reminderFrequency", "topics"]) :
    applySetFields body p = p := by
  unfold applySetFields
  induction body generalizing p with
  | nil => rfl
  | cons kv rest ih =>
    rw [List.foldl_cons, setTextPath_of_plain_key kv.1 kv.2 p (hkeys kv (List.mem_cons_self _ _))]
    exact ih p (fun kv' h => hkeys kv' (List.mem_cons_of_mem _ h))

/-- C26 (the code at the failing input). `PUT /preferences/:userId` with the
body `communicationStyle: formal, responseStyle: analytical` answers with
status 200 and a profile whose `preferences` hold neither value: with a memory
service the body is the `$set` document, whose keys are no paths of the
schema, so the profile found is returned as it was and the profile created by
the upsert holds the schema defaults `empathetic` and `casual`; with no memory
service the temporary profile is returned with a note. In general a body
whose keys are plain names of preference fields changes no profile. -/
theorem putPreferences_drops_preference_fields :
    (putPreferences cachedWorld "u1" preferencesBody).1.status = 200 ∧
    (putPreferences cachedWorld "u1" preferencesBody).1.profile.map
        (fun p => (p.preferences.textField "communicationStyle",
          p.preferences.textField "responseStyle", p.profile.communicationStyle)) =
      some (none, some "empathetic", some "casual") ∧
    (putPreferences (getUserProfile cachedWorld "u1").2 "u1" preferencesBody).1.profile.map
        (fun p => (p.preferences.textField "communicationStyle",
          p.preferences.textField "responseStyle", p.profile.communicationStyle)) =
      some (none, some "empathetic", some "casual") ∧
    (putPreferences {} "u1" preferencesBody).1.profile.map
        (fun p => (p.preferences.textField "communicationStyle",
          p.preferences.textField "responseStyle", p.profile.communicationStyle)) =
      some (none, some "empathetic", some "casual") ∧
    (putPreferences {} "u1" preferencesBody).1.note =
      some "Profile update not saved - memory service not available" ∧
    (∀ (body : List (String × String)) (p : UserProfile),
      (∀ kv ∈ body, kv.1 ∈ ["communicationStyle", "responseStyle", "conversationLength",
        "reminderFrequency", "topics"]) →
      applySetFields body p = p) := by
  exact ⟨by decide, by decide, by decide, by decide, by decide,
    applySetFields_of_plain_keys⟩

/-! ### The cache -/

theorem cacheProfile_profiles (w : World) (userId : String) (profile : UserProfile) :
    (cacheProfile w userId profile).profiles = w.profiles := by
  unfold cacheProfile
  cases w.redis with
  | none => rfl
  | some redis => cases h : redis.setFails <;> simp [h]

theorem lookup_filter_ne {β : Type} (k key : String) (l : List (String × β))
    (h : key ≠ k) : (l.filter (fun kv => kv.1 != k)).lookup key = l.lookup key := by
  induction l with
  | nil => rfl
  | cons kv l ih =>
    obtain ⟨k', v⟩ := kv
    by_cases hk : k' = k
    · subst hk
      have hne : (key == k') = false := by simpa using h
      simp [List.filter, List.lookup, hne, ih]
    · have hkeep : (k' != k) = true := by simpa using hk
      simp only [List.filter, hkeep, List.lookup]
      rw [ih]

theorem lookup_cons_filter_ne {β : Type} (k key : String) (v : β) (l : List (String × β))
    (h : key ≠ k) :
    ((k, v) :: l.filter (fun kv => kv.1 != k)).lookup key = l.lookup key := by
  have hne : (key == k) = false := by simpa using h
  simp only [List.lookup, hne]
  exact lookup_filter_ne k key l h

theorem cacheProfile_of_working (w : World) (redis : Redis) (userId : String)
    (profile : UserProfile) (hredis : w.redis = some redis) (hset : redis.setFails = false) :
    ∃ redis', (cacheProfile w userId profile).redis = some redis' ∧
      redis'.profiles.lookup ("user_profile:" ++ userId) = some profile ∧
      redis'.ttl.lookup ("user_profile:" ++ userId) = some 3600 ∧
      ∀ key, key ≠ "user_profile:" ++ userId →
        redis'.profiles.lookup key = redis.profiles.lookup key ∧
        redis'.ttl.lookup key = redis.ttl.lookup key := by
  unfold cacheProfile
  rw [hredis]
  simp only [hset, Bool.false_eq_true, if_false]
  refine ⟨_, rfl, by simp [List.lookup, profileCacheKey],
    by simp [List.lookup, CACHE_TTL, profileCacheKey], ?_⟩
  intro key hkey
  exact ⟨lookup_cons_filter_ne _ key _ _ hkey, lookup_cons_filter_ne _ key _ _ hkey⟩

theorem cacheProfile_of_rejecting (w : World) (redis : Redis) (userId : String)
    (profile : UserProfile) (hredis : w.redis = some redis) (hset : redis.setFails = true) :
    cacheProfile w userId profile = w := by
  unfold cacheProfile
  rw [hredis]
  simp only [hset, if_true]

theorem cachedProfile_eq_none_iff (w : World) (userId : String) :
    cachedProfile w userId = none ↔
      (w.redis = none ∨ ∃ redis, w.redis = some redis ∧
        (redis.getFails = true ∨
          redis.profiles.lookup ("user_profile:" ++ userId) = none)) := by
  unfold cachedProfile profileCacheKey
  cases hredis : w.redis with
  | none => simp
  | some redis =>
    cases hget : redis.getFails with
    | true => simp [hget]
    | false =>
      simp only [Bool.false_eq_true, if_false, Option.map_eq_none', false_or, Option.some.injEq,
        exists_eq_left', hget, reduceCtorEq]

/-- C27. When the cache read of `getUserProfile` gives nothing (no cache, no
entry under `user_profile:<userId>`, or `get` rejects), the call returns the
profile it returns with no cache configured and leaves the same profiles in
the store, whether or not the cache write then rejects (the write is attempted
only after such a miss); a rejecting write leaves the cache as it was. If the
cache write works and the store yields a record (the lookup resolves, and the
record exists or the new one is accepted), that record, found or created, is
afterwards in the cache under `user_profile:<userId>` with a time to live of
3600 seconds, the entries under the other keys being as before; if the store
yields none, the temporary profile is returned and nothing is written. -/
theorem getUserProfile_cache_fallback (w : World) (userId : String)
    (hmiss : w.redis = none ∨ ∃ redis, w.redis = some redis ∧
      (redis.getFails = true ∨ redis.profiles.lookup ("user_profile:" ++ userId) = none)) :
    (getUserProfile w userId).1 = (getUserProfile { w with redis := none } userId).1 ∧
    (getUserProfile w userId).2.profiles =
      (getUserProfile { w with redis := none } userId).2.profiles ∧
    (∀ redis, w.redis = some redis → redis.setFails = false →
      w.fails .profileFindOne = false →
      ((w.profiles.find? (fun p => p.userId == userId)).isSome = true ∨
        w.acceptsProfile (newUserProfile userId) = true) →
      ∃ profile redis',
        (getUserProfile w userId).1 = .ok profile ∧
        (w.profiles.find? (fun p => p.userId == userId) = some profile ∨
          (w.profiles.find? (fun p => p.userId == userId) = none ∧
            profile = newUserProfile userId)) ∧
        profile ∈ (getUserProfile w userId).2.profiles ∧
        (getUserProfile w userId).2.redis = some redis' ∧
        redis'.profiles.lookup ("user_profile:" ++ userId) = some profile ∧
        redis'.ttl.lookup ("user_profile:" ++ userId) = some 3600 ∧
        ∀ key, key ≠ "user_profile:" ++ userId →
          redis'.profiles.lookup key = redis.profiles.lookup key ∧
          redis'.ttl.lookup key = redis.ttl.lookup key) ∧
    (∀ redis, w.redis = some redis → redis.setFails = true →
      (getUserProfile w userId).2.redis = w.redis) ∧
    ((w.fails .profileFindOne = true ∨
        (w.profiles.find? (fun p => p.userId == userId) = none ∧
          w.acceptsProfile (newUserProfile userId) = false)) →
      getUserProfile w userId = (.ok (createTemporaryProfile userId), w)) := by
  have hmiss : cachedProfile w userId = none := (cachedProfile_eq_none_iff w userId).mpr hmiss
  have hnone : cachedProfile { w with redis := none } userId = none := rfl
  refine ⟨?_, ?_, ?_, ?_, ?_⟩
  · unfold getUserProfile
    rw [hmiss, hnone]
    cases hq : w.fails .profileFindOne with
    | true => simp only [if_true]
    | false =>
      simp only [Bool.false_eq_true, if_false]
      cases hfind : w.profiles.find? (fun p => p.userId == userId) with
      | some profile => rfl
      | none =>
        unfold createUserProfile
        cases hacc : w.acceptsProfile (newUserProfile userId) with
        | true => simp only [hacc, if_true]
        | false => simp only [hacc, Bool.false_eq_true, if_false]
  · unfold getUserProfile
    rw [hmiss, hnone]
    cases hq : w.fails .profileFindOne with
    | true => simp only [if_true]
    | false =>
      simp only [Bool.false_eq_true, if_false]
      cases hfind : w.profiles.find? (fun p => p.userId == userId) with
      | some profile => simp only [cacheProfile_profiles]
      | none =>
        unfold createUserProfile
        cases hacc : w.acceptsProfile (newUserProfile userId) with
        | true => simp only [hacc, if_true, cacheProfile_profiles]
        | false => simp only [hacc, Bool.false_eq_true, if_false]
  · intro redis hredis hset hq hrecord
    unfold getUserProfile
    rw [hmiss]
    simp only [hq, Bool.false_eq_true, if_false]
    cases hfind : w.profiles.find? (fun p => p.userId == userId) with
    | some profile =>
      obtain ⟨redis', h1, h2, h3, h4⟩ :=
        cacheProfile_of_working w redis userId profile hredis hset
      refine ⟨profile, redis', rfl, Or.inl rfl, ?_, h1, h2, h3, h4⟩
      simp only [cacheProfile_profiles]
      exact List.mem_of_find?_eq_some hfind
    | none =>
      rw [hfind] at hrecord
      have hacc : w.acceptsProfile (newUserProfile userId) = true := by
        rcases hrecord with h | h
        · simp at h
        · exact h
      unfold createUserProfile
      simp only [hacc, if_true]
      obtain ⟨redis', h1, h2, h3, h4⟩ :=
        cacheProfile_of_working { w with profiles := w.profiles ++ [newUserProfile userId] }
          redis userId (newUserProfile userId) hredis hset
      refine ⟨newUserProfile userId, redis', rfl, Or.inr ⟨trivial, rfl⟩, ?_, h1, h2, h3, h4⟩
      simp only [cacheProfile_profiles]
      exact List.mem_append_right _ (List.mem_singleton_self _)
  · intro redis hredis hset
    unfold getUserProfile
    rw [hmiss]
    cases hq : w.fails .profileFindOne with
    | true => simp only [if_true]
    | false =>
      simp only [Bool.false_eq_true, if_false]
      cases hfind : w.profiles.find? (fun p => p.userId == userId) with
      | some profile =>
        simp only [cacheProfile_of_rejecting w redis userId profile hredis hset]
      | none =>
        unfold createUserProfile
        cases hacc : w.acceptsProfile (newUserProfile userId) with
        | true =>
          simp only [hacc, if_true]
          rw [cacheProfile_of_rejecting
            { w with profiles := w.profiles ++ [newUserProfile userId] } redis userId
            (newUserProfile userId) hredis hset]
        | false => simp only [hacc, Bool.false_eq_true, if_false]
  · intro hfail
    unfold getUserProfile
    rw [hmiss]
    cases hq : w.fails .profileFindOne with
    | true => simp only [if_true]
    | false =>
      rcases hfail with h | ⟨hfind, hacc⟩
      · rw [hq] at h
        exact absurd h Bool.false_ne_true
      · simp only [Bool.false_eq_true, if_false, hfind]
        unfold createUserProfile
        simp only [hacc, Bool.false_eq_true, if_false]

/-- A cache whose reads reject in front of a store holding a profile: the
stored profile is returned, as without a cache; and behind a working empty
cache the stored record is returned and cached under `user_profile:u1` for
3600 seconds. -/
theorem getUserProfile_cache_fallback_witness :
    (unreadableCacheWorld.redis = none ∨ ∃ redis, unreadableCacheWorld.redis = some redis ∧
      (redis.getFails = true ∨ redis.profiles.lookup ("user_profile:" ++ "u1") = none)) ∧
    (getUserProfile unreadableCacheWorld "u1").1 =
      (getUserProfile { unreadableCacheWorld with redis := none } "u1").1 ∧
    (getUserProfile unreadableCacheWorld "u1").2.profiles =
      (getUserProfile { unreadableCacheWorld with redis := none } "u1").2.profiles ∧
    (∃ profile redis',
      (getUserProfile emptyCacheWorld "u1").1 = .ok profile ∧
      (emptyCacheWorld.profiles.find? (fun p => p.userId == "u1") = some profile ∨
        (emptyCacheWorld.profiles.find? (fun p => p.userId == "u1") = none ∧
          profile = newUserProfile "u1")) ∧
      profile ∈ (getUserProfile emptyCacheWorld "u1").2.profiles ∧
      (getUserProfile emptyCacheWorld "u1").2.redis = some redis' ∧
      redis'.profiles.lookup ("user_profile:" ++ "u1") = some profile ∧
      redis'.ttl.lookup ("user_profile:" ++ "u1") = some 3600 ∧
      ∀ key, key ≠ "user_profile:" ++ "u1" →
        redis'.profiles.lookup key = ({} : Redis).profiles.lookup key ∧
        redis'.ttl.lookup key = ({} : Redis).ttl.lookup key) ∧
    ((getUserProfile emptyCacheWorld "u1").2.redis.map
      (fun redis => (redis.profiles.map (fun kv => kv.1), redis.ttl))) =
      some (["user_profile:u1"], [("user_profile:u1", 3600)]) :=
  ⟨Or.inr ⟨{ getFails := true }, rfl, Or.inl rfl⟩,
    (getUserProfile_cache_fallback unreadableCacheWorld "u1"
      (Or.inr ⟨{ getFails := true }, rfl, Or.inl rfl⟩)).1,
    (getUserProfile_cache_fallback unreadableCacheWorld "u1"
      (Or.inr ⟨{ getFails := true }, rfl, Or.inl rfl⟩)).2.1,
    (getUserProfile_cache_fallback emptyCacheWorld "u1"
      (Or.inr ⟨{}, rfl, Or.inr rfl⟩)).2.2.1 {} rfl rfl rfl (Or.inl (by decide)),
    by decide⟩

/-- C28 (the code at the failing input). After `updateConversationContext` has
cached the session, `saveMessage` (the definition in force) appends a message
to the stored conversation and does not touch the cache, whose entry keeps the
snapshot with two messages while the store holds three. `clearConversation`
without a session id deletes every conversation of the user but only the cache
key ending in a star, so the entry of the session stays. `updateUserProfile`
with a rejecting cache write changes the stored profile and leaves the older
snapshot in the cache, which `getUserProfile` then returns. -/
theorem store_write_leaves_stale_cache :
    (cachedConversation
        (updateConversationContext contextWorld "u1" "s1" { userMood := some "happy" } 150).2
        "u1" "s1").map (fun c => (c.messages.length, c.context.userMood)) =
      some (2, some "happy") ∧
    (saveMessage
        (updateConversationContext contextWorld "u1" "s1" { userMood := some "happy" } 150).2
        "u1" "s1" thirdMessage 200).1.isSome = true ∧
    ((saveMessage
        (updateConversationContext contextWorld "u1" "s1" { userMood := some "happy" } 150).2
        "u1" "s1" thirdMessage 200).2.conversations.find? (sameSession "u1" "s1")).map
        (fun c => c.messages.length) = some 3 ∧
    (cachedConversation
        (saveMessage
          (updateConversationContext contextWorld "u1" "s1" { userMood := some "happy" } 150).2
          "u1" "s1" thirdMessage 200).2
        "u1" "s1").map (fun c => c.messages.length) = some 2 ∧
    (clearConversation
        (updateConversationContext contextWorld "u1" "s1" { userMood := some "happy" } 150).2
        "u1" none).1 = true ∧
    (clearConversation
        (updateConversationContext contextWorld "u1" "s1" { userMood := some "happy" } 150).2
        "u1" none).2.conversations = [] ∧
    (cachedConversation
        (clearConversation
          (updateConversationContext contextWorld "u1" "s1" { userMood := some "happy" } 150).2
          "u1" none).2
        "u1" "s1").map (fun c => c.messages.length) = some 2 ∧
    (updateUserProfile staleCacheWorld "u1" { interests := some ["tea"] }).1.toOption.map
        (fun p => p.profile.interests) = some (some ["tea"]) ∧
    (updateUserProfile staleCacheWorld "u1" { interests := some ["tea"] }).2.profiles.map
        (fun p => p.profile.interests) = [some ["tea"]] ∧
    (cachedProfile (updateUserProfile staleCacheWorld "u1" { interests := some ["tea"] }).2
        "u1").map (fun p => p.profile.interests) = some (some ["guitar"]) ∧
    (getUserProfile (updateUserProfile staleCacheWorld "u1" { interests := some ["tea"] }).2
        "u1").1.toOption.map (fun p => p.profile.interests) = some (some ["guitar"]) := by
  decide

/-! ### Substring triggers and the case of letters -/

theorem includes_trans (s word t : String) (hword : includes s word = true)
    (ht : includes word t = true) : includes s t = true := by
  rw [includes_iff] at *
  exact List.IsInfix.trans ht hword

theorem getFallbackEmotion_eq_classify (text : String) :
    getFallbackEmotion text =
      classifyByPriority fallbackCategories
        { emotion := "neutral", sentiment := 0, mood := "neutral" } (toLowerCase text) := by
  simp only [getFallbackEmotion, fallbackCategories, classifyByPriority_cons,
    classifyByPriority_nil, List.any_cons, List.any_nil, Bool.or_false, Bool.or_assoc]

theorem mockEmotionAnalysis_eq_classify (text : String) :
    mockEmotionAnalysis text =
      classifyByPriority mockCategories
        { emotion := "neutral", sentiment := 0.1, mood := "calm" } (toLowerCase text) := by
  simp only [mockEmotionAnalysis, mockCategories, classifyByPriority_cons,
    classifyByPriority_nil, List.any_cons, List.any_nil, Bool.or_false, Bool.or_assoc]

theorem classifyByPriority_of_first (pre : List Category) (c : Category) (post : List Category)
    (dflt : EmotionResult) (lowerText trigger : String) (hmem : trigger ∈ c.triggers)
    (hin : includes lowerText trigger = true)
    (hpre : ∀ c' ∈ pre, ∀ t ∈ c'.triggers, includes lowerText t = false) :
    classifyByPriority (pre ++ c :: post) dflt lowerText = c.result := by
  induction pre with
  | nil =>
    rw [List.nil_append, classifyByPriority_cons]
    have hany : c.triggers.any (fun w => includes lowerText w) = true :=
      List.any_eq_true.mpr ⟨trigger, hmem, hin⟩
    rw [hany, if_pos rfl]
  | cons c' pre ih =>
    rw [List.cons_append, classifyByPriority_cons]
    have hany : c'.triggers.any (fun w => includes lowerText w) = false := by
      rw [List.any_eq_false]
      intro t ht
      rw [hpre c' (List.mem_cons_self _ _) t ht]
      exact Bool.false_ne_true
    rw [hany, if_neg Bool.false_ne_true]
    exact ih (fun c'' h => hpre c'' (List.mem_cons_of_mem _ h))

theorem toLower_swapCase (c : Char) : (swapCase c).toLower = c.toLower := by
  unfold swapCase
  by_cases hu : c.isUpper = true
  · rw [if_pos hu]
    simp only [Char.isUpper, Bool.and_eq_true, decide_eq_true_eq, ge_iff_le] at hu
    have h1 : 65 ≤ c.toNat := hu.1
    have h2 : c.toNat ≤ 90 := hu.2
    rw [← Char.ofNat_toNat c]
    generalize c.toNat = n at h1 h2
    interval_cases n <;> decide
  · rw [if_neg hu]
    by_cases hl : c.isLower = true
    · rw [if_pos hl]
      simp only [Char.isLower, Bool.and_eq_true, decide_eq_true_eq, ge_iff_le] at hl
      have h1 : 97 ≤ c.toNat := hl.1
      have h2 : c.toNat ≤ 122 := hl.2
      rw [← Char.ofNat_toNat c]
      generalize c.toNat = n at h1 h2
      interval_cases n <;> decide
    · rw [if_neg hl]

theorem map_toLower_changeCase (change : Nat → Bool) (l : List Char) (n : Nat) :
    ((l.enumFrom n).map (fun ic => if change ic.1 then swapCase ic.2 else ic.2)).map
      Char.toLower = l.map Char.toLower := by
  induction l generalizing n with
  | nil => rfl
  | cons c l ih =>
    simp only [List.enumFrom_cons, List.map_cons, ih, List.cons.injEq, and_true]
    cases change n
    · simp
    · simp [toLower_swapCase]

theorem toLowerCase_changeCase (change : Nat → Bool) (text : String) :
    toLowerCase (changeCase change text) = toLowerCase text := by
  unfold toLowerCase changeCase
  simp only [List.enum]
  rw [map_toLower_changeCase]

/-- C29. Both keyword classifiers match triggers as substrings of the
lower-cased text: when the text holds a word that holds a trigger of a
category, and no trigger of a category tested earlier occurs in the text, the
result of that category is returned; and the result stays the same when the
case of any letters of the text is changed. -/
theorem substring_trigger_classifies (text : String) :
    (∀ word trigger : String, includes (toLowerCase text) word = true →
      includes word trigger = true →
      (∀ pre c post, fallbackCategories = pre ++ c :: post → trigger ∈ c.triggers →
        (∀ c' ∈ pre, ∀ t ∈ c'.triggers, includes (toLowerCase text) t = false) →
        getFallbackEmotion text = c.result) ∧
      (∀ pre c post, mockCategories = pre ++ c :: post → trigger ∈ c.triggers →
        (∀ c' ∈ pre, ∀ t ∈ c'.triggers, includes (toLowerCase text) t = false) →
        mockEmotionAnalysis text = c.result)) ∧
    (∀ change : Nat → Bool,
      getFallbackEmotion (changeCase change text) = getFallbackEmotion text ∧
      mockEmotionAnalysis (changeCase change text) = mockEmotionAnalysis text) := by
  refine ⟨?_, ?_⟩
  · intro word trigger hword htrigger
    have hin := includes_trans _ _ _ hword htrigger
    constructor
    · intro pre c post htable hmem hpre
      rw [getFallbackEmotion_eq_classify, htable]
      exact classifyByPriority_of_first pre c post _ _ trigger hmem hin hpre
    · intro pre c post htable hmem hpre
      rw [mockEmotionAnalysis_eq_classify, htable]
      exact classifyByPriority_of_first pre c post _ _ trigger hmem hin hpre
  · intro change
    constructor
    · simp only [getFallbackEmotion, toLowerCase_changeCase]
    · simp only [mockEmotionAnalysis, toLowerCase_changeCase]

/-- The text `I made dinner` holds `mad` inside `made` and no sad or happy
trigger, so it is classified as angry with sentiment -0.8; so is the text in
capital letters. -/
theorem substring_trigger_classifies_witness :
    includes (toLowerCase "I made dinner") "made" = true ∧
    includes "made" "mad" = true ∧
    getFallbackEmotion "I made dinner" =
      { emotion := "angry", sentiment := -0.8, mood := "angry" } ∧
    changeCase (fun _ => true) "I made dinner" = "i MADE DINNER" ∧
    getFallbackEmotion (changeCase (fun _ => true) "I made dinner") =
      getFallbackEmotion "I made dinner" :=
  ⟨by decide, by decide,
    ((substring_trigger_classifies "I made dinner").1 "made" "mad" (by decide) (by decide)).1
      [ { triggers := ["sad", "down", "upset"],
          result := { emotion := "sad", sentiment := -0.7, mood := "sad" } },
        { triggers := ["happy", "excited", "great"],
          result := { emotion := "happy", sentiment := 0.8, mood := "happy" } } ]
      { triggers := ["angry", "mad"],
        result := { emotion := "angry", sentiment := -0.8, mood := "angry" } }
      [ { triggers := ["?"],
          result := { emotion := "curious", sentiment := 0.2, mood := "curious" } } ]
      rfl (by decide) (by decide),
    by decide,
    ((substring_trigger_classifies "I made dinner").2 (fun _ => true)).1⟩

/-! ### Contextual memory -/

theorem includes_empty (s : String) : includes s "" = true := by
  rw [includes_iff]
  exact List.nil_infix

theorem toLower_of_isJsSpace (c : Char) (h : isJsSpace c = true) : c.toLower = c := by
  have hnot : ¬ (65 ≤ c.toNat ∧ c.toNat ≤ 90) := by
    simp only [isJsSpace, Bool.or_eq_true, Bool.and_eq_true, beq_iff_eq,
      decide_eq_true_eq] at h
    rcases h with ((((((((((((((h | h) | h) | h) | h) | h) | h) | h) | h) | h) | h) |
      h) | h) | h) | h)
    all_goals first
      | omega
      | (subst h; decide)
  unfold Char.toLower
  simp only [ge_iff_le]
  rw [if_neg hnot]

theorem splitWhitespaceAux_of_trailing_space (init : List Char) (c : Char)
    (hc : isJsSpace c = true) (current : List Char) (inGap : Bool)
    (hgap : inGap = true → current = []) :
    "" ∈ splitWhitespaceAux (init ++ [c]) current inGap := by
  induction init generalizing current inGap with
  | nil =>
    cases inGap with
    | true =>
      have hcur := hgap rfl
      subst hcur
      simp [splitWhitespaceAux, hc]
    | false =>
      simp [splitWhitespaceAux, hc]
  | cons d init ih =>
    rw [List.cons_append]
    unfold splitWhitespaceAux
    cases hd : isJsSpace d with
    | true =>
      cases inGap with
      | true =>
        simp only [if_true]
        exact ih current true hgap
      | false =>
        simp only [if_true, Bool.false_eq_true, if_false]
        exact List.mem_cons_of_mem _ (ih [] true (fun _ => rfl))
    | false =>
      simp only [Bool.false_eq_true, if_false]
      exact ih (current ++ [d]) false (fun h => absurd h Bool.false_ne_true)

theorem splitWhitespace_has_empty_word (message : String)
    (hblank : message = "" ∨
      (∃ c rest, message.data = c :: rest ∧ isJsSpace c = true) ∨
      (∃ init c, message.data = init ++ [c] ∧ isJsSpace c = true)) :
    "" ∈ splitWhitespace (toLowerCase message) := by
  unfold splitWhitespace toLowerCase
  rcases hblank with h | ⟨c, rest, h, hc⟩ | ⟨init, c, h, hc⟩
  · subst h
    simp [splitWhitespaceAux]
  · simp only [h, List.map_cons, toLower_of_isJsSpace c hc]
    unfold splitWhitespaceAux
    simp only [hc, if_true, Bool.false_eq_true, if_false]
    exact List.mem_cons_self _ _
  · simp only [h, List.map_append, List.map_cons, List.map_nil, toLower_of_isJsSpace c hc]
    exact splitWhitespaceAux_of_trailing_space _ c hc [] false
      (fun h => absurd h Bool.false_ne_true)

theorem sliceTo_length_le {α : Type} (l : List α) (stop : Int) (h : 0 ≤ stop) :
    ((sliceTo l stop).length : Int) ≤ stop := by
  unfold sliceTo
  rw [if_neg (not_lt.mpr h), List.length_take]
  omega

theorem getContextualMemory_of_profile (w : World) (userId currentMessage : String)
    (limit : Int) (profile : UserProfile) (hp : (getUserProfile w userId).1 = .ok profile) :
    (getContextualMemory w userId currentMessage limit).1 =
      { facts := sliceTo (profile.memory.importantFacts.filter (fun fact =>
          (splitWhitespace (toLowerCase currentMessage)).any (fun word =>
            includes (toLowerCase fact.fact) word ||
              match fact.category with
              | some category => includes (toLowerCase category) word
              | none => false))) limit
        experiences := recentExperiencesOf profile
        interests :=
          match profile.profile.interests with
          | some interests => interests.filter (fun interest =>
              (splitWhitespace (toLowerCase currentMessage)).any
                (fun word => includes (toLowerCase interest) word))
          | none => []
        relationships := sliceTo profile.memory.relationships 5 } := by
  have hload : getUserProfile w userId = (.ok profile, (getUserProfile w userId).2) :=
    Prod.ext hp rfl
  unfold getContextualMemory
  rw [hload]

/-- C30. `getContextualMemory` answers from the profile `getUserProfile`
returns. When the current message is empty or begins or ends with white
space, the split of the lower-cased message holds the empty word, which every
text includes, so the facts returned are the first `limit` stored facts in
stored order (for a negative `limit`, all but the last `-limit`) and the
interests returned are all the stored interests, whatever they say. For every
message the result has at most `limit` facts when `limit` is not negative, at
most 3 experiences and at most 5 relationships. -/
theorem getContextualMemory_blank_message (w : World) (userId currentMessage : String)
    (limit : Int) :
    ∃ profile, (getUserProfile w userId).1 = .ok profile ∧
      ((currentMessage = "" ∨
          (∃ c rest, currentMessage.data = c :: rest ∧ isJsSpace c = true) ∨
          (∃ init c, currentMessage.data = init ++ [c] ∧ isJsSpace c = true)) →
        "" ∈ splitWhitespace (toLowerCase currentMessage) ∧
        (∀ text : String, includes text "" = true) ∧
        (getContextualMemory w userId currentMessage limit).1.facts =
          sliceTo profile.memory.importantFacts limit ∧
        (getContextualMemory w userId currentMessage limit).1.interests =
          profile.profile.interests.getD []) ∧
      (0 ≤ limit →
        ((getContextualMemory w userId currentMessage limit).1.facts.length : Int) ≤ limit) ∧
      (getContextualMemory w userId currentMessage limit).1.experiences.length ≤ 3 ∧
      (getContextualMemory w userId currentMessage limit).1.relationships.length ≤ 5 := by
  obtain ⟨profile, hp⟩ := getUserProfile_ok w userId
  refine ⟨profile, hp, ?_, ?_, ?_, ?_⟩
  · intro hblank
    have hword := splitWhitespace_has_empty_word currentMessage hblank
    refine ⟨hword, includes_empty, ?_, ?_⟩
    · rw [getContextualMemory_of_profile w userId currentMessage limit profile hp]
      simp only
      congr 1
      rw [List.filter_eq_self]
      intro fact _
      rw [List.any_eq_true]
      exact ⟨"", hword, by rw [includes_empty]; rfl⟩
    · rw [getContextualMemory_of_profile w userId currentMessage limit profile hp]
      simp only
      cases profile.profile.interests with
      | none => rfl
      | some interests =>
        simp only [Option.getD_some]
        rw [List.filter_eq_self]
        intro interest _
        rw [List.any_eq_true]
        exact ⟨"", hword, includes_empty _⟩
  · intro hlimit
    rw [getContextualMemory_of_profile w userId currentMessage limit profile hp]
    exact sliceTo_length_le _ limit hlimit
  · rw [getContextualMemory_of_profile w userId currentMessage limit profile hp]
    have h := sliceTo_length_le (profile.memory.experiences.insertionSort
      (fun a b => dateNotLaterIn profile.datesAsText a b = true)) 3 (by norm_num)
    simp only [recentExperiencesOf]
    omega
  · rw [getContextualMemory_of_profile w userId currentMessage limit profile hp]
    have h := sliceTo_length_le profile.memory.relationships 5 (by norm_num)
    simp only
    omega

/-- A message that begins with a blank makes the stored fact and the stored
interest relevant, though neither holds a word of the message; without the
blank neither is returned. -/
theorem getContextualMemory_blank_message_witness :
    (∃ profile, (getUserProfile rememberingWorld "u1").1 = .ok profile ∧
      "" ∈ splitWhitespace (toLowerCase " hello") ∧
      (getContextualMemory rememberingWorld "u1" " hello" 10).1.facts =
        sliceTo profile.memory.importantFacts 10 ∧
      (getContextualMemory rememberingWorld "u1" " hello" 10).1.interests =
        profile.profile.interests.getD []) ∧
    (getContextualMemory rememberingWorld "u1" " hello" 10).1.facts.map (fun f => f.fact) =
      ["Name is John"] ∧
    (getContextualMemory rememberingWorld "u1" " hello" 10).1.interests = ["guitar"] ∧
    (getContextualMemory rememberingWorld "u1" "hello" 10).1.facts = [] ∧
    (getContextualMemory rememberingWorld "u1" "hello" 10).1.interests = [] :=
  ⟨(getContextualMemory_blank_message rememberingWorld "u1" " hello" 10).elim
      (fun profile h =>
        ⟨profile, h.1,
          (h.2.1 (Or.inr (Or.inl ⟨' ', "hello".data, rfl, by decide⟩))).1,
          (h.2.1 (Or.inr (Or.inl ⟨' ', "hello".data, rfl, by decide⟩))).2.2.1,
          (h.2.1 (Or.inr (Or.inl ⟨' ', "hello".data, rfl, by decide⟩))).2.2.2⟩),
    by decide, by decide, by decide, by decide⟩

end StanTask
